import Mathlib

/-! Verification of fibertel-station-exporter: session protocol and metric projection.

A shallow embedding of `collector/api.go` and `collector/collector.go`.

Conventions of the embedding.

* A Go `string` is a Lean `String`; `[]byte(s)` is its UTF-8 encoding, a list of
  natural numbers below 256.
* A `float64` value is the rational number the float denotes. The results of
  `strconv.ParseFloat` and of the float64 product are rounded to the nearest
  float64, ties to even, with gradual underflow (`nearestFloat64`), and
  `strconv.ParseFloat` reports its range error. The one float64 value without a
  rational, `+Inf` as the result of a product, is outside the embedding.
* The selector `upstreamChannel.Locked` of `collector.go:170` names no field of
  `DocsisUpstreamChannel`; its value is a parameter of the embedding
  (`Env.upstreamLocked`), so that every statement holds whatever it yields.
* Library routines the code calls (`crypto/sha256`, `crypto/hmac`,
  `golang.org/x/crypto/pbkdf2`, `encoding/hex`, `regexp`, `strconv`) are embedded
  from their published algorithms, each next to the call that uses it.
-/

namespace Fibertel

/-! ## Bytes -/

/-- Go conversion `[]byte(s)`: the UTF-8 bytes of a string. -/
def bytesOf (s : String) : List Nat :=
  (s.data.flatMap String.utf8EncodeChar).map UInt8.toNat

/-- Big-endian bytes of a 32-bit word: `byte(w >> 24), byte(w >> 16), byte(w >> 8), byte(w)`. -/
def be32 (w : Nat) : List Nat :=
  [(w >>> 24) % 256, (w >>> 16) % 256, (w >>> 8) % 256, w % 256]

/-- Bytewise exclusive or, as the loop `for x := range U { T[x] ^= U[x] }`. -/
def xorBytes (t u : List Nat) : List Nat :=
  List.zipWith (fun a b => a ^^^ b) t u

/-! ## SHA-256 (`crypto/sha256`, FIPS 180-4) -/

/-- Round constants of SHA-256. -/
def K256 : List Nat :=
  [0x428a2f98, 0x71374491, 0xb5c0fbcf, 0xe9b5dba5, 0x3956c25b, 0x59f111f1, 0x923f82a4, 0xab1c5ed5,
   0xd807aa98, 0x12835b01, 0x243185be, 0x550c7dc3, 0x72be5d74, 0x80deb1fe, 0x9bdc06a7, 0xc19bf174,
   0xe49b69c1, 0xefbe4786, 0x0fc19dc6, 0x240ca1cc, 0x2de92c6f, 0x4a7484aa, 0x5cb0a9dc, 0x76f988da,
   0x983e5152, 0xa831c66d, 0xb00327c8, 0xbf597fc7, 0xc6e00bf3, 0xd5a79147, 0x06ca6351, 0x14292967,
   0x27b70a85, 0x2e1b2138, 0x4d2c6dfc, 0x53380d13, 0x650a7354, 0x766a0abb, 0x81c2c92e, 0x92722c85,
   0xa2bfe8a1, 0xa81a664b, 0xc24b8b70, 0xc76c51a3, 0xd192e819, 0xd6990624, 0xf40e3585, 0x106aa070,
   0x19a4c116, 0x1e376c08, 0x2748774c, 0x34b0bcb5, 0x391c0cb3, 0x4ed8aa4a, 0x5b9cca4f, 0x682e6ff3,
   0x748f82ee, 0x78a5636f, 0x84c87814, 0x8cc70208, 0x90befffa, 0xa4506ceb, 0xbef9a3f7, 0xc67178f2]

/-- The eight working registers of SHA-256, each a 32-bit word. -/
structure Regs where
  a : Nat
  b : Nat
  c : Nat
  d : Nat
  e : Nat
  f : Nat
  g : Nat
  h : Nat
deriving DecidableEq, Repr

/-- Initial hash value of SHA-256. -/
def IV256 : Regs :=
  ⟨0x6a09e667, 0xbb67ae85, 0x3c6ef372, 0xa54ff53a, 0x510e527f, 0x9b05688c, 0x1f83d9ab, 0x5be0cd19⟩

/-- Addition of 32-bit words. -/
def add32 (x y : Nat) : Nat := (x + y) % 2 ^ 32

/-- Rotation of a 32-bit word to the right. -/
def rotr32 (x n : Nat) : Nat := ((x >>> n) ||| (x <<< (32 - n))) % 2 ^ 32

/-- Choice function `(x AND y) XOR (NOT x AND z)`. -/
def ch32 (x y z : Nat) : Nat := (x &&& y) ^^^ ((x ^^^ 0xffffffff) &&& z)

/-- Majority function. -/
def maj32 (x y z : Nat) : Nat := (x &&& y) ^^^ (x &&& z) ^^^ (y &&& z)

/-- Upper-case sigma 0. -/
def bigSigma0 (x : Nat) : Nat := rotr32 x 2 ^^^ rotr32 x 13 ^^^ rotr32 x 22

/-- Upper-case sigma 1. -/
def bigSigma1 (x : Nat) : Nat := rotr32 x 6 ^^^ rotr32 x 11 ^^^ rotr32 x 25

/-- Lower-case sigma 0. -/
def smallSigma0 (x : Nat) : Nat := rotr32 x 7 ^^^ rotr32 x 18 ^^^ (x >>> 3)

/-- Lower-case sigma 1. -/
def smallSigma1 (x : Nat) : Nat := rotr32 x 17 ^^^ rotr32 x 19 ^^^ (x >>> 10)

/-- The sixteen big-endian words of a 64-byte block. -/
def blockWords (block : List Nat) : List Nat :=
  (List.range 16).map fun i =>
    block.getD (4 * i) 0 * 2 ^ 24 + block.getD (4 * i + 1) 0 * 2 ^ 16
      + block.getD (4 * i + 2) 0 * 2 ^ 8 + block.getD (4 * i + 3) 0

/-- Message schedule: the sixteen block words extended to sixty-four. -/
def schedule (w16 : List Nat) : List Nat :=
  (List.range 48).foldl
    (fun w i =>
      let t := i + 16
      w ++ [add32 (add32 (add32 (smallSigma1 (w.getD (t - 2) 0)) (w.getD (t - 7) 0))
              (smallSigma0 (w.getD (t - 15) 0))) (w.getD (t - 16) 0)])
    w16

/-- One of the sixty-four rounds, on a round constant and a schedule word. -/
def round256 (r : Regs) (kw : Nat × Nat) : Regs :=
  let t1 := add32 (add32 (add32 (add32 r.h (bigSigma1 r.e)) (ch32 r.e r.f r.g)) kw.1) kw.2
  let t2 := add32 (bigSigma0 r.a) (maj32 r.a r.b r.c)
  ⟨add32 t1 t2, r.a, r.b, r.c, add32 r.d t1, r.e, r.f, r.g⟩

/-- Compression of one 64-byte block into the chaining value. -/
def compress (s : Regs) (block : List Nat) : Regs :=
  let r := (K256.zip (schedule (blockWords block))).foldl round256 s
  ⟨add32 s.a r.a, add32 s.b r.b, add32 s.c r.c, add32 s.d r.d,
   add32 s.e r.e, add32 s.f r.f, add32 s.g r.g, add32 s.h r.h⟩

/-- Padding: a one bit, zero bytes up to 56 modulo 64, the bit length on 64 bits. -/
def pad256 (msg : List Nat) : List Nat :=
  let bits := (8 * msg.length) % 2 ^ 64
  msg ++ [0x80] ++ List.replicate ((64 - (msg.length + 9) % 64) % 64) 0
    ++ be32 (bits >>> 32) ++ be32 (bits % 2 ^ 32)

/-- Cuts a byte string into 64-byte blocks; `fuel` bounds the number of blocks. -/
def blocks64 : Nat → List Nat → List (List Nat)
  | 0, _ => []
  | fuel + 1, l => if l.isEmpty then [] else l.take 64 :: blocks64 fuel (l.drop 64)

/-- The chaining value after the whole padded message. -/
def sha256Regs (msg : List Nat) : Regs :=
  let p := pad256 msg
  (blocks64 p.length p).foldl compress IV256

/-- Function `sha256.Sum256`: the 32 digest bytes of a message. -/
def sha256 (msg : List Nat) : List Nat :=
  let r := sha256Regs msg
  be32 r.a ++ be32 r.b ++ be32 r.c ++ be32 r.d ++ be32 r.e ++ be32 r.f ++ be32 r.g ++ be32 r.h

/-! ## HMAC (`crypto/hmac`, RFC 2104) with SHA-256 -/

/-- The key block of `hmac.New`: a key longer than the 64-byte block is hashed
first, then the key is zero-padded to 64 bytes. -/
def hmacKeyBlock (key : List Nat) : List Nat :=
  let k := if key.length > 64 then sha256 key else key
  k ++ List.replicate (64 - k.length) 0

/-- HMAC-SHA256 of a message under a key. -/
def hmacSha256 (key msg : List Nat) : List Nat :=
  let kb := hmacKeyBlock key
  let ipad := kb.map fun b => b ^^^ 0x36
  let opad := kb.map fun b => b ^^^ 0x5c
  sha256 (opad ++ sha256 (ipad ++ msg))

/-! ## PBKDF2 (`golang.org/x/crypto/pbkdf2`, RFC 8018) -/

/-- Size in bytes of the pseudo-random function output, `prf.Size()`. -/
def hashLen : Nat := 32

/-- One derived block `T_i = U_1 ^ U_2 ^ ... ^ U_iter`, with
`U_1 = PRF(password, salt || uint(i))` and `U_n = PRF(password, U_(n-1))`.
The pair carried by the loop is `(T, U)`. -/
def pbkdf2Block (password salt : List Nat) (iter block : Nat) : List Nat :=
  let u1 := hmacSha256 password (salt ++ be32 block)
  ((List.range (iter - 1)).foldl
    (fun (tu : List Nat × List Nat) _ =>
      let u := hmacSha256 password tu.2
      (xorBytes tu.1 u, u))
    (u1, u1)).1

/-- Function `pbkdf2.Key(password, salt, iter, keyLen, sha256.New)`: the blocks
`T_1 .. T_numBlocks` concatenated and cut to `keyLen` bytes. -/
def pbkdf2Key (password salt : List Nat) (iter keyLen : Nat) : List Nat :=
  let numBlocks := (keyLen + hashLen - 1) / hashLen
  let dk := (List.range numBlocks).flatMap fun i => pbkdf2Block password salt iter (i + 1)
  dk.take keyLen

/-! ## Hexadecimal encoding (`encoding/hex`) -/

/-- The digit table of `encoding/hex`. -/
def hextable : List Char := "0123456789abcdef".data

/-- Function `hex.EncodeToString`: two digits per byte, high nibble first. -/
def hexEncodeToString (src : List Nat) : String :=
  String.mk (src.flatMap fun v => [hextable.getD (v >>> 4) '?', hextable.getD (v &&& 0x0f) '?'])

/-! ## Password derivation (`api.go`, lines 261-269) -/

/-- Source `DoPbkdf2NotCoded`: `pbkdf2.Key(key, salt, 0x3e8, 0x80, sha256.New)`,
cut to its first 16 bytes and hex-encoded. -/
def DoPbkdf2NotCoded (key salt : String) : String :=
  let temp := pbkdf2Key (bytesOf key) (bytesOf salt) 0x3e8 0x80
  hexEncodeToString (temp.take 16)

/-- Source `GetLoginPassword`: derives the password using the given salts. -/
def GetLoginPassword (password salt saltWebUI : String) : String :=
  DoPbkdf2NotCoded (DoPbkdf2NotCoded password salt) saltWebUI

/-- Spec KDF: PBKDF2-HMAC-SHA256 with 1000 iterations and a 128-bit (16-byte)
output, truncated to its first 16 bytes and hex-encoded in lower case. -/
def KDF (key s : String) : String :=
  hexEncodeToString ((pbkdf2Key (bytesOf key) (bytesOf s) 1000 16).take 16)

/-- Invariant of the inner loop of `pbkdf2.Key`: a block of 32 bytes. -/
def BlockOk (l : List Nat) : Prop := l.length = 32 ∧ ∀ b ∈ l, b < 256

/-! ## CSRF token extraction (`api.go`, lines 252-256) -/

/-- The literal `auth=` at the head of the input; what follows it, if it matches. -/
def afterAuth : List Char → Option (List Char)
  | 'a' :: 'u' :: 't' :: 'h' :: '=' :: rest => some rest
  | _ => none

/-- A match of `auth=([^;]+)` anchored at the head of the input, as the pair of
the whole match and capture group 1. The group is greedy: the longest run of
characters other than `;`, which must not be empty. -/
def matchAuthHere (s : List Char) : Option (List Char × List Char) :=
  match afterAuth s with
  | none => none
  | some rest =>
    let g := rest.takeWhile fun c => c != ';'
    if g.isEmpty then none else some ("auth=".data ++ g, g)

/-- Method `FindStringSubmatch` of the regexp `auth=([^;]+)`: the leftmost match,
as the slice of the whole match and the group, or the nil slice. -/
def FindStringSubmatch : List Char → List (List Char)
  | [] => []
  | c :: cs =>
    match matchAuthHere (c :: cs) with
    | some (whole, g) => [whole, g]
    | none => FindStringSubmatch cs

/-- The value of `csrfToken` after lines 252-256 of `doRequest`, from its value
before and the `Set-Cookie` header of the response. -/
def csrfTokenAfter (csrfToken setCookie : String) : String :=
  let csrfTokenMatches := FindStringSubmatch setCookie.data
  if csrfTokenMatches.length ≥ 2 then String.mk (csrfTokenMatches.getD 1 []) else csrfToken

/-! ## Numeric coercion (`collector.go`, lines 193-208) -/

/-- Character class `[^\.0-9]`. -/
def nonNumeric (c : Char) : Bool := !(c == '.' || c.isDigit)

/-- Method `ReplaceAllString` of the regexp `[^\.0-9]+`: every maximal run of
class characters is one match and is replaced by `repl`. The flag tells whether
the scan is inside a run. -/
def ReplaceAllString (repl : List Char) : Bool → List Char → List Char
  | _, [] => []
  | inRun, c :: cs =>
    if nonNumeric c then (if inRun then [] else repl) ++ ReplaceAllString repl true cs
    else c :: ReplaceAllString repl false cs

/-- The scan state of `strconv.readFloat`: dot seen, digit seen, the digits read
so far as a number, the count of digits after the dot. -/
structure ReadFloat where
  sawdot : Bool
  sawdigits : Bool
  mantissa : Nat
  frac : Nat
deriving DecidableEq, Repr

/-- One character of the `readFloat` loop on decimal input; `none` when the loop
stops before the end of the input (a second dot, or a character that is neither
a digit nor a dot). -/
def readFloatStep (st : ReadFloat) (c : Char) : Option ReadFloat :=
  if c == '.' then
    if st.sawdot then none else some ⟨true, st.sawdigits, st.mantissa, st.frac⟩
  else if c.isDigit then
    some ⟨st.sawdot, true, st.mantissa * 10 + (c.toNat - 48),
      if st.sawdot then st.frac + 1 else st.frac⟩
  else none

/-- Least value that rounds to infinity in float64: `2^1024 - 2^970`, half an
ulp above the largest finite float64. -/
def float64Overflow : Nat := 2 ^ 1024 - 2 ^ 970

/-- The integer nearest to `N/D`, a tie going to the even one (IEEE 754
round-to-nearest-even). -/
def roundHalfEven (N D : Nat) : Nat :=
  let q := N / D
  let r := N % D
  if 2 * r < D then q
  else if D < 2 * r then q + 1
  else if q % 2 = 0 then q else q + 1

/-- The unit in the last place of the float64 numbers around `n/d`, as the
exponent `k` of `2^k / 2^1074`: with `e` the exponent of the leading bit of
`n/d`, the unit is `2^(e-52)`, and `2^(-1074)` in the subnormal range `e < -1022`;
so `k = e + 1022`, the bit length less one of the integer part of
`n/d * 2^1022`, and `k = 0` when that integer part is 0. -/
def ulpShift (n d : Nat) : Nat := Nat.log2 (n * 2 ^ 1022 / d)

/-- The float64 nearest to `n/d`, as the pair `(M, k)` of the multiple and the
exponent of its unit in the last place: `n/d` is rounded to `M` units
`2^k / 2^1074`, ties to even. -/
def roundFloat64 (n d : Nat) : Nat × Nat :=
  (roundHalfEven (n * 2 ^ 1074) (d * 2 ^ ulpShift n d), ulpShift n d)

/-- The float64 nearest to a rational that is not negative, as the rational it
equals. A value too small for float64 gives 0 or a subnormal number, without
error; values that round to infinity are kept out by `ParseFloat`. -/
def nearestFloat64 (q : ℚ) : ℚ :=
  ((roundFloat64 q.num.toNat q.den).1 : ℚ) * 2 ^ (roundFloat64 q.num.toNat q.den).2 / 2 ^ 1074

/-- The float64 product `a * b` of two float64 numbers that are not negative:
the exact product rounded to the nearest float64. A product of `2^1024 - 2^970`
or more, which float64 gives as `+Inf`, has no rational value and is outside
this embedding. -/
def mulFloat64 (a b : ℚ) : ℚ := nearestFloat64 (a * b)

/-- Function `strconv.ParseFloat(s, 64)` on the strings `parse2float` passes to
it, which hold only digits and dots: digits with at most one dot and at least
one digit are accepted, the result is the float64 nearest to the digits over a
power of ten, and a value that rounds to infinity is a range error. Any other
scan is a syntax error. (Signs, exponents, hexadecimal and special values all
need a character the regexp has removed.) -/
def ParseFloat (s : List Char) : Except String ℚ :=
  match s.foldlM readFloatStep ⟨false, false, 0, 0⟩ with
  | none => .error "invalid syntax"
  | some st =>
    if !st.sawdigits then .error "invalid syntax"
    else if float64Overflow * 10 ^ st.frac ≤ st.mantissa then .error "value out of range"
    else .ok (nearestFloat64 ((st.mantissa : ℚ) / 10 ^ st.frac))

/-- Source `parse2float`. -/
def parse2float (str : String) : ℚ :=
  let processedString := ReplaceAllString [] false str.data
  match ParseFloat processedString with
  | .error _ => 0
  | .ok value => value

/-- Source `bool2float64`. -/
def bool2float64 (b : Bool) : ℚ :=
  if b then 1 else 0

/-! ### The words of the spec on numeric coercion -/

/-- Spec: the string with every character deleted that is not a digit or a dot. -/
def digitsAndDots (s : String) : List Char :=
  s.data.filter fun c => c.isDigit || c == '.'

/-- Spec: a valid decimal number is made of digits with at most one dot and at
least one digit. -/
def validDecimal (l : List Char) : Bool :=
  l.all (fun c => c.isDigit || c == '.') && decide (l.count '.' ≤ 1) && l.any Char.isDigit

/-- The digits of a string read as one decimal integer. -/
def digitsNat (l : List Char) : Nat :=
  Nat.ofDigits 10 ((l.filter Char.isDigit).reverse.map fun c => c.toNat - 48)

/-- The number of digits of a string. -/
def digitCount (l : List Char) : Nat := (l.filter Char.isDigit).length

/-- Spec: the decimal value of a valid decimal number, its digits read as one
integer over ten to the number of digits behind the dot. -/
def decimalValue (l : List Char) : ℚ :=
  (digitsNat l : ℚ) / 10 ^ digitCount (l.dropWhile fun c => c != '.')

/-- A string of 310 digits, a one and 309 zeros: the decimal number `10^309`. -/
def tenTo309 : String := String.mk ('1' :: List.replicate 309 '0')

/-- A string of 403 characters, `0.` then 400 zeros then a one: the decimal
number `10^(-401)`, below the smallest float64. -/
def tenToMinus401 : String := String.mk ('0' :: '.' :: (List.replicate 400 '0' ++ ['1']))

/-! ## Wire types (`api.go`, lines 30-116)

A pointer field is an `Option`, `nil` being `none`; a slice of pointers is a list
of options. -/

/-- Source `LoginResponseSalts`. -/
structure LoginResponseSalts where
  Error : String
  Salt : String
  SaltWebUI : String
deriving DecidableEq, Repr

/-- Source `LoginResponseData`. -/
structure LoginResponseData where
  Interface : String
  User : String
  Uid : String
  DefaultPassword : String
  RemoteAddress : String
  UserAgent : String
  HttpReferer : String
deriving DecidableEq, Repr

/-- Source `LoginResponse`. -/
structure LoginResponse where
  Error : String
  Message : String
  Data : Option LoginResponseData
deriving DecidableEq, Repr

/-- Source `LogoutResponse`. -/
structure LogoutResponse where
  Error : String
  Message : String
deriving DecidableEq, Repr

/-- Source `OfdmDownstreamData`. -/
structure OfdmDownstreamData where
  Id : String
  ChannelIdOfdm : String
  StartFrequency : String
  PLCFrequency : String
  CentralFrequencyOfdm : String
  Bandwidth : String
  PowerOfdm : String
  SnrOfdm : String
  FftOfdm : String
  LockedOfdm : String
  ChannelType : String
deriving DecidableEq, Repr

/-- Source `OfdmUpstreamData`. -/
structure OfdmUpstreamData where
  Id : String
  ChannelIdOfdm : String
  StartFrequency : String
  PLCFrequency : String
  CentralFrequencyOfdm : String
  Bandwidth : String
  PowerOfdm : String
  FftOfdm : String
  LockedOfdm : String
  ChannelType : String
deriving DecidableEq, Repr

/-- Source `DocsisDownstreamChannel`. -/
structure DocsisDownstreamChannel where
  Id : String
  ChannelId : String
  CentralFrequency : String
  Power : String
  Snr : String
  Modulation : String
  Locked : String
  ChannelType : String
deriving DecidableEq, Repr

/-- Source `DocsisUpstreamChannel`. Its lock field, read from the JSON key
`LockStatus`, is declared under the name `LockStatus`. -/
structure DocsisUpstreamChannel where
  Id : String
  ChannelIdUp : String
  CentralFrequency : String
  Power : String
  ChannelType : String
  SymbolRate : String
  LockStatus : String
deriving DecidableEq, Repr

/-- Source `ModemStatusData`. -/
structure ModemStatusData where
  OfdmUpstreamData : List (Option OfdmUpstreamData)
  OfdmDownstreamData : List (Option OfdmDownstreamData)
  Downstream : List (Option DocsisDownstreamChannel)
  Upstream : List (Option DocsisUpstreamChannel)
deriving DecidableEq, Repr

/-- Source `ModemStatusResponse`. -/
structure ModemStatusResponse where
  Error : String
  Message : String
  Data : Option ModemStatusData
deriving DecidableEq, Repr

/-- Source `FibertelStation`, without its HTTP client, which is part of `Env`. -/
structure FibertelStation where
  URL : String
  Username : String
  Password : String
deriving DecidableEq, Repr

/-! ## The HTTP transport and the libraries around it -/

/-- An HTTP request as `doRequest` builds it. -/
structure Request where
  Method : String
  URL : String
  Header : List (String × String)
  Body : String
deriving DecidableEq, Repr

/-- What `doRequest` reads of an HTTP response: the `Set-Cookie` header as
`response.Header.Get` gives it, and the outcome of `io.ReadAll(response.Body)`. -/
structure Response where
  SetCookie : String
  Body : Except String String

/-- The surroundings of the program, over a world state `σ` that holds the
device, the cookie jar and the clock: `http.NewRequest` (its error, if any, on a
method and a URL), `client.Do`, `makeTimestamp`, `url.Values.Encode` on the
pairs set, and `json.Unmarshal` into a fresh value of each target type (the
value it leaves and its error, if any). The last field stands for the selector
`upstreamChannel.Locked` of `collector.go:170`: `DocsisUpstreamChannel` declares
no field of that name, so what the selector yields is left open. -/
structure Env (σ : Type) where
  NewRequest : String → String → Option String
  Do : σ → Request → σ × Except String Response
  makeTimestamp : σ → Int
  Encode : List (String × String) → String
  UnmarshalSalts : String → LoginResponseSalts × Option String
  UnmarshalLogin : String → LoginResponse × Option String
  UnmarshalLogout : String → LogoutResponse × Option String
  UnmarshalModemStatus : String → ModemStatusResponse × Option String
  upstreamLocked : DocsisUpstreamChannel → String

/-- The methods of `FibertelStation` that `Collect` calls. -/
inductive ApiCall where
  | Login
  | GetModemStatus
  | Logout
deriving DecidableEq, Repr

/-- State of a run: the world, the package variable `csrfToken`, and three
records of what happened, each in order: the requests handed to `client.Do`,
the station methods entered, the lines written by `fmt.Println`. -/
structure State (σ : Type) where
  world : σ
  csrfToken : String
  sent : List Request
  calls : List ApiCall
  stdout : List String

/-- The request `doRequest` builds from its arguments and the current token. -/
def buildRequest (csrfToken method url body : String) : Request :=
  { Method := method
    URL := url
    Header :=
      (if method = "POST" then
        [("Content-Type", "application/x-www-form-urlencoded; charset=UTF-8")] else [])
      ++ [("Referer", "http://192.168.0.1"), ("X-Requested-With", "XMLHttpRequest"),
          ("X-Csrf-Token", csrfToken)]
    Body := body }

/-- Source `FibertelStation.doRequest`. -/
def doRequest {σ : Type} (env : Env σ) (st : State σ) (method url body : String) :
    State σ × Except String String :=
  match env.NewRequest method url with
  | some err => (st, .error err)
  | none =>
    let request := buildRequest st.csrfToken method url body
    match env.Do st.world request with
    | (w, .error err) => ({ st with world := w, sent := st.sent ++ [request] }, .error err)
    | (w, .ok response) =>
      ({ st with
          world := w
          sent := st.sent ++ [request]
          csrfToken := csrfTokenAfter st.csrfToken response.SetCookie },
        response.Body)

/-- Source `FibertelStation.getLoginSalts`. -/
def getLoginSalts {σ : Type} (env : Env σ) (v : FibertelStation) (st : State σ) :
    State σ × Except String LoginResponseSalts :=
  let data := env.Encode
    [("username", v.Username), ("password", "seeksalthash"), ("logout", "true")]
  match doRequest env st "POST" (v.URL ++ "/api/v1/session/login") data with
  | (st1, .error err) => (st1, .error err)
  | (st1, .ok responseBody) =>
    match env.UnmarshalSalts responseBody with
    | (_, some err) => (st1, .error err)
    | (loginResponseSalts, none) =>
      if loginResponseSalts.Error ≠ "ok" then
        (st1, .error "Got non error=ok message from fibertel station")
      else (st1, .ok loginResponseSalts)

/-- Source `FibertelStation.Login`. The error of `json.Unmarshal` is dropped,
as at line 165. -/
def Login {σ : Type} (env : Env σ) (v : FibertelStation) (st : State σ) :
    State σ × Except String LoginResponse :=
  let st := { st with calls := st.calls ++ [ApiCall.Login] }
  match doRequest env st "GET" v.URL "" with
  | (st1, .error err) => (st1, .error err)
  | (st1, .ok _) =>
    match getLoginSalts env v st1 with
    | (st2, .error err) => (st2, .error err)
    | (st2, .ok loginResponseSalts) =>
      let derivedPassword :=
        GetLoginPassword v.Password loginResponseSalts.Salt loginResponseSalts.SaltWebUI
      let data := env.Encode [("username", v.Username), ("password", derivedPassword)]
      match doRequest env st2 "POST" (v.URL ++ "/api/v1/session/login") data with
      | (st3, .error err) => (st3, .error err)
      | (st3, .ok responseBody) =>
        let loginResponse := (env.UnmarshalLogin responseBody).1
        if loginResponse.Error ≠ "ok" then
          (st3, .error "got non error=ok message from fibertel station")
        else
          match doRequest env st3 "GET" (v.URL ++ "/api/v1/session/menu") "" with
          | (st4, .error err) => (st4, .error err)
          | (st4, .ok _) => (st4, .ok loginResponse)

/-- Source `FibertelStation.Logout`. -/
def Logout {σ : Type} (env : Env σ) (v : FibertelStation) (st : State σ) :
    State σ × Except String LogoutResponse :=
  let st := { st with calls := st.calls ++ [ApiCall.Logout] }
  match doRequest env st "POST" (v.URL ++ "/api/v1/session/logout") "" with
  | (st1, .error err) => (st1, .error err)
  | (st1, .ok responseBody) =>
    match env.UnmarshalLogout responseBody with
    | (_, some err) => (st1, .error err)
    | (logoutResponse, none) =>
      if logoutResponse.Error ≠ "ok" then
        (st1, .error "Got non error=ok message from fibertel station")
      else (st1, .ok logoutResponse)

/-- The URL of the diagnostics request for a timestamp already formatted. -/
def modemStatusURL (v : FibertelStation) (timestamp : String) : String :=
  v.URL ++ "/api/v1/modem/exUSTbl,exDSTbl,USTbl,DSTbl?_=" ++ timestamp

/-- Source `FibertelStation.GetModemStatus`: the response pointer, `nil` when the
request failed, and the error, that of the request or that of `json.Unmarshal`. -/
def GetModemStatus {σ : Type} (env : Env σ) (v : FibertelStation) (st : State σ) :
    State σ × Option ModemStatusResponse × Option String :=
  let st := { st with calls := st.calls ++ [ApiCall.GetModemStatus] }
  match doRequest env st "GET" (modemStatusURL v (toString (env.makeTimestamp st.world))) "" with
  | (st1, .error err) => (st1, none, some err)
  | (st1, .ok responseBody) =>
    let r := env.UnmarshalModemStatus responseBody
    (st1, some r.1, r.2)

/-! ## Metrics (`collector.go`) -/

/-- A metric descriptor as `prometheus.NewDesc` is given it: name, help text and
the names of the variable labels, in order. -/
structure Desc where
  fqName : String
  help : String
  variableLabels : List String
deriving DecidableEq, Repr

/-- An observation sent on the channel of `Collect`: a gauge with its
descriptor, its value and the values of the variable labels, in order. The
value is the rational a finite float64 denotes. -/
structure Metric where
  desc : Desc
  value : ℚ
  labelValues : List String
deriving DecidableEq, Repr

/-- The labels of an observation: the label names of the descriptor paired with
the label values. -/
def Metric.labels (m : Metric) : List (String × String) :=
  m.desc.variableLabels.zip m.labelValues

/-- Function `prometheus.MustNewConstMetric` for a gauge: it panics (`none`)
when the number of label values differs from the number of variable labels. -/
def MustNewConstMetric (desc : Desc) (value : ℚ) (labelValues : List String) : Option Metric :=
  if labelValues.length = desc.variableLabels.length then some ⟨desc, value, labelValues⟩
  else none

/-- Source constant `prefix`. -/
def metricPrefix : String := "fibertel_"

/-- Source `downstreamChannelLabels` (line 59). -/
def downstreamChannelLabels : List String := ["id", "channel_id", "fft", "channel_type"]

/-- Source `ofdmDownstreamChannelLabels` (line 65). -/
def ofdmDownstreamChannelLabels : List String := ["id", "channel_id_ofdm", "fft", "channel_type"]

/-- Source `upstreamLabels` (line 74). -/
def upstreamLabels : List String := ["id", "channel_id_up", "fft", "channel_type"]

/-- Source `ofdmUpstreamChannelLabels` (line 80). -/
def ofdmUpstreamChannelLabels : List String := ["id", "channel_id_ofdm", "fft", "channel_type"]

def loginSuccessDesc : Desc :=
  ⟨metricPrefix ++ "login_success_bool", "1 if the login was successfull", []⟩
def loginMessageDesc : Desc :=
  ⟨metricPrefix ++ "login_message_info", "Login message returned by the web interface",
    ["message"]⟩
def userDesc : Desc :=
  ⟨metricPrefix ++ "user_info", "User name as returned by the web interface", ["username"]⟩
def uidDesc : Desc :=
  ⟨metricPrefix ++ "uid_info", "User id as returned by the web interface", ["uid"]⟩
def defaultPasswordDesc : Desc :=
  ⟨metricPrefix ++ "default_password_bool", "1 if the default password is in use", []⟩

def centralFrequencyDownstreamDesc : Desc :=
  ⟨metricPrefix ++ "downstream_central_frequency_hertz", "Central frequency in hertz",
    downstreamChannelLabels⟩
def powerDownstreamDesc : Desc :=
  ⟨metricPrefix ++ "downstream_power_dBmV", "Power in dBmV", downstreamChannelLabels⟩
def snrDownstreamDesc : Desc :=
  ⟨metricPrefix ++ "downstream_snr_dB", "SNR in dB", downstreamChannelLabels⟩
def lockedDownstreamDesc : Desc :=
  ⟨metricPrefix ++ "downstream_locked_bool", "Locking status", downstreamChannelLabels⟩

def startFrequencyOfdmDownstreamDesc : Desc :=
  ⟨metricPrefix ++ "ofdm_downstream_start_frequency_hertz", "Start frequency",
    ofdmDownstreamChannelLabels⟩
def endFrequencyOfdmDownstreamDesc : Desc :=
  ⟨metricPrefix ++ "ofdm_downstream_end_frequency_hertz", "End frequency",
    ofdmDownstreamChannelLabels⟩
def centralFrequencyOfdmDownstreamDesc : Desc :=
  ⟨metricPrefix ++ "ofdm_downstream_central_frequency_hertz", "Central frequency",
    ofdmDownstreamChannelLabels⟩
def bandwidthOfdmDownstreamDesc : Desc :=
  ⟨metricPrefix ++ "ofdm_downstream_bandwidth_hertz", "Bandwidth", ofdmDownstreamChannelLabels⟩
def powerOfdmDownstreamDesc : Desc :=
  ⟨metricPrefix ++ "ofdm_downstream_power_dBmV", "Power", ofdmDownstreamChannelLabels⟩
def snrOfdmDownstreamDesc : Desc :=
  ⟨metricPrefix ++ "ofdm_downstream_snr_dB", "SNR", ofdmDownstreamChannelLabels⟩
def lockedOfdmDownstreamDesc : Desc :=
  ⟨metricPrefix ++ "ofdm_downstream_locked_bool", "Locking status", ofdmDownstreamChannelLabels⟩

def centralFrequencyUpstreamDesc : Desc :=
  ⟨metricPrefix ++ "upstream_central_frequency_hertz", "Central frequency", upstreamLabels⟩
def powerUpstreamDesc : Desc :=
  ⟨metricPrefix ++ "upstream_power_dBmV", "Power", upstreamLabels⟩
def rangingStatusUpstreamDesc : Desc :=
  ⟨metricPrefix ++ "upstream_ranging_status_info", "Ranging status", upstreamLabels ++ ["status"]⟩
def lockedUpstreamDesc : Desc :=
  ⟨metricPrefix ++ "upstream_locked_bool", "Locking status", upstreamLabels⟩

def startFrequencyOfdmUpstreamDesc : Desc :=
  ⟨metricPrefix ++ "ofdm_upstream_start_frequency_hertz", "Start frequency",
    ofdmUpstreamChannelLabels⟩
def endFrequencyOfdmUpstreamDesc : Desc :=
  ⟨metricPrefix ++ "ofdm_upstream_end_frequency_hertz", "End frequency",
    ofdmUpstreamChannelLabels⟩
def centralFrequencyOfdmUpstreamDesc : Desc :=
  ⟨metricPrefix ++ "ofdm_upstream_central_frequency_hertz", "Central frequency",
    ofdmUpstreamChannelLabels⟩
def bandwidthOfdmUpstreamDesc : Desc :=
  ⟨metricPrefix ++ "ofdm_upstream_bandwidth_hertz", "Bandwidth", ofdmUpstreamChannelLabels⟩
def powerOfdmUpstreamDesc : Desc :=
  ⟨metricPrefix ++ "ofdm_upstream_power_dBmV", "Power", ofdmUpstreamChannelLabels⟩
def lockedOfdmUpstreamDesc : Desc :=
  ⟨metricPrefix ++ "ofdm_upstream_locked_bool", "Locking status", ofdmUpstreamChannelLabels⟩

def logoutSuccessDesc : Desc :=
  ⟨metricPrefix ++ "logout_success_bool", "1 if the logout was successfull", []⟩
def logoutMessageDesc : Desc :=
  ⟨metricPrefix ++ "logout_message_info", "Logout message returned by the web interface",
    ["message"]⟩

/-- Body of the loop over `Data.Downstream` (lines 150-154): the four
observations attempted for one legacy downstream channel. -/
def downstreamMetrics (downstreamChannel : DocsisDownstreamChannel) : List (Option Metric) :=
  let labels := [downstreamChannel.Id, downstreamChannel.ChannelId,
    downstreamChannel.Modulation, downstreamChannel.ChannelType]
  [MustNewConstMetric centralFrequencyDownstreamDesc
      (mulFloat64 (parse2float downstreamChannel.CentralFrequency) 10e9) labels,
   MustNewConstMetric powerDownstreamDesc (parse2float downstreamChannel.Power) labels,
   MustNewConstMetric snrDownstreamDesc (parse2float downstreamChannel.Snr) labels,
   MustNewConstMetric lockedDownstreamDesc
      (bool2float64 (downstreamChannel.Locked == "Locked")) labels]

/-- Body of the loop over `Data.OfdmDownstreamData` (lines 157-164). -/
def ofdmDownstreamMetrics (ofdmDownstreamChannel : OfdmDownstreamData) : List (Option Metric) :=
  let labels := [ofdmDownstreamChannel.Id, ofdmDownstreamChannel.ChannelIdOfdm,
    ofdmDownstreamChannel.FftOfdm, ofdmDownstreamChannel.ChannelType]
  [MustNewConstMetric startFrequencyOfdmDownstreamDesc
      (mulFloat64 (parse2float ofdmDownstreamChannel.StartFrequency) 10e9) labels,
   MustNewConstMetric endFrequencyOfdmDownstreamDesc
      (mulFloat64 (parse2float ofdmDownstreamChannel.PLCFrequency) 10e9) labels,
   MustNewConstMetric centralFrequencyOfdmDownstreamDesc
      (mulFloat64 (parse2float ofdmDownstreamChannel.CentralFrequencyOfdm) 10e9) labels,
   MustNewConstMetric bandwidthOfdmDownstreamDesc
      (mulFloat64 (parse2float ofdmDownstreamChannel.Bandwidth) 10e9) labels,
   MustNewConstMetric powerOfdmDownstreamDesc (parse2float ofdmDownstreamChannel.PowerOfdm) labels,
   MustNewConstMetric snrOfdmDownstreamDesc (parse2float ofdmDownstreamChannel.SnrOfdm) labels,
   MustNewConstMetric lockedOfdmDownstreamDesc
      (bool2float64 (ofdmDownstreamChannel.LockedOfdm == "Locked")) labels]

/-- Body of the loop over `Data.Upstream` (lines 167-170). Line 170 selects
`upstreamChannel.Locked`, a field `DocsisUpstreamChannel` does not declare (its
lock field is `LockStatus`); what the selector yields is the parameter
`Locked`, and the body itself does not read the field `LockStatus`. -/
def upstreamMetrics (Locked : DocsisUpstreamChannel → String)
    (upstreamChannel : DocsisUpstreamChannel) : List (Option Metric) :=
  let labels := [upstreamChannel.Id, upstreamChannel.ChannelIdUp,
    upstreamChannel.SymbolRate, upstreamChannel.ChannelType]
  [MustNewConstMetric centralFrequencyUpstreamDesc
      (mulFloat64 (parse2float upstreamChannel.CentralFrequency) 10e9) labels,
   MustNewConstMetric powerUpstreamDesc (parse2float upstreamChannel.Power) labels,
   MustNewConstMetric lockedUpstreamDesc
      (bool2float64 (Locked upstreamChannel == "Locked")) labels]

/-- Body of the loop over `Data.OfdmUpstreamData` (lines 173-179). -/
def ofdmUpstreamMetrics (ofdmUpstreamChannel : OfdmUpstreamData) : List (Option Metric) :=
  let labels := [ofdmUpstreamChannel.Id, ofdmUpstreamChannel.ChannelIdOfdm,
    ofdmUpstreamChannel.FftOfdm, ofdmUpstreamChannel.ChannelType]
  [MustNewConstMetric startFrequencyOfdmUpstreamDesc
      (mulFloat64 (parse2float ofdmUpstreamChannel.StartFrequency) 10e9) labels,
   MustNewConstMetric endFrequencyOfdmUpstreamDesc
      (mulFloat64 (parse2float ofdmUpstreamChannel.PLCFrequency) 10e9) labels,
   MustNewConstMetric centralFrequencyOfdmUpstreamDesc
      (mulFloat64 (parse2float ofdmUpstreamChannel.CentralFrequencyOfdm) 10e9) labels,
   MustNewConstMetric bandwidthOfdmUpstreamDesc
      (mulFloat64 (parse2float ofdmUpstreamChannel.Bandwidth) 10e9) labels,
   MustNewConstMetric powerOfdmUpstreamDesc (parse2float ofdmUpstreamChannel.PowerOfdm) labels,
   MustNewConstMetric lockedOfdmUpstreamDesc
      (bool2float64 (ofdmUpstreamChannel.LockedOfdm == "Locked")) labels]

/-- A `for _, x := range xs` loop over a slice of pointers whose body
dereferences `x`: a nil element is a panic (`none`) at its place. -/
def rangeLoop {α : Type} (body : α → List (Option Metric)) (xs : List (Option α)) :
    List (Option Metric) :=
  xs.flatMap fun x =>
    match x with
    | none => [none]
    | some r => body r

/-- Lines 149-180: the four loops over the tables of a diagnostics payload. -/
def channelMetrics (Locked : DocsisUpstreamChannel → String) (data : ModemStatusData) :
    List (Option Metric) :=
  rangeLoop downstreamMetrics data.Downstream
    ++ rangeLoop ofdmDownstreamMetrics data.OfdmDownstreamData
    ++ rangeLoop (upstreamMetrics Locked) data.Upstream
    ++ rangeLoop ofdmUpstreamMetrics data.OfdmUpstreamData

/-- The observations sent before the first panic of a sequence of attempts. -/
def sentBeforePanic : List (Option Metric) → List Metric
  | [] => []
  | none :: _ => []
  | some m :: rest => m :: sentBeforePanic rest

/-- Whether a sequence of attempts panics. -/
def panics (attempts : List (Option Metric)) : Bool :=
  attempts.any Option.isNone

/-- Lines 131-142 after a login without error: the login message, the success
flag, then the fields of `loginresponse.Data`, whose dereference panics when
`Data` is nil. -/
def loginMetrics (loginresponse : LoginResponse) : List (Option Metric) :=
  [MustNewConstMetric loginMessageDesc 1 [loginresponse.Message],
   MustNewConstMetric loginSuccessDesc 1 []]
  ++ match loginresponse.Data with
     | none => [none]
     | some data =>
       [MustNewConstMetric userDesc 1 [data.User],
        MustNewConstMetric uidDesc 1 [data.Uid],
        MustNewConstMetric defaultPasswordDesc (bool2float64 (data.DefaultPassword == "Yes")) []]

/-- Lines 148-181: the channel observations attempted for the result of
`GetModemStatus`, none unless the error is nil and `Data` is not nil. -/
def statusMetrics (Locked : DocsisUpstreamChannel → String)
    (docsisStatusResponse : Option ModemStatusResponse) (err : Option String) :
    List (Option Metric) :=
  match err, docsisStatusResponse with
  | none, some r =>
    match r.Data with
    | some data => channelMetrics Locked data
    | none => []
  | none, none => [none]
  | some _, _ => []

/-- Lines 184-190: the observations attempted for the result of `Logout`. The
send at line 190 follows the one at line 188 without a `return` or `else`. -/
def logoutMetrics (r : Except String LogoutResponse) : List (Option Metric) :=
  match r with
  | .ok logoutresponse =>
    [MustNewConstMetric logoutMessageDesc 1 [logoutresponse.Message],
     MustNewConstMetric logoutSuccessDesc 1 []]
  | .error _ =>
    [MustNewConstMetric logoutSuccessDesc 0 [],
     MustNewConstMetric logoutSuccessDesc 1 []]

/-- The end of a run of `Collect`: the final state, the observations sent on
the channel in order, and whether the run ended in a panic. -/
structure Outcome (σ : Type) where
  state : State σ
  metrics : List Metric
  panicked : Bool

/-- Lines 145-147: `fmt.Println(err.Error())` when the error is not nil. -/
def printError {σ : Type} (st : State σ) (err : Option String) : State σ :=
  match err with
  | some e => { st with stdout := st.stdout ++ [e] }
  | none => st

/-- Source `Collector.Collect`. Each phase runs only if none before it
panicked. -/
def Collect {σ : Type} (env : Env σ) (v : FibertelStation) (st : State σ) : Outcome σ :=
  match Login env v st with
  | (st1, .error _) =>
    let out := [MustNewConstMetric loginSuccessDesc 0 [],
                MustNewConstMetric logoutSuccessDesc 0 []]
    ⟨st1, sentBeforePanic out, panics out⟩
  | (st1, .ok loginresponse) =>
    let out1 := loginMetrics loginresponse
    if panics out1 then ⟨st1, sentBeforePanic out1, true⟩
    else
      match GetModemStatus env v st1 with
      | (st2, docsisStatusResponse, err) =>
        let st2 := printError st2 err
        let out2 := out1 ++ statusMetrics env.upstreamLocked docsisStatusResponse err
        if panics out2 then ⟨st2, sentBeforePanic out2, true⟩
        else
          match Logout env v st2 with
          | (st3, logoutresponse) =>
            let out3 := out2 ++ logoutMetrics logoutresponse
            ⟨st3, sentBeforePanic out3, panics out3⟩

/-! ## Requests of a cycle, as the claims name them -/

/-- The logout POST of a station. -/
def isLogoutPost (v : FibertelStation) (r : Request) : Prop :=
  r.Method = "POST" ∧ r.URL = v.URL ++ "/api/v1/session/logout"

/-- The diagnostics GET of a station, whatever its timestamp. -/
def isDiagnosticsGet (v : FibertelStation) (r : Request) : Prop :=
  r.Method = "GET" ∧ ∃ timestamp, r.URL = modemStatusURL v timestamp

/-! ## A scripted device, for the scenarios of the spec -/

/-- Body of the salts response of the scenarios. -/
def saltsBody : String :=
  "\x7b\"error\":\"ok\",\"salt\":\"s1\",\"saltwebui\":\"s2\"\x7d"

/-- Body of the accepted login of the end-to-end scenario. -/
def loginOkBody : String :=
  "\x7b\"error\":\"ok\",\"data\":\x7b\"user\":\"admin\",\"uid\":\"1\",\"Dpd\":\"No\"\x7d\x7d"

/-- Body of a refused call, as in the failure scenario. -/
def failBody : String := "\x7b\"error\":\"fail\"\x7d"

/-- Body of an accepted logout. -/
def okBody : String := "\x7b\"error\":\"ok\"\x7d"

/-- Body of the diagnostics response of the end-to-end scenario: one legacy
downstream channel. -/
def statusBody : String :=
  "\x7b\"error\":\"ok\",\"data\":\x7b\"DSTbl\":[\x7b\"__id\":\"1\",\"ChannelID\":\"5\","
    ++ "\"Frequency\":\"550.0\",\"PowerLevel\":\"2.1\",\"SNRLevel\":\"38.5\","
    ++ "\"Modulation\":\"256QAM\",\"LockStatus\":\"Locked\",\"ChannelType\":\"1\"\x7d]\x7d\x7d"

/-- The downstream channel of the end-to-end scenario. -/
def scenarioChannel : DocsisDownstreamChannel :=
  { Id := "1", ChannelId := "5", CentralFrequency := "550.0", Power := "2.1", Snr := "38.5",
    Modulation := "256QAM", Locked := "Locked", ChannelType := "1" }

/-- The session data of the end-to-end scenario. -/
def scenarioLoginData : LoginResponseData :=
  { Interface := "", User := "admin", Uid := "1", DefaultPassword := "No",
    RemoteAddress := "", UserAgent := "", HttpReferer := "" }

/-- The environment of a scripted device. The world is the number of requests
served; the n-th request of a run gets the n-th body of the script, without a
cookie, and a request beyond the script fails. The decoders know the bodies of
the scenarios and report an error, leaving the zero value, on any other body.
No diagnostics body this device decodes holds a legacy upstream record, so the
value given to the undeclared selector, the empty string, is never used. -/
def scriptedEnv (script : List String) : Env Nat where
  NewRequest := fun _ _ => none
  Do := fun n _ =>
    (n + 1,
      match script.get? n with
      | some body => .ok ⟨"", .ok body⟩
      | none => .error "connection refused")
  makeTimestamp := fun n => 1700000000000 + n
  Encode := fun kvs => String.intercalate "&" (kvs.map fun kv => kv.1 ++ "=" ++ kv.2)
  UnmarshalSalts := fun b =>
    if b = saltsBody then (⟨"ok", "s1", "s2"⟩, none)
    else (⟨"", "", ""⟩, some "unexpected end of JSON input")
  UnmarshalLogin := fun b =>
    if b = loginOkBody then (⟨"ok", "", some scenarioLoginData⟩, none)
    else if b = failBody then (⟨"fail", "", none⟩, none)
    else (⟨"", "", none⟩, some "unexpected end of JSON input")
  UnmarshalLogout := fun b =>
    if b = okBody then (⟨"ok", ""⟩, none)
    else if b = failBody then (⟨"fail", ""⟩, none)
    else (⟨"", ""⟩, some "unexpected end of JSON input")
  UnmarshalModemStatus := fun b =>
    if b = statusBody then (⟨"ok", "", some ⟨[], [], [some scenarioChannel], []⟩⟩, none)
    else if b = failBody then (⟨"fail", "", none⟩, none)
    else (⟨"", "", none⟩, some "unexpected end of JSON input")
  upstreamLocked := fun _ => ""

/-- The station of the scenarios. -/
def scenarioStation : FibertelStation :=
  { URL := "https://192.168.0.1", Username := "admin", Password := "secret" }

/-- The state at the start of a scenario. -/
def scenarioStart : State Nat :=
  { world := 0, csrfToken := "", sent := [], calls := [], stdout := [] }

/-- End-to-end scenario of the spec: bootstrap page, salts, accepted login,
menu, one downstream channel, accepted logout. -/
def endToEndScript : List String := ["", saltsBody, loginOkBody, "", statusBody, okBody]

/-- Failure scenario of the spec: the login is refused. -/
def loginRefusedScript : List String := ["", saltsBody, failBody]

/-- The end-to-end scenario with a refused logout. -/
def logoutRefusedScript : List String := ["", saltsBody, loginOkBody, "", statusBody, failBody]

/-- The end-to-end scenario with a diagnostics response that has no data. -/
def statusRefusedScript : List String := ["", saltsBody, loginOkBody, "", failBody, okBody]

/-- Failure scenario: the state in which `Login` sends the bootstrap GET. -/
def refusedStart : State Nat :=
  { scenarioStart with calls := scenarioStart.calls ++ [ApiCall.Login] }

/-- Failure scenario: the state after the bootstrap GET. -/
def refusedAfterBootstrap : State Nat :=
  (doRequest (scriptedEnv loginRefusedScript) refusedStart "GET" scenarioStation.URL "").1

/-- Failure scenario: the state after the salt handshake. -/
def refusedAfterSalts : State Nat :=
  (getLoginSalts (scriptedEnv loginRefusedScript) scenarioStation refusedAfterBootstrap).1

/-- Failure scenario: the state after the login POST. -/
def refusedAfterLogin : State Nat :=
  (doRequest (scriptedEnv loginRefusedScript) refusedAfterSalts "POST"
    (scenarioStation.URL ++ "/api/v1/session/login")
    ((scriptedEnv loginRefusedScript).Encode
      [("username", scenarioStation.Username),
       ("password", GetLoginPassword scenarioStation.Password "s1" "s2")])).1

/-- The descriptors of the session-level observations of `Collect`: those that
do not describe a channel. -/
def sessionDescs : List Desc :=
  [loginMessageDesc, loginSuccessDesc, userDesc, uidDesc, defaultPasswordDesc,
   logoutMessageDesc, logoutSuccessDesc]

/-- The descriptors of the loop over the legacy downstream channels. -/
def downstreamDescs : List Desc :=
  [centralFrequencyDownstreamDesc, powerDownstreamDesc, snrDownstreamDesc, lockedDownstreamDesc]

/-- The descriptors of the loop over the OFDM downstream channels. -/
def ofdmDownstreamDescs : List Desc :=
  [startFrequencyOfdmDownstreamDesc, endFrequencyOfdmDownstreamDesc,
   centralFrequencyOfdmDownstreamDesc, bandwidthOfdmDownstreamDesc, powerOfdmDownstreamDesc,
   snrOfdmDownstreamDesc, lockedOfdmDownstreamDesc]

/-- The descriptors of the loop over the legacy upstream channels. -/
def upstreamDescs : List Desc :=
  [centralFrequencyUpstreamDesc, powerUpstreamDesc, lockedUpstreamDesc]

/-- The descriptors of the loop over the OFDM upstream channels. -/
def ofdmUpstreamDescs : List Desc :=
  [startFrequencyOfdmUpstreamDesc, endFrequencyOfdmUpstreamDesc,
   centralFrequencyOfdmUpstreamDesc, bandwidthOfdmUpstreamDesc, powerOfdmUpstreamDesc,
   lockedOfdmUpstreamDesc]

/-- The locked indicators among the observations are those of a record of the
table of their variant: they carry the labels of that record and the value 1
when the text their loop compares is exactly `Locked`, 0 otherwise. The text is
the field `Locked` or `LockedOfdm` for three variants, and for the legacy
upstream channels whatever the undeclared selector `Locked` yields. -/
def LockedFollowsStatus (Locked : DocsisUpstreamChannel → String) (data : ModemStatusData)
    (m : Metric) : Prop :=
  (m.desc = lockedDownstreamDesc →
    ∃ ch, some ch ∈ data.Downstream
      ∧ m = ⟨lockedDownstreamDesc, if ch.Locked = "Locked" then 1 else 0,
          [ch.Id, ch.ChannelId, ch.Modulation, ch.ChannelType]⟩)
  ∧ (m.desc = lockedOfdmDownstreamDesc →
    ∃ ch, some ch ∈ data.OfdmDownstreamData
      ∧ m = ⟨lockedOfdmDownstreamDesc, if ch.LockedOfdm = "Locked" then 1 else 0,
          [ch.Id, ch.ChannelIdOfdm, ch.FftOfdm, ch.ChannelType]⟩)
  ∧ (m.desc = lockedUpstreamDesc →
    ∃ ch, some ch ∈ data.Upstream
      ∧ m = ⟨lockedUpstreamDesc, if Locked ch = "Locked" then 1 else 0,
          [ch.Id, ch.ChannelIdUp, ch.SymbolRate, ch.ChannelType]⟩)
  ∧ (m.desc = lockedOfdmUpstreamDesc →
    ∃ ch, some ch ∈ data.OfdmUpstreamData
      ∧ m = ⟨lockedOfdmUpstreamDesc, if ch.LockedOfdm = "Locked" then 1 else 0,
          [ch.Id, ch.ChannelIdOfdm, ch.FftOfdm, ch.ChannelType]⟩)

/-- No table of a diagnostics payload holds a nil record. -/
def NoNilRecord (data : ModemStatusData) : Prop :=
  none ∉ data.Downstream ∧ none ∉ data.OfdmDownstreamData
    ∧ none ∉ data.Upstream ∧ none ∉ data.OfdmUpstreamData

/-- The descriptors of the power and SNR observations. -/
def powerAndSnrDescs : List Desc :=
  [powerDownstreamDesc, snrDownstreamDesc, powerOfdmDownstreamDesc, snrOfdmDownstreamDesc,
   powerUpstreamDesc, powerOfdmUpstreamDesc]

/-! ## Describe (`collector.go`, lines 92-126) -/

/-- Source `Collector.Describe`: the descriptors sent on the channel, in the
order of the sends. -/
def Describe : List Desc :=
  [loginSuccessDesc, loginMessageDesc, userDesc, uidDesc, defaultPasswordDesc,
   centralFrequencyDownstreamDesc, powerDownstreamDesc, snrDownstreamDesc, snrDownstreamDesc,
   startFrequencyOfdmDownstreamDesc, endFrequencyOfdmDownstreamDesc,
   centralFrequencyOfdmDownstreamDesc, bandwidthOfdmDownstreamDesc, powerOfdmDownstreamDesc,
   snrOfdmDownstreamDesc, lockedOfdmDownstreamDesc,
   startFrequencyOfdmUpstreamDesc, endFrequencyOfdmUpstreamDesc,
   centralFrequencyOfdmUpstreamDesc, bandwidthOfdmUpstreamDesc, powerOfdmUpstreamDesc,
   lockedOfdmUpstreamDesc,
   centralFrequencyUpstreamDesc, powerUpstreamDesc, rangingStatusUpstreamDesc,
   logoutSuccessDesc, logoutMessageDesc]

/-- The descriptor variables declared at lines 14-48 and set by `init`, one for
each. -/
def declaredDescs : List Desc :=
  [loginSuccessDesc, loginMessageDesc, userDesc, uidDesc, defaultPasswordDesc,
   centralFrequencyDownstreamDesc, powerDownstreamDesc, snrDownstreamDesc, lockedDownstreamDesc,
   startFrequencyOfdmDownstreamDesc, endFrequencyOfdmDownstreamDesc,
   centralFrequencyOfdmDownstreamDesc, bandwidthOfdmDownstreamDesc, powerOfdmDownstreamDesc,
   snrOfdmDownstreamDesc, lockedOfdmDownstreamDesc,
   startFrequencyOfdmUpstreamDesc, endFrequencyOfdmUpstreamDesc,
   centralFrequencyOfdmUpstreamDesc, bandwidthOfdmUpstreamDesc, powerOfdmUpstreamDesc,
   lockedOfdmUpstreamDesc, lockedUpstreamDesc,
   centralFrequencyUpstreamDesc, powerUpstreamDesc, rangingStatusUpstreamDesc,
   logoutSuccessDesc, logoutMessageDesc]

/-- The descriptors `Collect` attaches to an observation on some path: those of
the session-level sends and of the four loops. -/
def collectDescs : List Desc :=
  sessionDescs ++ downstreamDescs ++ ofdmDownstreamDescs ++ upstreamDescs ++ ofdmUpstreamDescs

/-- A legacy upstream channel record, locked. -/
def scenarioUpstream : DocsisUpstreamChannel :=
  { Id := "1", ChannelIdUp := "2", CentralFrequency := "37.0", Power := "45.5",
    ChannelType := "1", SymbolRate := "5120", LockStatus := "Locked" }

/-- Body of a diagnostics response with one legacy upstream channel, whose
`LockStatus` is `Locked`. -/
def upstreamStatusBody : String :=
  "\x7b\"error\":\"ok\",\"data\":\x7b\"USTbl\":[\x7b\"__id\":\"1\",\"ChannelID\":\"2\","
    ++ "\"Frequency\":\"37.0\",\"PowerLevel\":\"45.5\",\"ChannelType\":\"1\","
    ++ "\"SymbolRate\":\"5120\",\"LockStatus\":\"Locked\"\x7d]\x7d\x7d"

/-- The end-to-end scenario with a diagnostics response that holds one legacy
upstream channel. -/
def upstreamScript : List String := ["", saltsBody, loginOkBody, "", upstreamStatusBody, okBody]

/-- The scripted device of `upstreamScript`. Its diagnostics decoder knows
`upstreamStatusBody`; the value of the undeclared selector of line 170 is left
to the argument `Locked`. -/
def upstreamEnv (Locked : DocsisUpstreamChannel → String) : Env Nat :=
  { scriptedEnv upstreamScript with
    UnmarshalModemStatus := fun b =>
      if b = upstreamStatusBody then
        (⟨"ok", "", some ⟨[], [], [], [some scenarioUpstream]⟩⟩, none)
      else (⟨"", "", none⟩, some "unexpected end of JSON input")
    upstreamLocked := Locked }
/-! ## Password derivation -/

theorem be32_length (w : Nat) : (be32 w).length = 4 := rfl

theorem be32_lt (w b : Nat) (hb : b ∈ be32 w) : b < 256 := by
  simp only [be32, List.mem_cons, List.mem_singleton, List.not_mem_nil, or_false] at hb
  rcases hb with h | h | h | h <;> subst h <;> exact Nat.mod_lt _ (by norm_num)

theorem sha256_length (msg : List Nat) : (sha256 msg).length = 32 := by
  simp [sha256, be32_length]

theorem sha256_lt (msg : List Nat) (b : Nat) (hb : b ∈ sha256 msg) : b < 256 := by
  simp only [sha256, List.mem_append] at hb
  rcases hb with ((((((h | h) | h) | h) | h) | h) | h) | h <;> exact be32_lt _ _ h

theorem hmacSha256_length (key msg : List Nat) : (hmacSha256 key msg).length = 32 :=
  sha256_length _

theorem hmacSha256_lt (key msg : List Nat) (b : Nat) (hb : b ∈ hmacSha256 key msg) : b < 256 :=
  sha256_lt _ _ hb

theorem xorBytes_length (t u : List Nat) (ht : t.length = 32) (hu : u.length = 32) :
    (xorBytes t u).length = 32 := by
  simp [xorBytes, ht, hu]

theorem xorBytes_lt (t u : List Nat) (ht : ∀ b ∈ t, b < 256) (hu : ∀ b ∈ u, b < 256) :
    ∀ b ∈ xorBytes t u, b < 256 := by
  induction t generalizing u with
  | nil => simp [xorBytes]
  | cons a t ih =>
    cases u with
    | nil => simp [xorBytes]
    | cons c u =>
      intro b hb
      simp only [xorBytes, List.zipWith_cons_cons, List.mem_cons] at hb
      rcases hb with h | h
      · subst h
        exact Nat.xor_lt_two_pow (n := 8) (ht a (by simp)) (hu c (by simp))
      · exact ih u (fun x hx => ht x (by simp [hx])) (fun x hx => hu x (by simp [hx])) b h

theorem pbkdf2_loop_ok (password : List Nat) (ns : List Nat) (tu : List Nat × List Nat)
    (ht : BlockOk tu.1) :
    BlockOk (ns.foldl
      (fun (tu : List Nat × List Nat) _ =>
        let u := hmacSha256 password tu.2
        (xorBytes tu.1 u, u)) tu).1 := by
  induction ns generalizing tu with
  | nil => simpa using ht
  | cons n ns ih =>
    simp only [List.foldl_cons]
    apply ih
    exact ⟨xorBytes_length _ _ ht.1 (hmacSha256_length _ _),
      xorBytes_lt _ _ ht.2 (hmacSha256_lt _ _)⟩

theorem pbkdf2Block_ok (password salt : List Nat) (iter block : Nat) :
    BlockOk (pbkdf2Block password salt iter block) := by
  unfold pbkdf2Block
  exact pbkdf2_loop_ok password _ _ ⟨hmacSha256_length _ _, hmacSha256_lt _ _⟩

theorem pbkdf2Key_take16 (password salt : List Nat) (iter keyLen : Nat) (h : 16 ≤ keyLen) :
    (pbkdf2Key password salt iter keyLen).take 16 = (pbkdf2Block password salt iter 1).take 16 := by
  have hlen := (pbkdf2Block_ok password salt iter 1).1
  unfold pbkdf2Key
  simp only [hashLen]
  obtain ⟨n, hn⟩ : ∃ n, (keyLen + 32 - 1) / 32 = n + 1 := by
    refine ⟨(keyLen + 32 - 1) / 32 - 1, ?_⟩
    have : 1 ≤ (keyLen + 32 - 1) / 32 := by
      apply (Nat.le_div_iff_mul_le (by norm_num)).2
      omega
    omega
  rw [hn, List.range_succ_eq_map, List.flatMap_cons, List.take_take, min_eq_left h,
    List.take_append_of_le_length (by rw [(pbkdf2Block_ok password salt iter (0 + 1)).1]; norm_num)]

theorem hexEncodeToString_length (src : List Nat) :
    (hexEncodeToString src).length = 2 * src.length := by
  unfold hexEncodeToString
  simp only [String.length]
  induction src with
  | nil => rfl
  | cons a l ih =>
    simp only [List.flatMap_cons, List.length_append, List.length_cons, List.length_nil, ih]
    omega

theorem hextable_getD_mem (i : Nat) (h : i < 16) : hextable.getD i '?' ∈ hextable := by
  have : ∀ i < 16, hextable.getD i '?' ∈ hextable := by decide
  exact this i h

theorem hexEncodeToString_mem (src : List Nat) (hsrc : ∀ b ∈ src, b < 256) :
    ∀ c ∈ (hexEncodeToString src).data, c ∈ hextable := by
  intro c hc
  simp only [hexEncodeToString, List.mem_flatMap, List.mem_cons, List.mem_singleton,
    List.not_mem_nil, or_false] at hc
  obtain ⟨v, hv, h | h⟩ := hc
  · subst h
    apply hextable_getD_mem
    have := hsrc v hv
    rw [Nat.shiftRight_eq_div_pow]
    omega
  · subst h
    apply hextable_getD_mem
    exact lt_of_le_of_lt Nat.and_le_right (by norm_num)

theorem DoPbkdf2NotCoded_eq_KDF (key s : String) : DoPbkdf2NotCoded key s = KDF key s := by
  unfold DoPbkdf2NotCoded KDF
  simp only []
  rw [pbkdf2Key_take16 _ _ _ _ (by norm_num), pbkdf2Key_take16 _ _ _ _ (by norm_num)]

/-- The derived string does not depend on the key length asked of `pbkdf2.Key`, as long
as it covers the 16 bytes kept: the 128 bytes of the code and the 128 bits of the spec
give the same result. -/
theorem DoPbkdf2NotCoded_any_keyLen (key s : String) (keyLen : Nat) (h : 16 ≤ keyLen) :
    DoPbkdf2NotCoded key s
      = hexEncodeToString ((pbkdf2Key (bytesOf key) (bytesOf s) 1000 keyLen).take 16) := by
  unfold DoPbkdf2NotCoded
  simp only []
  rw [pbkdf2Key_take16 _ _ _ _ (by norm_num), pbkdf2Key_take16 _ _ _ _ h]

theorem KDF_length (key s : String) : (KDF key s).length = 32 := by
  unfold KDF
  rw [hexEncodeToString_length, pbkdf2Key_take16 _ _ _ _ (by norm_num), List.length_take,
    (pbkdf2Block_ok _ _ _ _).1]
  rfl

theorem KDF_hex (key s : String) : ∀ c ∈ (KDF key s).data, c ∈ hextable := by
  unfold KDF
  apply hexEncodeToString_mem
  intro b hb
  rw [pbkdf2Key_take16 _ _ _ _ (by norm_num)] at hb
  exact (pbkdf2Block_ok _ _ _ _).2 b (List.mem_of_mem_take hb)

/-- C1: `GetLoginPassword` is the two-stage derivation `KDF(KDF(password, salt), saltWebUI)`,
both stages being the same `DoPbkdf2NotCoded = KDF` (PBKDF2-HMAC-SHA256, 1000 iterations,
first 16 bytes, lower-case hex), the inner hex string being the key of the outer stage;
the result always has exactly 32 characters, all of them hexadecimal digits. -/
theorem C1_GetLoginPassword_two_stage (password salt saltWebUI : String) :
    GetLoginPassword password salt saltWebUI = KDF (KDF password salt) saltWebUI
    ∧ (∀ key s, DoPbkdf2NotCoded key s = KDF key s)
    ∧ (GetLoginPassword password salt saltWebUI).length = 32
    ∧ ∀ c ∈ (GetLoginPassword password salt saltWebUI).data, c ∈ "0123456789abcdef".data := by
  have h : GetLoginPassword password salt saltWebUI = KDF (KDF password salt) saltWebUI := by
    unfold GetLoginPassword
    rw [DoPbkdf2NotCoded_eq_KDF, DoPbkdf2NotCoded_eq_KDF]
  refine ⟨h, DoPbkdf2NotCoded_eq_KDF, ?_, ?_⟩
  · rw [h]; exact KDF_length _ _
  · rw [h]; exact KDF_hex _ _

/-! ## CSRF token -/

theorem afterAuth_eq_some (s rest : List Char) :
    afterAuth s = some rest ↔ s = "auth=".data ++ rest := by
  constructor
  · intro h
    unfold afterAuth at h
    split at h
    · simp only [Option.some.injEq] at h
      subst h
      rfl
    · exact absurd h (by simp)
  · intro h
    subst h
    rfl

theorem matchAuthHere_eq_some (s : List Char) (c : Char) (rest : List Char)
    (hs : s = "auth=".data ++ c :: rest) (hc : c ≠ ';') :
    matchAuthHere s =
      some ("auth=".data ++ (c :: rest).takeWhile (fun x => x != ';'),
        (c :: rest).takeWhile (fun x => x != ';')) := by
  have h1 : afterAuth s = some (c :: rest) := (afterAuth_eq_some _ _).2 hs
  have h2 : (c != ';') = true := by simpa using hc
  simp [matchAuthHere, h1, List.takeWhile_cons, h2]

theorem matchAuthHere_some_shape (s : List Char) (r : List Char × List Char)
    (h : matchAuthHere s = some r) :
    ∃ c rest, s = "auth=".data ++ c :: rest ∧ c ≠ ';' := by
  unfold matchAuthHere at h
  split at h
  · exact absurd h (by simp)
  · rename_i rest hrest
    have hs := (afterAuth_eq_some _ _).1 hrest
    cases rest with
    | nil => simp at h
    | cons c rest =>
      refine ⟨c, rest, hs, ?_⟩
      intro hc
      subst hc
      simp [List.takeWhile_cons] at h

theorem FindStringSubmatch_leftmost (pre : List Char) (c : Char) (rest : List Char)
    (hc : c ≠ ';')
    (hleft : ∀ pre2 rest2 c2, pre ++ "auth=".data ++ c :: rest = pre2 ++ "auth=".data ++ c2 :: rest2 →
      c2 ≠ ';' → pre.length ≤ pre2.length) :
    FindStringSubmatch (pre ++ "auth=".data ++ c :: rest) =
      ["auth=".data ++ (c :: rest).takeWhile (fun x => x != ';'),
        (c :: rest).takeWhile (fun x => x != ';')] := by
  induction pre with
  | nil =>
    have hm := matchAuthHere_eq_some ("auth=".data ++ c :: rest) c rest rfl hc
    have hcons : ([] : List Char) ++ "auth=".data ++ c :: rest
        = 'a' :: ("uth=".data ++ c :: rest) := rfl
    rw [hcons, FindStringSubmatch]
    rw [show 'a' :: ("uth=".data ++ c :: rest) = "auth=".data ++ c :: rest from rfl, hm]
  | cons p pre ih =>
    have hnone : matchAuthHere (p :: (pre ++ "auth=".data ++ c :: rest)) = none := by
      cases hm : matchAuthHere (p :: (pre ++ "auth=".data ++ c :: rest)) with
      | none => rfl
      | some r =>
        obtain ⟨c2, rest2, hs, hc2⟩ := matchAuthHere_some_shape _ _ hm
        have := hleft [] rest2 c2 (by simpa using hs) hc2
        simp at this
    have hcons : (p :: pre) ++ "auth=".data ++ c :: rest
        = p :: (pre ++ "auth=".data ++ c :: rest) := by simp
    rw [hcons, FindStringSubmatch, hnone]
    apply ih
    intro pre2 rest2 c2 h2 hc2
    have := hleft (p :: pre2) rest2 c2 (by simp [h2]) hc2
    simpa using this

theorem FindStringSubmatch_none (s : List Char)
    (hno : ¬ ∃ pre rest c, s = pre ++ "auth=".data ++ c :: rest ∧ c ≠ ';') :
    FindStringSubmatch s = [] := by
  induction s with
  | nil => rfl
  | cons p s ih =>
    have hnone : matchAuthHere (p :: s) = none := by
      cases hm : matchAuthHere (p :: s) with
      | none => rfl
      | some r =>
        obtain ⟨c2, rest2, hs, hc2⟩ := matchAuthHere_some_shape _ _ hm
        exact absurd ⟨[], rest2, c2, by simpa using hs, hc2⟩ hno
    rw [FindStringSubmatch, hnone]
    apply ih
    rintro ⟨pre, rest, c, hs, hc⟩
    exact hno ⟨p :: pre, rest, c, by simp [hs], hc⟩

theorem doRequest_csrfToken {σ : Type} (env : Env σ) (st : State σ)
    (method url body : String) (w : σ) (response : Response)
    (hnew : env.NewRequest method url = none)
    (hdo : env.Do st.world (buildRequest st.csrfToken method url body) = (w, .ok response)) :
    (doRequest env st method url body).1.csrfToken
      = csrfTokenAfter st.csrfToken response.SetCookie := by
  simp [doRequest, hnew, hdo]

/-- C2: on a response whose `Set-Cookie` value is `h`, `doRequest` sets the CSRF token to
the longest run of characters other than `;` after the leftmost `auth=` that is followed by
such a character (for `foo=bar; auth=XYZ123; Path=/` the token becomes `XYZ123`), and keeps
the token `t` it held when `h` has no such fragment. -/
theorem C2_csrf_token_update (t h : String) :
    (∀ pre rest c, h.data = pre ++ "auth=".data ++ c :: rest → c ≠ ';' →
      (∀ pre2 rest2 c2, h.data = pre2 ++ "auth=".data ++ c2 :: rest2 → c2 ≠ ';' →
        pre.length ≤ pre2.length) →
      csrfTokenAfter t h = String.mk ((c :: rest).takeWhile fun x => x != ';'))
    ∧ ((¬ ∃ pre rest c, h.data = pre ++ "auth=".data ++ c :: rest ∧ c ≠ ';') →
      csrfTokenAfter t h = t)
    ∧ csrfTokenAfter t "foo=bar; auth=XYZ123; Path=/" = "XYZ123"
    ∧ (∀ (σ : Type) (env : Env σ) (st : State σ) (method url body : String) (w : σ)
        (response : Response), st.csrfToken = t → response.SetCookie = h →
        env.NewRequest method url = none →
        env.Do st.world (buildRequest st.csrfToken method url body) = (w, .ok response) →
        (doRequest env st method url body).1.csrfToken = csrfTokenAfter t h) := by
  refine ⟨?_, ?_, ?_, ?_⟩
  · intro pre rest c hs hc hleft
    have hf := FindStringSubmatch_leftmost pre c rest hc (by rw [← hs]; exact hleft)
    rw [← hs] at hf
    simp [csrfTokenAfter, hf]
  · intro hno
    simp [csrfTokenAfter, FindStringSubmatch_none _ hno]
  · rfl
  · intro σ env st method url body w response ht hh hnew hdo
    rw [doRequest_csrfToken env st method url body w response hnew hdo, ht, hh]

/-- Witness of C2 on a header whose first `auth=` is followed by a token character, and
on a header too short to hold `auth=` at all. -/
theorem C2_csrf_token_update_witness :
    csrfTokenAfter "old" "auth=T1; auth=T2" = "T1" ∧ csrfTokenAfter "old" "a=b" = "old" :=
  ⟨(C2_csrf_token_update "old" "auth=T1; auth=T2").1 [] "1; auth=T2".data 'T' rfl (by decide)
      (fun _ _ _ _ _ => Nat.zero_le _),
   (C2_csrf_token_update "old" "a=b").2.1 (by
      rintro ⟨pre, rest, c, hs, _⟩
      have := congrArg List.length hs
      simp at this
      omega)⟩

/-! ## Numeric coercion -/

theorem ReplaceAllString_nil_eq_filter (inRun : Bool) (l : List Char) :
    ReplaceAllString [] inRun l = l.filter fun c => c.isDigit || c == '.' := by
  induction l generalizing inRun with
  | nil => rfl
  | cons c l ih =>
    cases h1 : c.isDigit <;> cases h2 : (c == '.') <;> cases inRun <;>
      simp [ReplaceAllString, nonNumeric, h1, h2, ih, List.filter_cons]

theorem digitsNat_cons_digit (c : Char) (l : List Char) (hc : c.isDigit = true) :
    digitsNat (c :: l) = (c.toNat - 48) * 10 ^ digitCount l + digitsNat l := by
  simp [digitsNat, digitCount, List.filter_cons, hc, Nat.ofDigits_append]
  ring

theorem digitsNat_cons_dot (l : List Char) : digitsNat ('.' :: l) = digitsNat l := by
  have : Char.isDigit '.' = false := by decide
  simp [digitsNat, List.filter_cons, this]

theorem digitCount_cons_digit (c : Char) (l : List Char) (hc : c.isDigit = true) :
    digitCount (c :: l) = digitCount l + 1 := by
  simp [digitCount, List.filter_cons, hc]

theorem digitCount_cons_dot (l : List Char) : digitCount ('.' :: l) = digitCount l := by
  have : Char.isDigit '.' = false := by decide
  simp [digitCount, List.filter_cons, this]

theorem isDigit_ne_dot (c : Char) (hc : c.isDigit = true) : (c == '.') = false := by
  have : Char.isDigit '.' = false := by decide
  by_contra h
  simp only [Bool.not_eq_false, beq_iff_eq] at h
  subst h
  simp [this] at hc

/-- The scan of `readFloat` behind the dot: it stops at a second dot, and it
otherwise appends the digits and counts them. -/
theorem readFloat_after_dot (l : List Char) (hl : ∀ c ∈ l, c.isDigit = true ∨ c = '.')
    (sd : Bool) (m f : Nat) :
    l.foldlM readFloatStep ⟨true, sd, m, f⟩ =
      if l.count '.' = 0 then
        some ⟨true, sd || l.any Char.isDigit, m * 10 ^ digitCount l + digitsNat l,
          f + digitCount l⟩
      else none := by
  induction l generalizing sd m f with
  | nil => simp [digitCount, digitsNat]
  | cons c l ih =>
    have hl2 : ∀ x ∈ l, x.isDigit = true ∨ x = '.' := fun x hx => hl x (by simp [hx])
    rcases hl c (by simp) with hc | hc
    · have hne := isDigit_ne_dot c hc
      have hne2 : c ≠ '.' := by simpa using hne
      simp only [List.foldlM_cons, readFloatStep, hne, hc, if_true, Option.bind_eq_bind,
        Option.some_bind, Bool.false_eq_true, if_false]
      rw [ih hl2]
      simp only [List.count_cons_of_ne hne2.symm, digitsNat_cons_digit c l hc,
        digitCount_cons_digit c l hc, List.any_cons, hc, Bool.true_or, Bool.or_true]
      split
      · congr 2
        · ring
        · ring
      · rfl
    · subst hc
      simp [List.foldlM_cons, readFloatStep]

/-- The scan of `readFloat` from its start: at most one dot is accepted, the digits
are read as one integer and those behind the dot are counted. -/
theorem readFloat_before_dot (l : List Char) (hl : ∀ c ∈ l, c.isDigit = true ∨ c = '.')
    (sd : Bool) (m : Nat) :
    l.foldlM readFloatStep ⟨false, sd, m, 0⟩ =
      if l.count '.' ≤ 1 then
        some ⟨decide (l.count '.' = 1), sd || l.any Char.isDigit,
          m * 10 ^ digitCount l + digitsNat l,
          digitCount (l.dropWhile fun c => c != '.')⟩
      else none := by
  induction l generalizing sd m with
  | nil => simp [digitCount, digitsNat]
  | cons c l ih =>
    have hl2 : ∀ x ∈ l, x.isDigit = true ∨ x = '.' := fun x hx => hl x (by simp [hx])
    rcases hl c (by simp) with hc | hc
    · have hne := isDigit_ne_dot c hc
      have hne2 : c ≠ '.' := by simpa using hne
      have hne3 : (c != '.') = true := by simp [hne2]
      simp only [List.foldlM_cons, readFloatStep, hne, hc, if_true, Option.bind_eq_bind,
        Option.some_bind, Bool.false_eq_true, if_false]
      rw [ih hl2]
      simp only [List.count_cons_of_ne hne2.symm, digitsNat_cons_digit c l hc,
        digitCount_cons_digit c l hc, List.any_cons, hc, Bool.true_or, Bool.or_true,
        List.dropWhile_cons, hne3, if_true]
      split
      · congr 2
        ring
      · rfl
    · subst hc
      have hd : (('.' : Char) != '.') = false := by decide
      simp only [List.foldlM_cons, readFloatStep, beq_self_eq_true, if_true,
        Bool.false_eq_true, if_false, Option.bind_eq_bind, Option.some_bind,
        List.count_cons_self, List.dropWhile_cons, hd]
      rw [readFloat_after_dot l hl2]
      have hdig : Char.isDigit '.' = false := by decide
      simp only [digitsNat_cons_dot, digitCount_cons_dot, List.any_cons, hdig, Bool.false_or,
        Nat.zero_add]
      by_cases h0 : l.count '.' = 0
      · simp [h0]
      · have : ¬ (l.count '.' + 1 ≤ 1) := by omega
        simp [h0, this]

theorem digitsAndDots_mem (s : String) :
    ∀ c ∈ digitsAndDots s, c.isDigit = true ∨ c = '.' := by
  intro c hc
  simp only [digitsAndDots, List.mem_filter, Bool.or_eq_true, beq_iff_eq] at hc
  exact hc.2

theorem validDecimal_digitsAndDots (s : String) :
    validDecimal (digitsAndDots s)
      = (decide ((digitsAndDots s).count '.' ≤ 1) && (digitsAndDots s).any Char.isDigit) := by
  have hall : (digitsAndDots s).all (fun c => c.isDigit || c == '.') = true := by
    simp only [List.all_eq_true, Bool.or_eq_true, beq_iff_eq]
    exact digitsAndDots_mem s
  simp [validDecimal, hall]

theorem overflow_iff (m f : Nat) :
    float64Overflow * 10 ^ f ≤ m ↔ ¬ ((m : ℚ) / 10 ^ f < (float64Overflow : ℚ)) := by
  have hpos : (0 : ℚ) < 10 ^ f := by positivity
  rw [not_lt, le_div_iff₀ hpos]
  exact_mod_cast Iff.rfl

/-- The words of the spec against the code: `parse2float` in terms of the
string of digits and dots, its validity and the float64 nearest to its decimal
value. -/
theorem parse2float_eq (s : String) :
    parse2float s =
      if validDecimal (digitsAndDots s) = true
          ∧ decimalValue (digitsAndDots s) < (float64Overflow : ℚ) then
        nearestFloat64 (decimalValue (digitsAndDots s))
      else 0 := by
  have hmem := digitsAndDots_mem s
  have hscan := readFloat_before_dot (digitsAndDots s) hmem false 0
  have hrep : ReplaceAllString [] false s.data = digitsAndDots s :=
    ReplaceAllString_nil_eq_filter false s.data
  have hval : decimalValue (digitsAndDots s)
      = (digitsNat (digitsAndDots s) : ℚ)
        / 10 ^ digitCount ((digitsAndDots s).dropWhile fun c => c != '.') := rfl
  rw [validDecimal_digitsAndDots, hval]
  unfold parse2float ParseFloat
  simp only [hrep, hscan]
  by_cases hcount : (digitsAndDots s).count '.' ≤ 1
  · simp only [hcount, if_true, Nat.zero_mul, Nat.zero_add, Bool.false_or, decide_True,
      Bool.true_and]
    by_cases hany : (digitsAndDots s).any Char.isDigit = true
    · simp only [hany, Bool.not_true, Bool.false_eq_true, if_false, true_and]
      by_cases hov : float64Overflow * 10 ^ digitCount
          ((digitsAndDots s).dropWhile fun c => c != '.') ≤ digitsNat (digitsAndDots s)
      · simp only [hov, if_true]
        rw [if_neg ((overflow_iff _ _).1 hov)]
      · simp only [hov, if_false]
        rw [if_pos (not_not.1 (mt (overflow_iff _ _).2 hov))]
    · simp [hany]
  · simp [hcount]


theorem nearestFloat64_nonneg (q : ℚ) : 0 ≤ nearestFloat64 q := by
  unfold nearestFloat64
  positivity

theorem ulpShift_eq (n d k : Nat) (hhi : n * 2 ^ 1022 / d < 2 ^ (k + 1))
    (hlo : 2 ^ k ≤ n * 2 ^ 1022 / d ∨ k = 0) : ulpShift n d = k := by
  unfold ulpShift
  rw [Nat.log2_eq_log_two]
  rcases Nat.eq_zero_or_pos (n * 2 ^ 1022 / d) with h0 | hpos
  · rw [h0]
    rcases hlo with h | h
    · rw [h0] at h
      exact absurd h (Nat.not_le.2 (Nat.two_pow_pos k))
    · rw [h]
      exact Nat.log_zero_right 2
  · rcases hlo with h | h
    · exact (Nat.log_eq_iff (Or.inr ⟨by norm_num, hpos.ne'⟩)).2 ⟨h, hhi⟩
    · subst h
      exact (Nat.log_eq_iff (Or.inr ⟨by norm_num, hpos.ne'⟩)).2 ⟨by rw [pow_zero]; exact hpos, hhi⟩

/-- Evaluation of `nearestFloat64` at a quotient in lowest terms: the exponent `k` is
checked by its two bounds, the multiple `M` by the rounded division. -/
theorem nearestFloat64_eval (q : ℚ) (n d k M : Nat) (hq : q = (n : ℚ) / d)
    (hd : d ≠ 0) (hc : Nat.Coprime n d)
    (hhi : n * 2 ^ 1022 / d < 2 ^ (k + 1)) (hlo : 2 ^ k ≤ n * 2 ^ 1022 / d ∨ k = 0)
    (hM : roundHalfEven (n * 2 ^ 1074) (d * 2 ^ k) = M) :
    nearestFloat64 q = (M : ℚ) * 2 ^ k / 2 ^ 1074 := by
  have hq2 : q = ((n : ℤ) : ℚ) / ((d : ℤ) : ℚ) := by
    rw [hq]
    push_cast
    rfl
  have hpos : (0 : ℤ) < (d : ℤ) := by exact_mod_cast Nat.pos_of_ne_zero hd
  have hcop : Nat.Coprime (n : ℤ).natAbs (d : ℤ).natAbs := by simpa using hc
  have hnum : q.num = (n : ℤ) := by
    rw [hq2]
    exact Rat.num_div_eq_of_coprime hpos hcop
  have hden : q.den = d := by
    have h := Rat.den_div_eq_of_coprime hpos hcop
    rw [← hq2] at h
    exact_mod_cast h
  unfold nearestFloat64 roundFloat64
  rw [hnum, hden, Int.toNat_natCast, ulpShift_eq n d k hhi hlo, hM]


/-! ### Rounding to float64

`nearestFloat64` is read against the definition of round-to-nearest-even: its value is a
multiple of the unit in the last place of the binade of its argument, within half a unit of
the argument, the even multiple when the argument is half-way, and finite below the
overflow threshold. -/

theorem float64Overflow_cast : ((float64Overflow : ℕ) : ℚ) = (2 : ℚ) ^ 1024 - 2 ^ 970 := by
  simp only [float64Overflow]
  norm_num

theorem roundHalfEven_bounds (N D : Nat) (hD : 0 < D) :
    2 * (roundHalfEven N D * D) ≤ 2 * N + D ∧ 2 * N ≤ 2 * (roundHalfEven N D * D) + D := by
  have hdm := Nat.div_add_mod N D
  have hr := Nat.mod_lt N hD
  unfold roundHalfEven
  simp only []
  generalize N / D = q at *
  generalize N % D = r at *
  have h1 : q * D = D * q := Nat.mul_comm q D
  have h2 : (q + 1) * D = D * q + D := by ring
  split_ifs <;> rw [← hdm] <;> first | rw [h1] | rw [h2]
  all_goals omega

/-- Ties go to the even neighbour. -/
theorem roundHalfEven_tie (N D : Nat) (hD : 0 < D)
    (h : 2 * (roundHalfEven N D * D) = 2 * N + D ∨ 2 * N = 2 * (roundHalfEven N D * D) + D) :
    roundHalfEven N D % 2 = 0 := by
  have hdm := Nat.div_add_mod N D
  have hr := Nat.mod_lt N hD
  unfold roundHalfEven at h ⊢
  simp only [] at h ⊢
  generalize N / D = q at *
  generalize N % D = r at *
  have h1 : q * D = D * q := Nat.mul_comm q D
  have h2 : (q + 1) * D = D * q + D := by ring
  split_ifs at h ⊢ <;> rw [← hdm] at h <;> first | rw [h1] at h | rw [h2] at h
  all_goals omega

theorem roundHalfEven_le (N D B : Nat) (hD : 0 < D) (h : N < B * D) :
    roundHalfEven N D ≤ B := by
  have hq : N / D < B := (Nat.div_lt_iff_lt_mul hD).2 h
  unfold roundHalfEven
  simp only []
  split_ifs <;> omega

theorem le_roundHalfEven (N D B : Nat) (hD : 0 < D) (h : B * D ≤ N) :
    B ≤ roundHalfEven N D := by
  have hq : B ≤ N / D := (Nat.le_div_iff_mul_le hD).2 h
  unfold roundHalfEven
  simp only []
  split_ifs <;> omega

theorem ulpShift_hi (n d : Nat) (hd : 0 < d) :
    n * 2 ^ 1074 < 2 ^ 53 * (d * 2 ^ ulpShift n d) := by
  have h : n * 2 ^ 1022 / d < 2 ^ (ulpShift n d + 1) := by
    unfold ulpShift
    rw [Nat.log2_eq_log_two]
    exact Nat.lt_pow_succ_log_self (by norm_num) _
  have h2 : n * 2 ^ 1022 < 2 ^ (ulpShift n d + 1) * d := (Nat.div_lt_iff_lt_mul hd).1 h
  have h3 : n * 2 ^ 1074 = n * 2 ^ 1022 * 2 ^ 52 := by
    rw [Nat.mul_assoc, ← Nat.pow_add]
  have h4 : 2 ^ 53 * (d * 2 ^ ulpShift n d) = 2 ^ (ulpShift n d + 1) * d * 2 ^ 52 := by
    rw [Nat.pow_succ]
    ring
  rw [h3, h4]
  exact Nat.mul_lt_mul_of_pos_right h2 (Nat.two_pow_pos 52)

theorem ulpShift_lo (n d : Nat) (hd : 0 < d) (hk : ulpShift n d ≠ 0) :
    2 ^ 52 * (d * 2 ^ ulpShift n d) ≤ n * 2 ^ 1074 := by
  have hx : n * 2 ^ 1022 / d ≠ 0 := by
    intro h0
    apply hk
    unfold ulpShift
    rw [h0, Nat.log2_eq_log_two]
    exact Nat.log_zero_right 2
  have h : 2 ^ ulpShift n d ≤ n * 2 ^ 1022 / d := by
    unfold ulpShift
    rw [Nat.log2_eq_log_two]
    exact Nat.pow_log_le_self 2 hx
  have h2 : 2 ^ ulpShift n d * d ≤ n * 2 ^ 1022 := (Nat.le_div_iff_mul_le hd).1 h
  have h3 : n * 2 ^ 1074 = n * 2 ^ 1022 * 2 ^ 52 := by
    rw [Nat.mul_assoc, ← Nat.pow_add]
  have h4 : 2 ^ 52 * (d * 2 ^ ulpShift n d) = 2 ^ ulpShift n d * d * 2 ^ 52 := by ring
  rw [h3, h4]
  exact Nat.mul_le_mul_right _ h2

/-- The value of `nearestFloat64` is on the float64 grid: a multiple `M` of
`2^(k-1074)` with `M ≤ 2^53`, and `2^52 ≤ M` unless `k = 0` (subnormal range). -/
theorem nearestFloat64_grid (q : ℚ) :
    nearestFloat64 q
        = ((roundFloat64 q.num.toNat q.den).1 : ℚ) * 2 ^ ulpShift q.num.toNat q.den / 2 ^ 1074
      ∧ (roundFloat64 q.num.toNat q.den).1 ≤ 2 ^ 53
      ∧ (ulpShift q.num.toNat q.den = 0 ∨ 2 ^ 52 ≤ (roundFloat64 q.num.toNat q.den).1) := by
  have hd : 0 < q.den := q.den_pos
  have hD : 0 < q.den * 2 ^ ulpShift q.num.toNat q.den :=
    Nat.mul_pos hd (Nat.two_pow_pos _)
  refine ⟨rfl, ?_, ?_⟩
  · apply roundHalfEven_le _ _ _ hD
    exact ulpShift_hi _ _ hd
  · by_cases hk : ulpShift q.num.toNat q.den = 0
    · exact Or.inl hk
    · exact Or.inr (le_roundHalfEven _ _ _ hD (ulpShift_lo _ _ hd hk))

theorem rat_eq_toNat_div (q : ℚ) (hq : 0 ≤ q) : q = (q.num.toNat : ℚ) / (q.den : ℚ) := by
  have h0 : 0 ≤ q.num := Rat.num_nonneg.2 hq
  have h1 : ((q.num.toNat : ℕ) : ℤ) = q.num := Int.toNat_of_nonneg h0
  have h2 : ((q.num.toNat : ℕ) : ℚ) = (q.num : ℚ) := by
    rw [← Int.cast_natCast, h1]
  rw [h2]
  exact (Rat.num_div_den q).symm

/-- The value of `nearestFloat64` is within half a unit in the last place of its
argument. -/
theorem nearestFloat64_half_ulp (q : ℚ) (hq : 0 ≤ q) :
    |nearestFloat64 q - q| ≤ 2 ^ ulpShift q.num.toNat q.den / 2 ^ 1075 := by
  have hd : 0 < q.den := q.den_pos
  have hdq : (0 : ℚ) < (q.den : ℚ) := by exact_mod_cast hd
  have hD : 0 < q.den * 2 ^ ulpShift q.num.toNat q.den :=
    Nat.mul_pos hd (Nat.two_pow_pos _)
  obtain ⟨hb1, hb2⟩ := roundHalfEven_bounds (q.num.toNat * 2 ^ 1074)
    (q.den * 2 ^ ulpShift q.num.toNat q.den) hD
  have hq2 := rat_eq_toNat_div q hq
  have hval : nearestFloat64 q
      = ((roundHalfEven (q.num.toNat * 2 ^ 1074)
          (q.den * 2 ^ ulpShift q.num.toNat q.den) : ℕ) : ℚ)
        * 2 ^ ulpShift q.num.toNat q.den / 2 ^ 1074 := rfl
  have hA : (((2 : ℕ) ^ 1074 : ℕ) : ℚ) = (2 : ℚ) ^ 1074 := by
    rw [Nat.cast_pow, Nat.cast_ofNat]
  have hK : (((2 : ℕ) ^ ulpShift q.num.toNat q.den : ℕ) : ℚ)
      = (2 : ℚ) ^ ulpShift q.num.toNat q.den := by
    rw [Nat.cast_pow, Nat.cast_ofNat]
  have hApos : (0 : ℚ) < (2 : ℚ) ^ 1074 := by positivity
  have hKpos : (0 : ℚ) < (2 : ℚ) ^ ulpShift q.num.toNat q.den := by positivity
  have h75 : (2 : ℚ) ^ 1075 = 2 * 2 ^ 1074 := by
    rw [pow_succ]
    ring
  rw [hval, h75, ← hA, ← hK]
  rw [← hA] at hApos
  rw [← hK] at hKpos
  generalize roundHalfEven (q.num.toNat * 2 ^ 1074)
    (q.den * 2 ^ ulpShift q.num.toNat q.den) = M at hb1 hb2
  generalize (2 : ℕ) ^ ulpShift q.num.toNat q.den = K at hb1 hb2 hKpos
  generalize (2 : ℕ) ^ 1074 = A at hb1 hb2 hApos
  generalize q.num.toNat = n at hb1 hb2 hq2
  have c1 : (2 : ℚ) * (M * (q.den * K)) ≤ 2 * (n * A) + q.den * K := by
    exact_mod_cast hb1
  have c2 : (2 : ℚ) * (n * A) ≤ 2 * (M * (q.den * K)) + q.den * K := by
    exact_mod_cast hb2
  have hx : (M : ℚ) * K / A - q
      = (2 * (M * (q.den * K)) - 2 * (n * A)) / (2 * A * q.den) := by
    conv_lhs => rw [hq2]
    field_simp
    ring
  have hy : (K : ℚ) / (2 * A) = (q.den * K) / (2 * A * q.den) := by
    field_simp
    ring
  have hden : (0 : ℚ) < 2 * A * q.den := mul_pos (mul_pos two_pos hApos) hdq
  rw [hx, hy, abs_div, abs_of_pos hden]
  apply div_le_div_of_nonneg_right _ hden.le
  rw [abs_le]
  constructor <;> linarith

/-- When the argument is exactly half a unit in the last place away from the value of
`nearestFloat64`, the multiple chosen is even: ties go to the even neighbour. -/
theorem nearestFloat64_tie_even (q : ℚ) (hq : 0 ≤ q)
    (h : |nearestFloat64 q - q| = 2 ^ ulpShift q.num.toNat q.den / 2 ^ 1075) :
    (roundFloat64 q.num.toNat q.den).1 % 2 = 0 := by
  have hd : 0 < q.den := q.den_pos
  have hdq : (0 : ℚ) < (q.den : ℚ) := by exact_mod_cast hd
  have hD : 0 < q.den * 2 ^ ulpShift q.num.toNat q.den :=
    Nat.mul_pos hd (Nat.two_pow_pos _)
  have htie := roundHalfEven_tie (q.num.toNat * 2 ^ 1074)
    (q.den * 2 ^ ulpShift q.num.toNat q.den) hD
  have hq2 := rat_eq_toNat_div q hq
  have hval : nearestFloat64 q
      = ((roundHalfEven (q.num.toNat * 2 ^ 1074)
          (q.den * 2 ^ ulpShift q.num.toNat q.den) : ℕ) : ℚ)
        * 2 ^ ulpShift q.num.toNat q.den / 2 ^ 1074 := rfl
  have hA : (((2 : ℕ) ^ 1074 : ℕ) : ℚ) = (2 : ℚ) ^ 1074 := by
    rw [Nat.cast_pow, Nat.cast_ofNat]
  have hK : (((2 : ℕ) ^ ulpShift q.num.toNat q.den : ℕ) : ℚ)
      = (2 : ℚ) ^ ulpShift q.num.toNat q.den := by
    rw [Nat.cast_pow, Nat.cast_ofNat]
  have hApos : (0 : ℚ) < (2 : ℚ) ^ 1074 := by positivity
  have h75 : (2 : ℚ) ^ 1075 = 2 * 2 ^ 1074 := by
    rw [pow_succ]
    ring
  rw [hval, h75, ← hA, ← hK] at h
  rw [← hA] at hApos
  show roundHalfEven (q.num.toNat * 2 ^ 1074)
    (q.den * 2 ^ ulpShift q.num.toNat q.den) % 2 = 0
  apply htie
  generalize roundHalfEven (q.num.toNat * 2 ^ 1074)
    (q.den * 2 ^ ulpShift q.num.toNat q.den) = M at h ⊢
  generalize (2 : ℕ) ^ ulpShift q.num.toNat q.den = K at h ⊢
  generalize (2 : ℕ) ^ 1074 = A at h hApos ⊢
  generalize q.num.toNat = n at h hq2 ⊢
  have hx : (M : ℚ) * K / A - q
      = (2 * (M * (q.den * K)) - 2 * (n * A)) / (2 * A * q.den) := by
    conv_lhs => rw [hq2]
    field_simp
    ring
  have hy : (K : ℚ) / (2 * A) = (q.den * K) / (2 * A * q.den) := by
    field_simp
    ring
  have hden : (0 : ℚ) < 2 * A * q.den := mul_pos (mul_pos two_pos hApos) hdq
  rw [hx, hy, abs_div, abs_of_pos hden, div_left_inj' hden.ne'] at h
  rcases abs_cases ((2 : ℚ) * (M * (q.den * K)) - 2 * (n * A)) with ⟨h1, -⟩ | ⟨h1, -⟩
  · left
    have : (2 : ℚ) * (M * (q.den * K)) = 2 * (n * A) + q.den * K := by linarith
    exact_mod_cast this
  · right
    have : (2 : ℚ) * (n * A) = 2 * (M * (q.den * K)) + q.den * K := by linarith
    exact_mod_cast this

theorem roundHalfEven_le_of_lt_half (N D B : Nat) (hD : 0 < D)
    (h : 2 * N < (2 * B + 1) * D) : roundHalfEven N D ≤ B := by
  have hdm := Nat.div_add_mod N D
  have hr := Nat.mod_lt N hD
  have hq : N / D < B + 1 := by
    apply (Nat.div_lt_iff_lt_mul hD).2
    have : (2 * B + 1) * D ≤ 2 * ((B + 1) * D) := by
      have e1 : (2 * B + 1) * D = 2 * (B * D) + D := by ring
      have e2 : 2 * ((B + 1) * D) = 2 * (B * D) + 2 * D := by ring
      omega
    omega
  unfold roundHalfEven
  simp only []
  by_cases hlt : N / D < B
  · split_ifs <;> omega
  · have heq : N / D = B := by omega
    rw [heq] at hdm ⊢
    have e1 : (2 * B + 1) * D = 2 * (D * B) + D := by ring
    rw [e1] at h
    have h2 : 2 * (N % D) < D := by omega
    rw [if_pos h2]

set_option exponentiation.threshold 3000 in
theorem float64Overflow_eq : float64Overflow = (2 ^ 54 - 1) * 2 ^ 970 := by
  norm_num [float64Overflow]

theorem lt_float64Overflow (q : ℚ) (hq : 0 ≤ q) (h : q < 2 ^ 1024 - 2 ^ 970) :
    q.num.toNat < float64Overflow * q.den := by
  have hdq : (0 : ℚ) < (q.den : ℚ) := by exact_mod_cast q.den_pos
  have hq2 := rat_eq_toNat_div q hq
  have h1 : (q.num.toNat : ℚ) < (2 ^ 1024 - 2 ^ 970) * q.den := by
    rw [hq2, div_lt_iff₀ hdq] at h
    exact h
  have h2 : ((q.num.toNat : ℕ) : ℚ) < ((float64Overflow * q.den : ℕ) : ℚ) := by
    rw [Nat.cast_mul, float64Overflow_cast]
    exact h1
  exact Nat.cast_lt.1 h2

set_option exponentiation.threshold 3000 in
theorem ulpShift_le (n d : Nat) (hd : 0 < d) (h : n < float64Overflow * d) :
    ulpShift n d ≤ 2045 := by
  have h1 : n * 2 ^ 1022 < 2 ^ 2046 * d := by
    have e : float64Overflow * d * 2 ^ 1022 ≤ 2 ^ 2046 * d := by
      have e1 : float64Overflow * 2 ^ 1022 ≤ 2 ^ 2046 := by norm_num [float64Overflow]
      calc float64Overflow * d * 2 ^ 1022 = float64Overflow * 2 ^ 1022 * d := by ring
        _ ≤ 2 ^ 2046 * d := Nat.mul_le_mul_right d e1
    exact lt_of_lt_of_le (Nat.mul_lt_mul_of_pos_right h (Nat.two_pow_pos 1022)) e
  have h2 : n * 2 ^ 1022 / d < 2 ^ 2046 := (Nat.div_lt_iff_lt_mul hd).2 h1
  unfold ulpShift
  rw [Nat.log2_eq_log_two]
  rcases Nat.eq_zero_or_pos (n * 2 ^ 1022 / d) with h0 | hpos
  · rw [h0, Nat.log_zero_right]
    exact Nat.zero_le _
  · exact Nat.le_of_lt_succ (Nat.log_lt_of_lt_pow hpos.ne' h2)

set_option exponentiation.threshold 3000 in
/-- Below the least value that float64 rounds to infinity, the value of `nearestFloat64`
is at most the largest float64, `2^1024 - 2^971`. -/
theorem nearestFloat64_le_max (q : ℚ) (hq : 0 ≤ q) (h : q < 2 ^ 1024 - 2 ^ 970) :
    nearestFloat64 q ≤ 2 ^ 1024 - 2 ^ 971 := by
  have hd : 0 < q.den := q.den_pos
  have hn := lt_float64Overflow q hq h
  have hk := ulpShift_le _ _ hd hn
  obtain ⟨hval, hM, -⟩ := nearestFloat64_grid q
  rw [hval]
  rcases Nat.lt_or_eq_of_le hk with hlt | heq
  · have h1 : ((roundFloat64 q.num.toNat q.den).1 : ℚ) ≤ 2 ^ 53 := by exact_mod_cast hM
    have h2 : (2 : ℚ) ^ ulpShift q.num.toNat q.den ≤ 2 ^ 2044 :=
      pow_le_pow_right₀ (by norm_num) (Nat.le_of_lt_succ hlt)
    have h3 : ((roundFloat64 q.num.toNat q.den).1 : ℚ) * 2 ^ ulpShift q.num.toNat q.den
        ≤ 2 ^ 53 * 2 ^ 2044 := mul_le_mul h1 h2 (by positivity) (by positivity)
    calc ((roundFloat64 q.num.toNat q.den).1 : ℚ) * 2 ^ ulpShift q.num.toNat q.den / 2 ^ 1074
        ≤ 2 ^ 53 * 2 ^ 2044 / 2 ^ 1074 := div_le_div_of_nonneg_right h3 (by positivity)
      _ ≤ 2 ^ 1024 - 2 ^ 971 := by norm_num
  · have hD : 0 < q.den * 2 ^ 2045 := Nat.mul_pos hd (Nat.two_pow_pos _)
    have hlt : 2 * (q.num.toNat * 2 ^ 1074) < (2 * (2 ^ 53 - 1) + 1) * (q.den * 2 ^ 2045) := by
      have e1 : 2 * (q.num.toNat * 2 ^ 1074) = q.num.toNat * 2 ^ 1075 := by ring
      have e2 : (2 * (2 ^ 53 - 1) + 1) * (q.den * 2 ^ 2045)
          = float64Overflow * q.den * 2 ^ 1075 := by
        rw [float64Overflow_eq]
        have e3 : (2 * (2 ^ 53 - 1) + 1 : ℕ) = 2 ^ 54 - 1 := by norm_num
        have e4 : (2 : ℕ) ^ 2045 = 2 ^ 970 * 2 ^ 1075 := by rw [← Nat.pow_add]
        rw [e3, e4]
        ring
      rw [e1, e2]
      exact Nat.mul_lt_mul_of_pos_right hn (Nat.two_pow_pos 1075)
    have hM2 : (roundFloat64 q.num.toNat q.den).1 ≤ 2 ^ 53 - 1 := by
      show roundHalfEven (q.num.toNat * 2 ^ 1074) (q.den * 2 ^ ulpShift q.num.toNat q.den)
        ≤ 2 ^ 53 - 1
      rw [heq]
      exact roundHalfEven_le_of_lt_half _ _ _ hD hlt
    have h1 : ((roundFloat64 q.num.toNat q.den).1 : ℚ) ≤ 2 ^ 53 - 1 := by
      have : ((roundFloat64 q.num.toNat q.den).1 : ℚ) ≤ ((2 ^ 53 - 1 : ℕ) : ℚ) := by
        exact_mod_cast hM2
      refine le_trans this ?_
      norm_num
    rw [heq]
    calc ((roundFloat64 q.num.toNat q.den).1 : ℚ) * 2 ^ 2045 / 2 ^ 1074
        ≤ (2 ^ 53 - 1) * 2 ^ 2045 / 2 ^ 1074 :=
          div_le_div_of_nonneg_right (mul_le_mul_of_nonneg_right h1 (by positivity))
            (by positivity)
      _ = 2 ^ 1024 - 2 ^ 971 := by norm_num

set_option maxRecDepth 100000 in
set_option exponentiation.threshold 400 in
theorem tenTo309_facts :
    digitsAndDots tenTo309 = tenTo309.data ∧ digitsNat tenTo309.data = 10 ^ 309
      ∧ digitCount (tenTo309.data.dropWhile fun c => c != '.') = 0
      ∧ validDecimal tenTo309.data = true := by
  refine ⟨?_, ?_, ?_, ?_⟩ <;> decide

set_option maxRecDepth 100000 in
theorem tenToMinus401_facts :
    digitsAndDots tenToMinus401 = tenToMinus401.data ∧ digitsNat tenToMinus401.data = 1
      ∧ digitCount (tenToMinus401.data.dropWhile fun c => c != '.') = 401
      ∧ validDecimal tenToMinus401.data = true := by
  refine ⟨?_, ?_, ?_, ?_⟩ <;> decide

/-- C3, as stated, fails: the 310-digit string `1000...0` keeps all its characters, is a
valid decimal number of value `10^309`, and `parse2float` returns 0 for it, because
`strconv.ParseFloat` reports a range error above the largest float64. -/
theorem C3_counterexample :
    validDecimal (digitsAndDots tenTo309) = true
    ∧ decimalValue (digitsAndDots tenTo309) = 10 ^ 309
    ∧ parse2float tenTo309 = 0
    ∧ parse2float tenTo309 ≠ decimalValue (digitsAndDots tenTo309) := by
  obtain ⟨h1, h3, h4, h2⟩ := tenTo309_facts
  have hv : decimalValue (digitsAndDots tenTo309) = 10 ^ 309 := by
    rw [h1]
    simp only [decimalValue, h3, h4]
    norm_num
  have hp : parse2float tenTo309 = 0 := by
    rw [parse2float_eq, hv, if_neg]
    rintro ⟨-, h⟩
    simp only [float64Overflow] at h
    norm_num at h
  refine ⟨by rw [h1]; exact h2, hv, hp, ?_⟩
  rw [hp, hv]
  norm_num

theorem parse2float_123_4 :
    parse2float "123.4 MHz" = nearestFloat64 (1234 / 10) := by
  rw [parse2float_eq]
  have h1 : digitsAndDots "123.4 MHz" = "123.4".data := by decide
  have h2 : validDecimal "123.4".data = true := by decide
  have h3 : digitsNat "123.4".data = 1234 := by decide
  have h4 : digitCount ("123.4".data.dropWhile fun c => c != '.') = 1 := by decide
  rw [h1]
  simp only [decimalValue, h2, h3, h4, float64Overflow]
  norm_num

set_option maxRecDepth 100000 in
theorem parse2float_2_53_plus_1 : parse2float "9007199254740993" = 9007199254740992 := by
  rw [parse2float_eq]
  have h1 : digitsAndDots "9007199254740993" = "9007199254740993".data := by decide
  have h2 : validDecimal "9007199254740993".data = true := by decide
  have h3 : digitsNat "9007199254740993".data = 9007199254740993 := by decide
  have h4 : digitCount ("9007199254740993".data.dropWhile fun c => c != '.') = 0 := by decide
  have hr : nearestFloat64 (9007199254740993 : ℚ) = 9007199254740992 := by
    rw [nearestFloat64_eval _ 9007199254740993 1 1075 4503599627370496 (by norm_num)
      (by decide) (by decide) (by decide!) (Or.inl (by decide!)) (by decide!)]
    norm_num
  rw [h1]
  simp only [decimalValue, h2, h3, h4, float64Overflow]
  norm_num
  exact hr

set_option maxRecDepth 100000 in
set_option exponentiation.threshold 2000 in
theorem parse2float_tenToMinus401 : parse2float tenToMinus401 = 0 := by
  obtain ⟨h1, h3, h4, h2⟩ := tenToMinus401_facts
  have hr : nearestFloat64 ((1 : ℚ) / 10 ^ 401) = 0 := by
    rw [nearestFloat64_eval _ 1 (10 ^ 401) 0 0 (by norm_num) (by positivity)
      (Nat.coprime_one_left _) (by decide!) (Or.inr rfl) (by decide!)]
    norm_num
  rw [parse2float_eq, h1]
  simp only [decimalValue, h2, h3, h4, float64Overflow]
  norm_num
  exact hr

set_option maxRecDepth 100000 in
/-- C3, amended: `parse2float s` is the float64 nearest to the decimal value of `s` with
every character deleted that is not a digit or a dot, when what remains is a valid decimal
number (digits, at most one dot, at least one digit) whose value is below
`2^1024 - 2^970`, the least value float64 rounds to infinity; it is 0 in every other
case. Nearest means: a multiple `M * 2^(k-1074)` with `M ≤ 2^53` (and `2^52 ≤ M` outside
the subnormal range `k = 0`), within half a unit `2^(k-1074)` of the value, the even
multiple when the value is half-way between two, and at most the largest float64
`2^1024 - 2^971`; too small a value goes to 0 or a subnormal number without error. So
`123.4 MHz` gives the float64 of 123.4, which is 8683503031523738 / 2^46, `garbage` and
the empty string give 0, `9007199254740993` gives 9007199254740992, `10^(-401)` gives 0,
and the function is total. -/
theorem C3_parse2float_amended (s : String) :
    parse2float s =
      (if validDecimal (digitsAndDots s) = true
          ∧ decimalValue (digitsAndDots s) < (2 : ℚ) ^ 1024 - 2 ^ 970 then
        nearestFloat64 (decimalValue (digitsAndDots s))
      else 0)
    ∧ (∀ q : ℚ, 0 ≤ q →
        ∃ M k : ℕ, nearestFloat64 q = (M : ℚ) * 2 ^ k / 2 ^ 1074
          ∧ M ≤ 2 ^ 53 ∧ (k = 0 ∨ 2 ^ 52 ≤ M)
          ∧ |nearestFloat64 q - q| ≤ 2 ^ k / 2 ^ 1075
          ∧ (|nearestFloat64 q - q| = 2 ^ k / 2 ^ 1075 → M % 2 = 0)
          ∧ (q < 2 ^ 1024 - 2 ^ 970 → nearestFloat64 q ≤ 2 ^ 1024 - 2 ^ 971))
    ∧ 0 ≤ decimalValue (digitsAndDots s)
    ∧ parse2float "123.4 MHz" = nearestFloat64 123.4
    ∧ nearestFloat64 123.4 = 8683503031523738 / 2 ^ 46
    ∧ parse2float "garbage" = 0
    ∧ parse2float "" = 0
    ∧ parse2float "9007199254740993" = 9007199254740992
    ∧ parse2float tenToMinus401 = 0 := by
  have h1234 : (123.4 : ℚ) = 1234 / 10 := by norm_num
  refine ⟨by rw [← float64Overflow_cast]; exact parse2float_eq s, ?_, ?_, ?_, ?_, ?_, ?_,
    parse2float_2_53_plus_1, parse2float_tenToMinus401⟩
  · intro q hq
    obtain ⟨hval, hM, hk⟩ := nearestFloat64_grid q
    exact ⟨_, _, hval, hM, hk, nearestFloat64_half_ulp q hq, nearestFloat64_tie_even q hq,
      nearestFloat64_le_max q hq⟩
  · unfold decimalValue
    positivity
  · rw [h1234]
    exact parse2float_123_4
  · rw [nearestFloat64_eval 123.4 617 5 1028 8683503031523738 (by norm_num) (by decide)
      (by decide) (by decide!) (Or.inl (by decide!)) (by decide!)]
    norm_num
  · rw [parse2float_eq]
    have h1 : digitsAndDots "garbage" = [] := by decide
    rw [h1]
    simp [validDecimal]
  · rw [parse2float_eq]
    have h1 : digitsAndDots "" = [] := by decide
    rw [h1]
    simp [validDecimal]

/-! ## The collection cycle -/

theorem Collect_of_login_error {σ : Type} (env : Env σ) (v : FibertelStation)
    (st st1 : State σ) (e : String) (h : Login env v st = (st1, .error e)) :
    Collect env v st =
      ⟨st1, [⟨loginSuccessDesc, 0, []⟩, ⟨logoutSuccessDesc, 0, []⟩], false⟩ := by
  unfold Collect
  rw [h]
  rfl

theorem panics_append (a b : List (Option Metric)) :
    panics (a ++ b) = (panics a || panics b) := by
  simp [panics, List.any_append]

theorem Collect_of_login_ok {σ : Type} (env : Env σ) (v : FibertelStation)
    (st st1 st2 : State σ) (lr : LoginResponse) (r : Option ModemStatusResponse)
    (err : Option String)
    (h1 : Login env v st = (st1, .ok lr)) (hp : panics (loginMetrics lr) = false)
    (h2 : GetModemStatus env v st1 = (st2, r, err))
    (hp2 : panics (statusMetrics env.upstreamLocked r err) = false) :
    Collect env v st =
      ⟨(Logout env v (printError st2 err)).1,
        sentBeforePanic (loginMetrics lr ++ statusMetrics env.upstreamLocked r err
          ++ logoutMetrics (Logout env v (printError st2 err)).2),
        panics (loginMetrics lr ++ statusMetrics env.upstreamLocked r err
          ++ logoutMetrics (Logout env v (printError st2 err)).2)⟩ := by
  have hp3 : panics (loginMetrics lr ++ statusMetrics env.upstreamLocked r err) = false := by
    rw [panics_append, hp, hp2]
    rfl
  unfold Collect
  rw [h1]
  simp only [hp, Bool.false_eq_true, if_false, h2, hp3]

theorem mem_sentBeforePanic (l : List (Option Metric)) (m : Metric)
    (h : m ∈ sentBeforePanic l) : some m ∈ l := by
  induction l with
  | nil => simp [sentBeforePanic] at h
  | cons a l ih =>
    cases a with
    | none => simp [sentBeforePanic] at h
    | some x =>
      simp only [sentBeforePanic, List.mem_cons] at h
      rcases h with h | h
      · subst h
        simp
      · simp [ih h]

theorem sentBeforePanic_of_no_panic (l : List (Option Metric)) (h : panics l = false) :
    (sentBeforePanic l).map some = l := by
  induction l with
  | nil => rfl
  | cons a l ih =>
    cases a with
    | none => simp [panics] at h
    | some x =>
      have hl : panics l = false := by
        simpa [panics] using h
      simp [sentBeforePanic, ih hl]

theorem sentBeforePanic_append (a b : List (Option Metric)) (h : panics a = false) :
    sentBeforePanic (a ++ b) = sentBeforePanic a ++ sentBeforePanic b := by
  induction a with
  | nil => rfl
  | cons x a ih =>
    cases x with
    | none => simp [panics] at h
    | some m =>
      have hl : panics a = false := by
        simpa [panics] using h
      simp [sentBeforePanic, ih hl]

/-- Every observation `Collect` sends is one of the attempts of its three phases. -/
theorem Collect_metrics_mem {σ : Type} (env : Env σ) (v : FibertelStation)
    (st st1 st2 : State σ) (lr : LoginResponse) (r : Option ModemStatusResponse)
    (err : Option String)
    (h1 : Login env v st = (st1, .ok lr))
    (h2 : GetModemStatus env v st1 = (st2, r, err))
    (m : Metric) (hm : m ∈ (Collect env v st).metrics) :
    some m ∈ loginMetrics lr ∨ some m ∈ statusMetrics env.upstreamLocked r err
      ∨ some m ∈ logoutMetrics (Logout env v (printError st2 err)).2 := by
  unfold Collect at hm
  rw [h1] at hm
  simp only [h2] at hm
  split at hm
  · exact Or.inl (mem_sentBeforePanic _ _ hm)
  · split at hm
    · have := mem_sentBeforePanic _ _ hm
      simp only [List.mem_append] at this
      rcases this with h | h
      · exact Or.inl h
      · exact Or.inr (Or.inl h)
    · have := mem_sentBeforePanic _ _ hm
      simp only [List.mem_append] at this
      rcases this with (h | h) | h
      · exact Or.inl h
      · exact Or.inr (Or.inl h)
      · exact Or.inr (Or.inr h)

/-! ### What the station methods record -/

theorem doRequest_calls {σ : Type} (env : Env σ) (st : State σ) (method url body : String) :
    (doRequest env st method url body).1.calls = st.calls
      ∧ (doRequest env st method url body).1.stdout = st.stdout := by
  unfold doRequest
  split
  · exact ⟨rfl, rfl⟩
  · dsimp only
    split <;> exact ⟨rfl, rfl⟩

theorem doRequest_ok_sent {σ : Type} (env : Env σ) (st st1 : State σ)
    (method url body responseBody : String)
    (h : doRequest env st method url body = (st1, .ok responseBody)) :
    st1.sent = st.sent ++ [buildRequest st.csrfToken method url body] := by
  unfold doRequest at h
  split at h
  · simp at h
  · dsimp only at h
    split at h
    · simp at h
    · simp only [Prod.mk.injEq] at h
      rw [← h.1]

theorem getLoginSalts_calls {σ : Type} (env : Env σ) (v : FibertelStation) (st : State σ) :
    (getLoginSalts env v st).1.calls = st.calls := by
  unfold getLoginSalts
  simp only []
  have h := (doRequest_calls env st "POST" (v.URL ++ "/api/v1/session/login")
    (env.Encode [("username", v.Username), ("password", "seeksalthash"), ("logout", "true")])).1
  split
  · rename_i st1 err heq
    rw [heq] at h
    exact h
  · rename_i st1 responseBody heq
    rw [heq] at h
    split
    · exact h
    · split <;> exact h

theorem getLoginSalts_ok_sent {σ : Type} (env : Env σ) (v : FibertelStation)
    (st st1 : State σ) (salts : LoginResponseSalts)
    (h : getLoginSalts env v st = (st1, .ok salts)) :
    st1.sent = st.sent ++ [buildRequest st.csrfToken "POST" (v.URL ++ "/api/v1/session/login")
      (env.Encode [("username", v.Username), ("password", "seeksalthash"), ("logout", "true")])] := by
  unfold getLoginSalts at h
  simp only [] at h
  split at h
  · simp at h
  · rename_i st2 responseBody heq
    have hs := doRequest_ok_sent env st st2 _ _ _ _ heq
    split at h
    · simp at h
    · split at h
      · simp at h
      · simp only [Prod.mk.injEq] at h
        rw [← h.1]
        exact hs

theorem Login_calls {σ : Type} (env : Env σ) (v : FibertelStation) (st : State σ) :
    (Login env v st).1.calls = st.calls ++ [ApiCall.Login] := by
  unfold Login
  simp only []
  have a1 := (doRequest_calls env { st with calls := st.calls ++ [ApiCall.Login] }
    "GET" v.URL "").1
  split
  · rename_i st1 err heq
    rw [heq] at a1
    exact a1
  · rename_i st1 b heq
    rw [heq] at a1
    have a2 := getLoginSalts_calls env v st1
    split
    · rename_i st2 err heq2
      rw [heq2] at a2
      exact a2.trans a1
    · rename_i st2 salts heq2
      rw [heq2] at a2
      have a3 := (doRequest_calls env st2 "POST" (v.URL ++ "/api/v1/session/login")
        (env.Encode [("username", v.Username),
          ("password", GetLoginPassword v.Password salts.Salt salts.SaltWebUI)])).1
      split
      · rename_i st3 err heq3
        rw [heq3] at a3
        exact a3.trans (a2.trans a1)
      · rename_i st3 body heq3
        rw [heq3] at a3
        split
        · exact a3.trans (a2.trans a1)
        · have a4 := (doRequest_calls env st3 "GET" (v.URL ++ "/api/v1/session/menu") "").1
          split
          · rename_i st4 err heq4
            rw [heq4] at a4
            exact a4.trans (a3.trans (a2.trans a1))
          · rename_i st4 b4 heq4
            rw [heq4] at a4
            exact a4.trans (a3.trans (a2.trans a1))

theorem GetModemStatus_calls {σ : Type} (env : Env σ) (v : FibertelStation) (st : State σ) :
    (GetModemStatus env v st).1.calls = st.calls ++ [ApiCall.GetModemStatus] := by
  unfold GetModemStatus
  simp only []
  have a1 := (doRequest_calls env { st with calls := st.calls ++ [ApiCall.GetModemStatus] }
    "GET" (modemStatusURL v (toString (env.makeTimestamp st.world))) "").1
  split
  · rename_i st1 err heq
    rw [heq] at a1
    exact a1
  · rename_i st1 b heq
    rw [heq] at a1
    exact a1

theorem Logout_calls {σ : Type} (env : Env σ) (v : FibertelStation) (st : State σ) :
    (Logout env v st).1.calls = st.calls ++ [ApiCall.Logout] := by
  unfold Logout
  simp only []
  have a1 := (doRequest_calls env { st with calls := st.calls ++ [ApiCall.Logout] }
    "POST" (v.URL ++ "/api/v1/session/logout") "").1
  split
  · rename_i st1 err heq
    rw [heq] at a1
    exact a1
  · rename_i st1 b heq
    rw [heq] at a1
    split
    · exact a1
    · split <;> exact a1

theorem printError_calls {σ : Type} (st : State σ) (err : Option String) :
    (printError st err).calls = st.calls := by
  cases err <;> rfl

/-! ### The loop bodies, observation by observation -/

theorem downstreamMetrics_eq (r : DocsisDownstreamChannel) :
    downstreamMetrics r =
      [some ⟨centralFrequencyDownstreamDesc, mulFloat64 (parse2float r.CentralFrequency) 10e9,
          [r.Id, r.ChannelId, r.Modulation, r.ChannelType]⟩,
       some ⟨powerDownstreamDesc, parse2float r.Power,
          [r.Id, r.ChannelId, r.Modulation, r.ChannelType]⟩,
       some ⟨snrDownstreamDesc, parse2float r.Snr,
          [r.Id, r.ChannelId, r.Modulation, r.ChannelType]⟩,
       some ⟨lockedDownstreamDesc, bool2float64 (r.Locked == "Locked"),
          [r.Id, r.ChannelId, r.Modulation, r.ChannelType]⟩] := rfl

theorem ofdmDownstreamMetrics_eq (r : OfdmDownstreamData) :
    ofdmDownstreamMetrics r =
      [some ⟨startFrequencyOfdmDownstreamDesc, mulFloat64 (parse2float r.StartFrequency) 10e9,
          [r.Id, r.ChannelIdOfdm, r.FftOfdm, r.ChannelType]⟩,
       some ⟨endFrequencyOfdmDownstreamDesc, mulFloat64 (parse2float r.PLCFrequency) 10e9,
          [r.Id, r.ChannelIdOfdm, r.FftOfdm, r.ChannelType]⟩,
       some ⟨centralFrequencyOfdmDownstreamDesc, mulFloat64 (parse2float r.CentralFrequencyOfdm) 10e9,
           
          [r.Id, r.ChannelIdOfdm, r.FftOfdm, r.ChannelType]⟩,
       some ⟨bandwidthOfdmDownstreamDesc, mulFloat64 (parse2float r.Bandwidth) 10e9,
          [r.Id, r.ChannelIdOfdm, r.FftOfdm, r.ChannelType]⟩,
       some ⟨powerOfdmDownstreamDesc, parse2float r.PowerOfdm,
          [r.Id, r.ChannelIdOfdm, r.FftOfdm, r.ChannelType]⟩,
       some ⟨snrOfdmDownstreamDesc, parse2float r.SnrOfdm,
          [r.Id, r.ChannelIdOfdm, r.FftOfdm, r.ChannelType]⟩,
       some ⟨lockedOfdmDownstreamDesc, bool2float64 (r.LockedOfdm == "Locked"),
          [r.Id, r.ChannelIdOfdm, r.FftOfdm, r.ChannelType]⟩] := rfl

theorem upstreamMetrics_eq (Locked : DocsisUpstreamChannel → String)
    (r : DocsisUpstreamChannel) :
    upstreamMetrics Locked r =
      [some ⟨centralFrequencyUpstreamDesc, mulFloat64 (parse2float r.CentralFrequency) 10e9,
          [r.Id, r.ChannelIdUp, r.SymbolRate, r.ChannelType]⟩,
       some ⟨powerUpstreamDesc, parse2float r.Power,
          [r.Id, r.ChannelIdUp, r.SymbolRate, r.ChannelType]⟩,
       some ⟨lockedUpstreamDesc, bool2float64 (Locked r == "Locked"),
          [r.Id, r.ChannelIdUp, r.SymbolRate, r.ChannelType]⟩] := rfl

theorem ofdmUpstreamMetrics_eq (r : OfdmUpstreamData) :
    ofdmUpstreamMetrics r =
      [some ⟨startFrequencyOfdmUpstreamDesc, mulFloat64 (parse2float r.StartFrequency) 10e9,
          [r.Id, r.ChannelIdOfdm, r.FftOfdm, r.ChannelType]⟩,
       some ⟨endFrequencyOfdmUpstreamDesc, mulFloat64 (parse2float r.PLCFrequency) 10e9,
          [r.Id, r.ChannelIdOfdm, r.FftOfdm, r.ChannelType]⟩,
       some ⟨centralFrequencyOfdmUpstreamDesc, mulFloat64 (parse2float r.CentralFrequencyOfdm) 10e9,
          [r.Id, r.ChannelIdOfdm, r.FftOfdm, r.ChannelType]⟩,
       some ⟨bandwidthOfdmUpstreamDesc, mulFloat64 (parse2float r.Bandwidth) 10e9,
          [r.Id, r.ChannelIdOfdm, r.FftOfdm, r.ChannelType]⟩,
       some ⟨powerOfdmUpstreamDesc, parse2float r.PowerOfdm,
          [r.Id, r.ChannelIdOfdm, r.FftOfdm, r.ChannelType]⟩,
       some ⟨lockedOfdmUpstreamDesc, bool2float64 (r.LockedOfdm == "Locked"),
          [r.Id, r.ChannelIdOfdm, r.FftOfdm, r.ChannelType]⟩] := rfl

theorem loginMetrics_eq (lr : LoginResponse) (d : LoginResponseData) (h : lr.Data = some d) :
    loginMetrics lr =
      [some ⟨loginMessageDesc, 1, [lr.Message]⟩, some ⟨loginSuccessDesc, 1, []⟩,
       some ⟨userDesc, 1, [d.User]⟩, some ⟨uidDesc, 1, [d.Uid]⟩,
       some ⟨defaultPasswordDesc, bool2float64 (d.DefaultPassword == "Yes"), []⟩] := by
  unfold loginMetrics
  rw [h]
  rfl

theorem logoutMetrics_ok (r : LogoutResponse) :
    logoutMetrics (.ok r) =
      [some ⟨logoutMessageDesc, 1, [r.Message]⟩, some ⟨logoutSuccessDesc, 1, []⟩] := rfl

theorem logoutMetrics_error (e : String) :
    logoutMetrics (.error e) =
      [some ⟨logoutSuccessDesc, 0, []⟩, some ⟨logoutSuccessDesc, 1, []⟩] := rfl

theorem mem_rangeLoop {α : Type} (body : α → List (Option Metric)) (xs : List (Option α))
    (m : Metric) (h : some m ∈ rangeLoop body xs) :
    ∃ r, some r ∈ xs ∧ some m ∈ body r := by
  simp only [rangeLoop, List.mem_flatMap] at h
  obtain ⟨x, hx, hm⟩ := h
  cases x with
  | none => simp at hm
  | some r => exact ⟨r, hx, hm⟩

/-! ### Values of the scenario fields -/

theorem parse2float_of_scan (s : String) (st : ReadFloat)
    (h : (ReplaceAllString [] false s.data).foldlM readFloatStep ⟨false, false, 0, 0⟩ = some st)
    (hd : st.sawdigits = true) (hlt : st.mantissa < float64Overflow * 10 ^ st.frac) :
    parse2float s = nearestFloat64 ((st.mantissa : ℚ) / 10 ^ st.frac) := by
  unfold parse2float ParseFloat
  simp only [h, hd, Bool.not_true, Bool.false_eq_true, if_false, Nat.not_le.2 hlt]

theorem float64Overflow_large : 10 ^ 20 < float64Overflow := by
  unfold float64Overflow
  norm_num

set_option maxRecDepth 100000 in
theorem nearestFloat64_550 : nearestFloat64 550 = 550 := by
  rw [nearestFloat64_eval 550 550 1 1031 4837851162214400 (by norm_num) (by decide)
    (by decide) (by decide!) (Or.inl (by decide!)) (by decide!)]
  norm_num

set_option maxRecDepth 100000 in
theorem nearestFloat64_38_5 : nearestFloat64 (77 / 2) = 77 / 2 := by
  rw [nearestFloat64_eval (77 / 2) 77 2 1027 5418393301680128 (by norm_num) (by decide)
    (by decide) (by decide!) (Or.inl (by decide!)) (by decide!)]
  norm_num

set_option maxRecDepth 100000 in
/-- The float64 written `2.1`. -/
theorem nearestFloat64_2_1 : nearestFloat64 (21 / 10) = 4728779608739021 / 2 ^ 51 := by
  rw [nearestFloat64_eval (21 / 10) 21 10 1023 4728779608739021 (by norm_num) (by decide)
    (by decide) (by decide!) (Or.inl (by decide!)) (by decide!)]
  norm_num

set_option maxRecDepth 100000 in
theorem mulFloat64_550 : mulFloat64 550 10e9 = 5500000000000 := by
  have h : (550 : ℚ) * 10e9 = 5500000000000 := by norm_num
  unfold mulFloat64
  rw [h, nearestFloat64_eval 5500000000000 5500000000000 1 1064 5632000000000000
    (by norm_num) (by decide) (by decide) (by decide!) (Or.inl (by decide!)) (by decide!)]
  norm_num

theorem parse2float_550 : parse2float "550.0" = 550 := by
  rw [parse2float_of_scan "550.0" ⟨true, true, 5500, 1⟩ (by decide) rfl
    (by have := float64Overflow_large; simp only []; omega)]
  have h : ((5500 : ℕ) : ℚ) / 10 ^ 1 = 550 := by norm_num
  simp only [h]
  exact nearestFloat64_550

theorem parse2float_2_1 : parse2float "2.1" = nearestFloat64 (21 / 10) := by
  rw [parse2float_of_scan "2.1" ⟨true, true, 21, 1⟩ (by decide) rfl
    (by have := float64Overflow_large; simp only []; omega)]
  have h : ((21 : ℕ) : ℚ) / 10 ^ 1 = 21 / 10 := by norm_num
  simp only [h]

theorem parse2float_38_5 : parse2float "38.5" = 77 / 2 := by
  rw [parse2float_of_scan "38.5" ⟨true, true, 385, 1⟩ (by decide) rfl
    (by have := float64Overflow_large; simp only []; omega)]
  have h : ((385 : ℕ) : ℚ) / 10 ^ 1 = 77 / 2 := by norm_num
  simp only [h]
  exact nearestFloat64_38_5

/-! ### The end-to-end scenario -/

set_option maxRecDepth 100000 in
theorem endToEnd_login :
    Login (scriptedEnv endToEndScript) scenarioStation scenarioStart
      = ((Login (scriptedEnv endToEndScript) scenarioStation scenarioStart).1,
          .ok ⟨"ok", "", some scenarioLoginData⟩) :=
  Prod.ext rfl (by rfl)

set_option maxRecDepth 100000 in
theorem endToEnd_status :
    GetModemStatus (scriptedEnv endToEndScript) scenarioStation
        (Login (scriptedEnv endToEndScript) scenarioStation scenarioStart).1
      = ((GetModemStatus (scriptedEnv endToEndScript) scenarioStation
            (Login (scriptedEnv endToEndScript) scenarioStation scenarioStart).1).1,
          some ⟨"ok", "", some ⟨[], [], [some scenarioChannel], []⟩⟩, none) :=
  Prod.ext rfl (by rfl)

set_option maxRecDepth 100000 in
theorem endToEnd_logout :
    (Logout (scriptedEnv endToEndScript) scenarioStation
        (printError (GetModemStatus (scriptedEnv endToEndScript) scenarioStation
          (Login (scriptedEnv endToEndScript) scenarioStation scenarioStart).1).1 none)).2
      = .ok ⟨"ok", ""⟩ := by
  rfl

/-- The observations of the end-to-end scenario, in the order sent. -/
theorem endToEnd_metrics :
    (Collect (scriptedEnv endToEndScript) scenarioStation scenarioStart).metrics =
      [⟨loginMessageDesc, 1, [""]⟩, ⟨loginSuccessDesc, 1, []⟩, ⟨userDesc, 1, ["admin"]⟩,
       ⟨uidDesc, 1, ["1"]⟩, ⟨defaultPasswordDesc, 0, []⟩,
       ⟨centralFrequencyDownstreamDesc, 5500000000000, ["1", "5", "256QAM", "1"]⟩,
       ⟨powerDownstreamDesc, nearestFloat64 (21 / 10), ["1", "5", "256QAM", "1"]⟩,
       ⟨snrDownstreamDesc, 77 / 2, ["1", "5", "256QAM", "1"]⟩,
       ⟨lockedDownstreamDesc, 1, ["1", "5", "256QAM", "1"]⟩,
       ⟨logoutMessageDesc, 1, [""]⟩, ⟨logoutSuccessDesc, 1, []⟩] := by
  rw [Collect_of_login_ok _ _ _ _ _ _ _ _ endToEnd_login rfl endToEnd_status rfl]
  simp only [endToEnd_logout]
  have h : sentBeforePanic (loginMetrics ⟨"ok", "", some scenarioLoginData⟩
      ++ statusMetrics (scriptedEnv endToEndScript).upstreamLocked
        (some ⟨"ok", "", some ⟨[], [], [some scenarioChannel], []⟩⟩) none
      ++ logoutMetrics (.ok ⟨"ok", ""⟩)) =
      [⟨loginMessageDesc, 1, [""]⟩, ⟨loginSuccessDesc, 1, []⟩, ⟨userDesc, 1, ["admin"]⟩,
       ⟨uidDesc, 1, ["1"]⟩, ⟨defaultPasswordDesc, bool2float64 ("No" == "Yes"), []⟩,
       ⟨centralFrequencyDownstreamDesc, mulFloat64 (parse2float "550.0") 10e9,
           ["1", "5", "256QAM", "1"]⟩,
       ⟨powerDownstreamDesc, parse2float "2.1", ["1", "5", "256QAM", "1"]⟩,
       ⟨snrDownstreamDesc, parse2float "38.5", ["1", "5", "256QAM", "1"]⟩,
       ⟨lockedDownstreamDesc, bool2float64 ("Locked" == "Locked"), ["1", "5", "256QAM", "1"]⟩,
       ⟨logoutMessageDesc, 1, [""]⟩, ⟨logoutSuccessDesc, 1, []⟩] := rfl
  rw [h, parse2float_550, parse2float_2_1, parse2float_38_5, mulFloat64_550]
  have hb1 : bool2float64 ("No" == "Yes") = 0 := by decide
  have hb2 : bool2float64 ("Locked" == "Locked") = 1 := by decide
  rw [hb1, hb2]

/-! ### URLs of a cycle -/

theorem append_ne_self (u s : String) (h : 0 < s.length) : u ≠ u ++ s := by
  intro e
  have := congrArg String.length e
  rw [String.length_append] at this
  omega

theorem login_ne_logout (u : String) :
    u ++ "/api/v1/session/login" ≠ u ++ "/api/v1/session/logout" := by
  intro e
  have := congrArg String.length e
  rw [String.length_append, String.length_append] at this
  have h1 : "/api/v1/session/login".length = 21 := by decide
  have h2 : "/api/v1/session/logout".length = 22 := by decide
  omega

theorem base_ne_modemStatusURL (v : FibertelStation) (timestamp : String) :
    v.URL ≠ modemStatusURL v timestamp := by
  unfold modemStatusURL
  rw [String.append_assoc]
  apply append_ne_self
  rw [String.length_append]
  have h1 : "/api/v1/modem/exUSTbl,exDSTbl,USTbl,DSTbl?_=".length = 44 := by decide
  omega

theorem get_not_logoutPost (v : FibertelStation) (tok url body : String) :
    ¬ isLogoutPost v (buildRequest tok "GET" url body) := by
  rintro ⟨h, -⟩
  have h2 : "GET" = "POST" := h
  exact absurd h2 (by decide)

theorem post_not_diagnosticsGet (v : FibertelStation) (tok url body : String) :
    ¬ isDiagnosticsGet v (buildRequest tok "POST" url body) := by
  rintro ⟨h, -⟩
  have h2 : "POST" = "GET" := h
  exact absurd h2 (by decide)

theorem bootstrap_not_diagnosticsGet (v : FibertelStation) (tok body : String) :
    ¬ isDiagnosticsGet v (buildRequest tok "GET" v.URL body) := by
  rintro ⟨-, timestamp, h⟩
  exact base_ne_modemStatusURL v timestamp h

theorem loginPost_not_logoutPost (v : FibertelStation) (tok body : String) :
    ¬ isLogoutPost v (buildRequest tok "POST" (v.URL ++ "/api/v1/session/login") body) := by
  rintro ⟨-, h⟩
  exact login_ne_logout v.URL h

/-! ### Claims on the cycle -/

/-- C4 (code at the end-to-end scenario): for the downstream channel of the scenario
`Collect` sends the power observation (the float64 nearest to 2.1, which is
4728779608739021 / 2^51) and the locked indicator 1, each labelled
`id=1, channel_id=5, fft=256QAM, channel_type=1`: the label names of the legacy downstream
descriptors are `id, channel_id, fft, channel_type`, so the modulation value is sent under
the key `fft`, not under `modulation`. -/
theorem C4_downstream_labels_at_scenario :
    ((Collect (scriptedEnv endToEndScript) scenarioStation scenarioStart).metrics.filter
        fun m => decide (m.desc = powerDownstreamDesc ∨ m.desc = lockedDownstreamDesc)).map
      (fun m => (m.value, m.labels))
      = [(nearestFloat64 2.1,
            [("id", "1"), ("channel_id", "5"), ("fft", "256QAM"), ("channel_type", "1")]),
         (1, [("id", "1"), ("channel_id", "5"), ("fft", "256QAM"), ("channel_type", "1")])]
    ∧ powerDownstreamDesc.variableLabels = ["id", "channel_id", "fft", "channel_type"]
    ∧ lockedDownstreamDesc.variableLabels = ["id", "channel_id", "fft", "channel_type"]
    ∧ powerDownstreamDesc.variableLabels ≠ ["id", "channel_id", "modulation", "channel_type"]
    ∧ nearestFloat64 2.1 = 4728779608739021 / 2 ^ 51 := by
  have h : (2.1 : ℚ) = 21 / 10 := by norm_num
  refine ⟨?_, rfl, rfl, by decide, ?_⟩
  · rw [endToEnd_metrics, h]
    rfl
  · rw [h]
    exact nearestFloat64_2_1

/-- C5: when the bootstrap GET and the salt handshake succeed and the login response
decodes to an `error` field other than `ok`, `Login` returns an error, `Collect` sends
exactly login-success 0 and logout-success 0 (so no channel, user, uid or
default-password observation), does not panic, enters neither `GetModemStatus` nor
`Logout`, and the three requests it issued hold no diagnostics GET and no logout POST. -/
theorem C5_login_refused {σ : Type} (env : Env σ) (v : FibertelStation)
    (st st1 st2 st3 : State σ) (b : String) (salts : LoginResponseSalts) (body : String)
    (h1 : doRequest env { st with calls := st.calls ++ [ApiCall.Login] } "GET" v.URL ""
      = (st1, .ok b))
    (h2 : getLoginSalts env v st1 = (st2, .ok salts))
    (h3 : doRequest env st2 "POST" (v.URL ++ "/api/v1/session/login")
      (env.Encode [("username", v.Username),
        ("password", GetLoginPassword v.Password salts.Salt salts.SaltWebUI)])
      = (st3, .ok body))
    (h4 : (env.UnmarshalLogin body).1.Error ≠ "ok") :
    Login env v st = (st3, .error "got non error=ok message from fibertel station")
    ∧ (Collect env v st).metrics = [⟨loginSuccessDesc, 0, []⟩, ⟨logoutSuccessDesc, 0, []⟩]
    ∧ (Collect env v st).panicked = false
    ∧ (Collect env v st).state.calls = st.calls ++ [ApiCall.Login]
    ∧ ∃ r1 r2 r3, (Collect env v st).state.sent = st.sent ++ [r1, r2, r3]
        ∧ ∀ r ∈ [r1, r2, r3], ¬ isLogoutPost v r ∧ ¬ isDiagnosticsGet v r := by
  have hL : Login env v st = (st3, .error "got non error=ok message from fibertel station") := by
    unfold Login
    simp only [h1, h2, h3]
    rw [if_pos h4]
  have hC := Collect_of_login_error env v st st3 _ hL
  have hcalls := Login_calls env v st
  rw [hL] at hcalls
  have s1 := doRequest_ok_sent env _ st1 _ _ _ _ h1
  have s2 := getLoginSalts_ok_sent env v st1 st2 salts h2
  have s3 := doRequest_ok_sent env st2 st3 _ _ _ _ h3
  refine ⟨hL, by rw [hC], by rw [hC], by rw [hC]; exact hcalls,
    buildRequest st.csrfToken "GET" v.URL "",
    buildRequest st1.csrfToken "POST" (v.URL ++ "/api/v1/session/login")
      (env.Encode [("username", v.Username), ("password", "seeksalthash"), ("logout", "true")]),
    buildRequest st2.csrfToken "POST" (v.URL ++ "/api/v1/session/login")
      (env.Encode [("username", v.Username),
        ("password", GetLoginPassword v.Password salts.Salt salts.SaltWebUI)]), ?_, ?_⟩
  · rw [hC]
    simp only []
    rw [s3, s2, s1]
    simp only [List.append_assoc, List.singleton_append, List.cons_append, List.nil_append]
  · intro r hr
    simp only [List.mem_cons, List.mem_singleton, List.not_mem_nil, or_false] at hr
    rcases hr with h | h | h <;> subst h
    · exact ⟨get_not_logoutPost _ _ _ _, bootstrap_not_diagnosticsGet _ _ _⟩
    · exact ⟨loginPost_not_logoutPost _ _ _, post_not_diagnosticsGet _ _ _ _⟩
    · exact ⟨loginPost_not_logoutPost _ _ _, post_not_diagnosticsGet _ _ _ _⟩

set_option maxRecDepth 100000 in
/-- Witness of C5: the failure scenario of the spec, a login answered `error: fail`. -/
theorem C5_login_refused_witness :
    (Collect (scriptedEnv loginRefusedScript) scenarioStation scenarioStart).metrics
        = [⟨loginSuccessDesc, 0, []⟩, ⟨logoutSuccessDesc, 0, []⟩]
    ∧ (Collect (scriptedEnv loginRefusedScript) scenarioStation scenarioStart).state.calls
        = [ApiCall.Login] :=
  have h := C5_login_refused (scriptedEnv loginRefusedScript) scenarioStation scenarioStart
    refusedAfterBootstrap refusedAfterSalts refusedAfterLogin "" ⟨"ok", "s1", "s2"⟩ failBody
    (Prod.ext rfl (by rfl)) (Prod.ext rfl (by rfl)) (Prod.ext rfl (by rfl)) (by decide)
  ⟨h.2.1, h.2.2.2.1⟩

/-! ### The scenario of a refused logout -/

set_option maxRecDepth 100000 in
theorem logoutRefused_login :
    Login (scriptedEnv logoutRefusedScript) scenarioStation scenarioStart
      = ((Login (scriptedEnv logoutRefusedScript) scenarioStation scenarioStart).1,
          .ok ⟨"ok", "", some scenarioLoginData⟩) :=
  Prod.ext rfl (by rfl)

set_option maxRecDepth 100000 in
theorem logoutRefused_status :
    GetModemStatus (scriptedEnv logoutRefusedScript) scenarioStation
        (Login (scriptedEnv logoutRefusedScript) scenarioStation scenarioStart).1
      = ((GetModemStatus (scriptedEnv logoutRefusedScript) scenarioStation
            (Login (scriptedEnv logoutRefusedScript) scenarioStation scenarioStart).1).1,
          some ⟨"ok", "", some ⟨[], [], [some scenarioChannel], []⟩⟩, none) :=
  Prod.ext rfl (by rfl)

set_option maxRecDepth 100000 in
theorem logoutRefused_logout :
    (Logout (scriptedEnv logoutRefusedScript) scenarioStation
        (printError (GetModemStatus (scriptedEnv logoutRefusedScript) scenarioStation
          (Login (scriptedEnv logoutRefusedScript) scenarioStation scenarioStart).1).1 none)).2
      = .error "Got non error=ok message from fibertel station" := by
  rfl

/-- C6 (code at a refused logout): in the end-to-end scenario with the logout answered
`error: fail`, login succeeds, `Logout` returns an error, `Collect` completes without a
panic, and it sends two logout-success observations, 0 and then 1: line 190 runs after
line 188. -/
theorem C6_logout_failure_at_scenario :
    (Login (scriptedEnv logoutRefusedScript) scenarioStation scenarioStart).2
      = .ok ⟨"ok", "", some scenarioLoginData⟩
    ∧ (Logout (scriptedEnv logoutRefusedScript) scenarioStation
        (printError (GetModemStatus (scriptedEnv logoutRefusedScript) scenarioStation
          (Login (scriptedEnv logoutRefusedScript) scenarioStation scenarioStart).1).1 none)).2
      = .error "Got non error=ok message from fibertel station"
    ∧ (Collect (scriptedEnv logoutRefusedScript) scenarioStation scenarioStart).panicked = false
    ∧ ((Collect (scriptedEnv logoutRefusedScript) scenarioStation scenarioStart).metrics.filter
        fun m => decide (m.desc = logoutSuccessDesc)).map (fun m => m.value) = [0, 1] := by
  have hC := Collect_of_login_ok _ _ _ _ _ _ _ _ logoutRefused_login rfl logoutRefused_status rfl
  refine ⟨congrArg Prod.snd logoutRefused_login, logoutRefused_logout, ?_, ?_⟩
  · rw [hC]
    simp only [logoutRefused_logout]
    rfl
  · rw [hC]
    simp only [logoutRefused_logout]
    rfl

/-- C7 (code at the end-to-end scenario): for `Frequency` `550.0` the downstream
central-frequency observation is `550 * 10e9 = 5500000000000`, not `550000000`: the
factor of lines 151, 158-161, 168 and 174-177 is `10e9`, that is `10^10`, not `10^6`.
The float64 product is exact here. -/
theorem C7_frequency_scale_at_scenario :
    ((Collect (scriptedEnv endToEndScript) scenarioStation scenarioStart).metrics.filter
        fun m => decide (m.desc = centralFrequencyDownstreamDesc)).map (fun m => m.value)
      = [5500000000000]
    ∧ (5500000000000 : ℚ) = parse2float "550.0" * 10 ^ 10
    ∧ mulFloat64 (parse2float "550.0") 10e9 = parse2float "550.0" * 10 ^ 10
    ∧ (5500000000000 : ℚ) ≠ 550000000
    ∧ (10e9 : ℚ) = 10 ^ 10
    ∧ (10e9 : ℚ) ≠ 10 ^ 6 := by
  refine ⟨?_, ?_, ?_, by norm_num, by norm_num, by norm_num⟩
  · rw [endToEnd_metrics]
    rfl
  · rw [parse2float_550]
    norm_num
  · rw [parse2float_550, mulFloat64_550]
    norm_num

/-! ### Where an observation of `Collect` comes from -/

theorem loginMetrics_desc (lr : LoginResponse) (m : Metric) (hm : some m ∈ loginMetrics lr) :
    m.desc ∈ sessionDescs ∧ 0 ≤ m.value := by
  have hb : ∀ b : Bool, (0 : ℚ) ≤ bool2float64 b := by
    intro b
    cases b <;> simp [bool2float64]
  cases hdata : lr.Data with
  | none =>
    unfold loginMetrics at hm
    rw [hdata] at hm
    simp only [MustNewConstMetric, List.mem_append, List.mem_cons, List.mem_singleton,
      List.not_mem_nil, or_false] at hm
    rcases hm with (h | h) | h
    · have h2 : m = ⟨loginMessageDesc, 1, [lr.Message]⟩ := (Option.some.inj h).trans rfl
      subst h2
      exact ⟨(by decide : loginMessageDesc ∈ sessionDescs), by norm_num⟩
    · have h2 : m = ⟨loginSuccessDesc, 1, []⟩ := (Option.some.inj h).trans rfl
      subst h2
      exact ⟨(by decide : loginSuccessDesc ∈ sessionDescs), by norm_num⟩
    · exact absurd h (by simp)
  | some d =>
    rw [loginMetrics_eq lr d hdata] at hm
    simp only [List.mem_cons, Option.some.injEq, List.mem_singleton, List.not_mem_nil,
      or_false] at hm
    rcases hm with h | h | h | h | h <;> subst h
    · exact ⟨(by decide : loginMessageDesc ∈ sessionDescs), by norm_num⟩
    · exact ⟨(by decide : loginSuccessDesc ∈ sessionDescs), by norm_num⟩
    · exact ⟨(by decide : userDesc ∈ sessionDescs), by norm_num⟩
    · exact ⟨(by decide : uidDesc ∈ sessionDescs), by norm_num⟩
    · exact ⟨(by decide : defaultPasswordDesc ∈ sessionDescs), hb _⟩

theorem logoutMetrics_desc (r : Except String LogoutResponse) (m : Metric)
    (hm : some m ∈ logoutMetrics r) : m.desc ∈ sessionDescs ∧ 0 ≤ m.value := by
  cases r with
  | error e =>
    rw [logoutMetrics_error] at hm
    simp only [List.mem_cons, Option.some.injEq, List.mem_singleton, List.not_mem_nil,
      or_false] at hm
    rcases hm with h | h <;> subst h
    · exact ⟨(by decide : logoutSuccessDesc ∈ sessionDescs), by norm_num⟩
    · exact ⟨(by decide : logoutSuccessDesc ∈ sessionDescs), by norm_num⟩
  | ok lo =>
    rw [logoutMetrics_ok] at hm
    simp only [List.mem_cons, Option.some.injEq, List.mem_singleton, List.not_mem_nil,
      or_false] at hm
    rcases hm with h | h <;> subst h
    · exact ⟨(by decide : logoutMessageDesc ∈ sessionDescs), by norm_num⟩
    · exact ⟨(by decide : logoutSuccessDesc ∈ sessionDescs), by norm_num⟩

theorem channelMetrics_mem (Locked : DocsisUpstreamChannel → String)
    (data : ModemStatusData) (m : Metric)
    (hm : some m ∈ channelMetrics Locked data) :
    (∃ r, some r ∈ data.Downstream ∧ some m ∈ downstreamMetrics r)
    ∨ (∃ r, some r ∈ data.OfdmDownstreamData ∧ some m ∈ ofdmDownstreamMetrics r)
    ∨ (∃ r, some r ∈ data.Upstream ∧ some m ∈ upstreamMetrics Locked r)
    ∨ (∃ r, some r ∈ data.OfdmUpstreamData ∧ some m ∈ ofdmUpstreamMetrics r) := by
  simp only [channelMetrics, List.mem_append] at hm
  rcases hm with ((h | h) | h) | h
  · exact Or.inl (mem_rangeLoop _ _ _ h)
  · exact Or.inr (Or.inl (mem_rangeLoop _ _ _ h))
  · exact Or.inr (Or.inr (Or.inl (mem_rangeLoop _ _ _ h)))
  · exact Or.inr (Or.inr (Or.inr (mem_rangeLoop _ _ _ h)))

theorem mem_channelMetrics_of_mem {α : Type} (body : α → List (Option Metric))
    (xs : List (Option α)) (r : α) (m : Option Metric) (hr : some r ∈ xs) (hm : m ∈ body r) :
    m ∈ rangeLoop body xs := by
  simp only [rangeLoop, List.mem_flatMap]
  exact ⟨some r, hr, hm⟩

theorem statusMetrics_mem (Locked : DocsisUpstreamChannel → String)
    (r : Option ModemStatusResponse) (err : Option String) (m : Metric)
    (hm : some m ∈ statusMetrics Locked r err) :
    ∃ resp data, r = some resp ∧ err = none ∧ resp.Data = some data
      ∧ some m ∈ channelMetrics Locked data := by
  unfold statusMetrics at hm
  split at hm
  · rename_i resp
    split at hm
    · rename_i data hdata
      exact ⟨resp, data, rfl, rfl, hdata, hm⟩
    · simp at hm
  · simp at hm
  · simp at hm

/-- When `Collect` ends without a panic after a login without error, what it sent is all
that its three phases attempted. -/
theorem Collect_no_panic {σ : Type} (env : Env σ) (v : FibertelStation)
    (st st1 st2 : State σ) (lr : LoginResponse) (r : Option ModemStatusResponse)
    (err : Option String)
    (h1 : Login env v st = (st1, .ok lr))
    (h2 : GetModemStatus env v st1 = (st2, r, err))
    (hp : (Collect env v st).panicked = false) :
    (Collect env v st).metrics.map some =
      loginMetrics lr ++ statusMetrics env.upstreamLocked r err
        ++ logoutMetrics (Logout env v (printError st2 err)).2 := by
  unfold Collect at hp ⊢
  rw [h1] at hp ⊢
  simp only [h2] at hp ⊢
  split at hp
  · exact absurd hp (by simp)
  · split at hp
    · exact absurd hp (by simp)
    · rename_i hq1 hq2
      rw [if_neg hq1, if_neg hq2]
      exact sentBeforePanic_of_no_panic _ hp

/-! ### The loop bodies, by descriptor -/

theorem bool2float64_eq_ite (s : String) :
    bool2float64 (s == "Locked") = if s = "Locked" then 1 else 0 := by
  unfold bool2float64
  by_cases h : s = "Locked"
  · simp [h]
  · simp [h]

theorem bool2float64_nonneg (b : Bool) : (0 : ℚ) ≤ bool2float64 b := by
  cases b <;> simp [bool2float64]

theorem parse2float_nonneg (s : String) : 0 ≤ parse2float s := by
  rw [parse2float_eq]
  split
  · exact nearestFloat64_nonneg _
  · exact le_refl 0

theorem scaled_nonneg (s : String) : 0 ≤ mulFloat64 (parse2float s) 10e9 :=
  nearestFloat64_nonneg _

theorem downstreamMetrics_cases (r : DocsisDownstreamChannel) (m : Metric)
    (hm : some m ∈ downstreamMetrics r) :
    m.desc ∈ downstreamDescs ∧ 0 ≤ m.value
      ∧ (m.desc = lockedDownstreamDesc → m.value = if r.Locked = "Locked" then 1 else 0) := by
  rw [downstreamMetrics_eq] at hm
  simp only [List.mem_cons, Option.some.injEq, List.mem_singleton, List.not_mem_nil,
    or_false] at hm
  rcases hm with h | h | h | h <;> subst h
  · exact ⟨(by decide : centralFrequencyDownstreamDesc ∈ downstreamDescs), scaled_nonneg _,
      fun hd => absurd (show centralFrequencyDownstreamDesc = lockedDownstreamDesc from hd)
        (by decide)⟩
  · exact ⟨(by decide : powerDownstreamDesc ∈ downstreamDescs), parse2float_nonneg _,
      fun hd => absurd (show powerDownstreamDesc = lockedDownstreamDesc from hd) (by decide)⟩
  · exact ⟨(by decide : snrDownstreamDesc ∈ downstreamDescs), parse2float_nonneg _,
      fun hd => absurd (show snrDownstreamDesc = lockedDownstreamDesc from hd) (by decide)⟩
  · exact ⟨(by decide : lockedDownstreamDesc ∈ downstreamDescs), bool2float64_nonneg _,
      fun _ => bool2float64_eq_ite _⟩

theorem ofdmDownstreamMetrics_cases (r : OfdmDownstreamData) (m : Metric)
    (hm : some m ∈ ofdmDownstreamMetrics r) :
    m.desc ∈ ofdmDownstreamDescs ∧ 0 ≤ m.value
      ∧ (m.desc = lockedOfdmDownstreamDesc →
          m.value = if r.LockedOfdm = "Locked" then 1 else 0) := by
  rw [ofdmDownstreamMetrics_eq] at hm
  simp only [List.mem_cons, Option.some.injEq, List.mem_singleton, List.not_mem_nil,
    or_false] at hm
  rcases hm with h | h | h | h | h | h | h <;> subst h
  · exact ⟨(by decide : startFrequencyOfdmDownstreamDesc ∈ ofdmDownstreamDescs), scaled_nonneg _,
      fun hd => absurd (show startFrequencyOfdmDownstreamDesc = lockedOfdmDownstreamDesc from hd)
        (by decide)⟩
  · exact ⟨(by decide : endFrequencyOfdmDownstreamDesc ∈ ofdmDownstreamDescs), scaled_nonneg _,
      fun hd => absurd (show endFrequencyOfdmDownstreamDesc = lockedOfdmDownstreamDesc from hd)
        (by decide)⟩
  · exact ⟨(by decide : centralFrequencyOfdmDownstreamDesc ∈ ofdmDownstreamDescs),
      scaled_nonneg _,
      fun hd => absurd
        (show centralFrequencyOfdmDownstreamDesc = lockedOfdmDownstreamDesc from hd) (by decide)⟩
  · exact ⟨(by decide : bandwidthOfdmDownstreamDesc ∈ ofdmDownstreamDescs), scaled_nonneg _,
      fun hd => absurd (show bandwidthOfdmDownstreamDesc = lockedOfdmDownstreamDesc from hd)
        (by decide)⟩
  · exact ⟨(by decide : powerOfdmDownstreamDesc ∈ ofdmDownstreamDescs), parse2float_nonneg _,
      fun hd => absurd (show powerOfdmDownstreamDesc = lockedOfdmDownstreamDesc from hd)
        (by decide)⟩
  · exact ⟨(by decide : snrOfdmDownstreamDesc ∈ ofdmDownstreamDescs), parse2float_nonneg _,
      fun hd => absurd (show snrOfdmDownstreamDesc = lockedOfdmDownstreamDesc from hd)
        (by decide)⟩
  · exact ⟨(by decide : lockedOfdmDownstreamDesc ∈ ofdmDownstreamDescs), bool2float64_nonneg _,
      fun _ => bool2float64_eq_ite _⟩

theorem upstreamMetrics_cases (Locked : DocsisUpstreamChannel → String)
    (r : DocsisUpstreamChannel) (m : Metric)
    (hm : some m ∈ upstreamMetrics Locked r) :
    m.desc ∈ upstreamDescs ∧ 0 ≤ m.value
      ∧ (m.desc = lockedUpstreamDesc → m.value = if Locked r = "Locked" then 1 else 0) := by
  rw [upstreamMetrics_eq] at hm
  simp only [List.mem_cons, Option.some.injEq, List.mem_singleton, List.not_mem_nil,
    or_false] at hm
  rcases hm with h | h | h <;> subst h
  · exact ⟨(by decide : centralFrequencyUpstreamDesc ∈ upstreamDescs), scaled_nonneg _,
      fun hd => absurd (show centralFrequencyUpstreamDesc = lockedUpstreamDesc from hd)
        (by decide)⟩
  · exact ⟨(by decide : powerUpstreamDesc ∈ upstreamDescs), parse2float_nonneg _,
      fun hd => absurd (show powerUpstreamDesc = lockedUpstreamDesc from hd) (by decide)⟩
  · exact ⟨(by decide : lockedUpstreamDesc ∈ upstreamDescs), bool2float64_nonneg _,
      fun _ => bool2float64_eq_ite _⟩

theorem ofdmUpstreamMetrics_cases (r : OfdmUpstreamData) (m : Metric)
    (hm : some m ∈ ofdmUpstreamMetrics r) :
    m.desc ∈ ofdmUpstreamDescs ∧ 0 ≤ m.value
      ∧ (m.desc = lockedOfdmUpstreamDesc →
          m.value = if r.LockedOfdm = "Locked" then 1 else 0) := by
  rw [ofdmUpstreamMetrics_eq] at hm
  simp only [List.mem_cons, Option.some.injEq, List.mem_singleton, List.not_mem_nil,
    or_false] at hm
  rcases hm with h | h | h | h | h | h <;> subst h
  · exact ⟨(by decide : startFrequencyOfdmUpstreamDesc ∈ ofdmUpstreamDescs), scaled_nonneg _,
      fun hd => absurd (show startFrequencyOfdmUpstreamDesc = lockedOfdmUpstreamDesc from hd)
        (by decide)⟩
  · exact ⟨(by decide : endFrequencyOfdmUpstreamDesc ∈ ofdmUpstreamDescs), scaled_nonneg _,
      fun hd => absurd (show endFrequencyOfdmUpstreamDesc = lockedOfdmUpstreamDesc from hd)
        (by decide)⟩
  · exact ⟨(by decide : centralFrequencyOfdmUpstreamDesc ∈ ofdmUpstreamDescs), scaled_nonneg _,
      fun hd => absurd (show centralFrequencyOfdmUpstreamDesc = lockedOfdmUpstreamDesc from hd)
        (by decide)⟩
  · exact ⟨(by decide : bandwidthOfdmUpstreamDesc ∈ ofdmUpstreamDescs), scaled_nonneg _,
      fun hd => absurd (show bandwidthOfdmUpstreamDesc = lockedOfdmUpstreamDesc from hd)
        (by decide)⟩
  · exact ⟨(by decide : powerOfdmUpstreamDesc ∈ ofdmUpstreamDescs), parse2float_nonneg _,
      fun hd => absurd (show powerOfdmUpstreamDesc = lockedOfdmUpstreamDesc from hd)
        (by decide)⟩
  · exact ⟨(by decide : lockedOfdmUpstreamDesc ∈ ofdmUpstreamDescs), bool2float64_nonneg _,
      fun _ => bool2float64_eq_ite _⟩

/-! ### Lock-state mapping -/

theorem downstreamMetrics_locked (r : DocsisDownstreamChannel) (m : Metric)
    (hm : some m ∈ downstreamMetrics r) (hd : m.desc = lockedDownstreamDesc) :
    m = ⟨lockedDownstreamDesc, if r.Locked = "Locked" then 1 else 0,
      [r.Id, r.ChannelId, r.Modulation, r.ChannelType]⟩ := by
  rw [downstreamMetrics_eq] at hm
  simp only [List.mem_cons, Option.some.injEq, List.mem_singleton, List.not_mem_nil,
    or_false] at hm
  rcases hm with h | h | h | h <;> subst h
  · exact absurd (show centralFrequencyDownstreamDesc = lockedDownstreamDesc from hd)
      (by decide)
  · exact absurd (show powerDownstreamDesc = lockedDownstreamDesc from hd) (by decide)
  · exact absurd (show snrDownstreamDesc = lockedDownstreamDesc from hd) (by decide)
  · rw [bool2float64_eq_ite]

theorem ofdmDownstreamMetrics_locked (r : OfdmDownstreamData) (m : Metric)
    (hm : some m ∈ ofdmDownstreamMetrics r) (hd : m.desc = lockedOfdmDownstreamDesc) :
    m = ⟨lockedOfdmDownstreamDesc, if r.LockedOfdm = "Locked" then 1 else 0,
      [r.Id, r.ChannelIdOfdm, r.FftOfdm, r.ChannelType]⟩ := by
  rw [ofdmDownstreamMetrics_eq] at hm
  simp only [List.mem_cons, Option.some.injEq, List.mem_singleton, List.not_mem_nil,
    or_false] at hm
  rcases hm with h | h | h | h | h | h | h <;> subst h
  · exact absurd (show startFrequencyOfdmDownstreamDesc = lockedOfdmDownstreamDesc from hd)
      (by decide)
  · exact absurd (show endFrequencyOfdmDownstreamDesc = lockedOfdmDownstreamDesc from hd)
      (by decide)
  · exact absurd (show centralFrequencyOfdmDownstreamDesc = lockedOfdmDownstreamDesc from hd)
      (by decide)
  · exact absurd (show bandwidthOfdmDownstreamDesc = lockedOfdmDownstreamDesc from hd)
      (by decide)
  · exact absurd (show powerOfdmDownstreamDesc = lockedOfdmDownstreamDesc from hd) (by decide)
  · exact absurd (show snrOfdmDownstreamDesc = lockedOfdmDownstreamDesc from hd) (by decide)
  · rw [bool2float64_eq_ite]

theorem upstreamMetrics_locked (Locked : DocsisUpstreamChannel → String)
    (r : DocsisUpstreamChannel) (m : Metric)
    (hm : some m ∈ upstreamMetrics Locked r) (hd : m.desc = lockedUpstreamDesc) :
    m = ⟨lockedUpstreamDesc, if Locked r = "Locked" then 1 else 0,
      [r.Id, r.ChannelIdUp, r.SymbolRate, r.ChannelType]⟩ := by
  rw [upstreamMetrics_eq] at hm
  simp only [List.mem_cons, Option.some.injEq, List.mem_singleton, List.not_mem_nil,
    or_false] at hm
  rcases hm with h | h | h <;> subst h
  · exact absurd (show centralFrequencyUpstreamDesc = lockedUpstreamDesc from hd) (by decide)
  · exact absurd (show powerUpstreamDesc = lockedUpstreamDesc from hd) (by decide)
  · rw [bool2float64_eq_ite]

theorem ofdmUpstreamMetrics_locked (r : OfdmUpstreamData) (m : Metric)
    (hm : some m ∈ ofdmUpstreamMetrics r) (hd : m.desc = lockedOfdmUpstreamDesc) :
    m = ⟨lockedOfdmUpstreamDesc, if r.LockedOfdm = "Locked" then 1 else 0,
      [r.Id, r.ChannelIdOfdm, r.FftOfdm, r.ChannelType]⟩ := by
  rw [ofdmUpstreamMetrics_eq] at hm
  simp only [List.mem_cons, Option.some.injEq, List.mem_singleton, List.not_mem_nil,
    or_false] at hm
  rcases hm with h | h | h | h | h | h <;> subst h
  · exact absurd (show startFrequencyOfdmUpstreamDesc = lockedOfdmUpstreamDesc from hd)
      (by decide)
  · exact absurd (show endFrequencyOfdmUpstreamDesc = lockedOfdmUpstreamDesc from hd)
      (by decide)
  · exact absurd (show centralFrequencyOfdmUpstreamDesc = lockedOfdmUpstreamDesc from hd)
      (by decide)
  · exact absurd (show bandwidthOfdmUpstreamDesc = lockedOfdmUpstreamDesc from hd) (by decide)
  · exact absurd (show powerOfdmUpstreamDesc = lockedOfdmUpstreamDesc from hd) (by decide)
  · rw [bool2float64_eq_ite]

theorem lockedFollowsStatus_of_session (Locked : DocsisUpstreamChannel → String)
    (data : ModemStatusData) (m : Metric)
    (h : m.desc ∈ sessionDescs) : LockedFollowsStatus Locked data m := by
  refine ⟨?_, ?_, ?_, ?_⟩ <;> intro hd <;> rw [hd] at h <;> exact absurd h (by decide)

theorem lockedFollowsStatus_of_channel (Locked : DocsisUpstreamChannel → String)
    (data : ModemStatusData) (m : Metric)
    (h : some m ∈ channelMetrics Locked data) : LockedFollowsStatus Locked data m := by
  rcases channelMetrics_mem Locked data m h with
    ⟨r, hr, hm⟩ | ⟨r, hr, hm⟩ | ⟨r, hr, hm⟩ | ⟨r, hr, hm⟩
  · have hmem := (downstreamMetrics_cases r m hm).1
    refine ⟨fun hd => ⟨r, hr, downstreamMetrics_locked r m hm hd⟩, ?_, ?_, ?_⟩ <;> intro hd <;>
      rw [hd] at hmem <;> exact absurd hmem (by decide)
  · have hmem := (ofdmDownstreamMetrics_cases r m hm).1
    refine ⟨?_, fun hd => ⟨r, hr, ofdmDownstreamMetrics_locked r m hm hd⟩, ?_, ?_⟩ <;>
      intro hd <;> rw [hd] at hmem <;> exact absurd hmem (by decide)
  · have hmem := (upstreamMetrics_cases Locked r m hm).1
    refine ⟨?_, ?_, fun hd => ⟨r, hr, upstreamMetrics_locked Locked r m hm hd⟩, ?_⟩ <;>
      intro hd <;> rw [hd] at hmem <;> exact absurd hmem (by decide)
  · have hmem := (ofdmUpstreamMetrics_cases r m hm).1
    refine ⟨?_, ?_, ?_, fun hd => ⟨r, hr, ofdmUpstreamMetrics_locked r m hm hd⟩⟩ <;>
      intro hd <;> rw [hd] at hmem <;> exact absurd hmem (by decide)

theorem mem_of_some_mem_map (l : List Metric) (m : Metric) (h : some m ∈ l.map some) :
    m ∈ l := by
  simp only [List.mem_map, Option.some.injEq] at h
  obtain ⟨a, ha, rfl⟩ := h
  exact ha

/-! ### When a cycle panics -/

theorem panics_eq_false_iff (l : List (Option Metric)) : panics l = false ↔ none ∉ l := by
  induction l with
  | nil => simp [panics]
  | cons a l ih =>
    cases a with
    | none => simp [panics]
    | some x =>
      have h : panics (some x :: l) = panics l := by simp [panics]
      rw [h, ih]
      simp

theorem none_mem_rangeLoop {α : Type} (body : α → List (Option Metric))
    (xs : List (Option α)) (hb : ∀ r, none ∉ body r) :
    none ∈ rangeLoop body xs ↔ none ∈ xs := by
  simp only [rangeLoop, List.mem_flatMap]
  constructor
  · rintro ⟨x, hx, hm⟩
    cases x with
    | none => exact hx
    | some r => exact absurd hm (hb r)
  · intro h
    exact ⟨none, h, by simp⟩

theorem none_mem_channelMetrics (Locked : DocsisUpstreamChannel → String)
    (data : ModemStatusData) : none ∈ channelMetrics Locked data ↔ ¬ NoNilRecord data := by
  have h1 : ∀ r, none ∉ downstreamMetrics r := by
    intro r
    rw [downstreamMetrics_eq]
    simp
  have h2 : ∀ r, none ∉ ofdmDownstreamMetrics r := by
    intro r
    rw [ofdmDownstreamMetrics_eq]
    simp
  have h3 : ∀ r, none ∉ upstreamMetrics Locked r := by
    intro r
    rw [upstreamMetrics_eq]
    simp
  have h4 : ∀ r, none ∉ ofdmUpstreamMetrics r := by
    intro r
    rw [ofdmUpstreamMetrics_eq]
    simp
  simp only [channelMetrics, List.mem_append, none_mem_rangeLoop _ _ h1,
    none_mem_rangeLoop _ _ h2, none_mem_rangeLoop _ _ h3, none_mem_rangeLoop _ _ h4,
    NoNilRecord]
  tauto

theorem none_mem_loginMetrics (lr : LoginResponse) :
    none ∈ loginMetrics lr ↔ lr.Data = none := by
  cases hdata : lr.Data with
  | none =>
    unfold loginMetrics
    rw [hdata]
    simp
  | some d =>
    rw [loginMetrics_eq lr d hdata]
    simp

theorem none_not_mem_logoutMetrics (r : Except String LogoutResponse) :
    none ∉ logoutMetrics r := by
  cases r with
  | error e =>
    rw [logoutMetrics_error]
    simp
  | ok x =>
    rw [logoutMetrics_ok]
    simp

/-- Whether `Collect` panics after a login without error: whether one of the attempts of
its three phases does. -/
theorem Collect_panicked {σ : Type} (env : Env σ) (v : FibertelStation)
    (st st1 st2 : State σ) (lr : LoginResponse) (r : Option ModemStatusResponse)
    (err : Option String)
    (h1 : Login env v st = (st1, .ok lr))
    (h2 : GetModemStatus env v st1 = (st2, r, err)) :
    (Collect env v st).panicked =
      panics (loginMetrics lr ++ statusMetrics env.upstreamLocked r err
        ++ logoutMetrics (Logout env v (printError st2 err)).2) := by
  unfold Collect
  rw [h1]
  simp only [h2]
  split
  · rename_i hp
    simp [panics_append, hp]
  · split
    · rename_i hp
      rw [panics_append, hp]
      rfl
    · rfl

/-! ### The scenario with a legacy upstream channel -/

set_option maxRecDepth 100000 in
theorem upstream_login (Locked : DocsisUpstreamChannel → String) :
    Login (upstreamEnv Locked) scenarioStation scenarioStart
      = ((Login (upstreamEnv Locked) scenarioStation scenarioStart).1,
          .ok ⟨"ok", "", some scenarioLoginData⟩) :=
  Prod.ext rfl (by rfl)

set_option maxRecDepth 100000 in
theorem upstream_status (Locked : DocsisUpstreamChannel → String) :
    GetModemStatus (upstreamEnv Locked) scenarioStation
        (Login (upstreamEnv Locked) scenarioStation scenarioStart).1
      = ((GetModemStatus (upstreamEnv Locked) scenarioStation
            (Login (upstreamEnv Locked) scenarioStation scenarioStart).1).1,
          some ⟨"ok", "", some ⟨[], [], [], [some scenarioUpstream]⟩⟩, none) :=
  Prod.ext rfl (by rfl)

set_option maxRecDepth 100000 in
theorem upstream_logout (Locked : DocsisUpstreamChannel → String) :
    (Logout (upstreamEnv Locked) scenarioStation
        (printError (GetModemStatus (upstreamEnv Locked) scenarioStation
          (Login (upstreamEnv Locked) scenarioStation scenarioStart).1).1 none)).2
      = .ok ⟨"ok", ""⟩ := by
  rfl

/-- The observations of the scenario with a legacy upstream channel, in the order sent. -/
theorem upstream_metrics (Locked : DocsisUpstreamChannel → String) :
    (Collect (upstreamEnv Locked) scenarioStation scenarioStart).metrics =
      [⟨loginMessageDesc, 1, [""]⟩, ⟨loginSuccessDesc, 1, []⟩, ⟨userDesc, 1, ["admin"]⟩,
       ⟨uidDesc, 1, ["1"]⟩, ⟨defaultPasswordDesc, bool2float64 ("No" == "Yes"), []⟩,
       ⟨centralFrequencyUpstreamDesc, mulFloat64 (parse2float "37.0") 10e9,
           ["1", "2", "5120", "1"]⟩,
       ⟨powerUpstreamDesc, parse2float "45.5", ["1", "2", "5120", "1"]⟩,
       ⟨lockedUpstreamDesc, if Locked scenarioUpstream = "Locked" then 1 else 0,
          ["1", "2", "5120", "1"]⟩,
       ⟨logoutMessageDesc, 1, [""]⟩, ⟨logoutSuccessDesc, 1, []⟩] := by
  rw [Collect_of_login_ok _ _ _ _ _ _ _ _ (upstream_login Locked) rfl (upstream_status Locked)
    rfl]
  simp only [upstream_logout]
  rw [← bool2float64_eq_ite]
  rfl

theorem upstream_locked_metrics (Locked : DocsisUpstreamChannel → String) :
    ((Collect (upstreamEnv Locked) scenarioStation scenarioStart).metrics.filter
        fun m => decide (m.desc = lockedUpstreamDesc))
      = [⟨lockedUpstreamDesc, if Locked scenarioUpstream = "Locked" then 1 else 0,
          ["1", "2", "5120", "1"]⟩] := by
  rw [upstream_metrics]
  rfl

/-- The observation the claim expects for a legacy upstream record is among the attempts
of the loop body exactly when the selector of line 170 and the field `LockStatus` agree on
being `Locked`. -/
theorem upstreamMetrics_claimed_iff (Locked : DocsisUpstreamChannel → String)
    (ch : DocsisUpstreamChannel) :
    some ⟨lockedUpstreamDesc, if ch.LockStatus = "Locked" then 1 else 0,
        [ch.Id, ch.ChannelIdUp, ch.SymbolRate, ch.ChannelType]⟩ ∈ upstreamMetrics Locked ch
      ↔ (Locked ch = "Locked" ↔ ch.LockStatus = "Locked") := by
  constructor
  · intro h
    have := upstreamMetrics_locked Locked ch _ h rfl
    have hv := congrArg Metric.value this
    simp only at hv
    by_cases h1 : Locked ch = "Locked" <;> by_cases h2 : ch.LockStatus = "Locked" <;>
      simp [h1, h2] at hv ⊢
  · intro h
    rw [upstreamMetrics_eq, bool2float64_eq_ite]
    by_cases h2 : ch.LockStatus = "Locked"
    · simp [h2, h.2 h2]
    · have h1 : ¬ Locked ch = "Locked" := fun h1 => h2 (h.1 h1)
      simp [h2, h1]

/-- C8 (code): after a login without error and a diagnostics response with data, every
locked indicator `Collect` sends is that of a record of the table of its variant, with the
labels of the record, and is 1 if the text its loop compares is exactly `Locked` and 0 for
any other string. For the legacy downstream and the two OFDM variants the text is the lock
field of the record. For the legacy upstream channels line 170 compares
`upstreamChannel.Locked`, which `DocsisUpstreamChannel` does not declare (its lock field is
`LockStatus`): the indicator follows whatever that selector yields, and is the one the
claim expects exactly when the selector agrees with `LockStatus`. `Collect` ends without a
panic exactly when the login carries session data and no table holds a nil record, and then
it sends the indicator of every record of every table. In the scenario with one legacy
upstream record whose `LockStatus` is `Locked` the indicator is 1 if the selector yields
`Locked` and 0 otherwise: 1 when the selector is read as `LockStatus`, 0 when it yields the
empty string. The empty string, `locked` and `Locked ` followed by a blank give 0. -/
theorem C8_upstream_locked_selector {σ : Type} (env : Env σ) (v : FibertelStation)
    (st st1 st2 : State σ) (lr : LoginResponse) (resp : ModemStatusResponse)
    (data : ModemStatusData)
    (h1 : Login env v st = (st1, .ok lr))
    (h2 : GetModemStatus env v st1 = (st2, some resp, none))
    (hd : resp.Data = some data) :
    (∀ m ∈ (Collect env v st).metrics,
      (m.desc = lockedDownstreamDesc →
        ∃ ch, some ch ∈ data.Downstream
          ∧ m = ⟨lockedDownstreamDesc, if ch.Locked = "Locked" then 1 else 0,
              [ch.Id, ch.ChannelId, ch.Modulation, ch.ChannelType]⟩)
      ∧ (m.desc = lockedOfdmDownstreamDesc →
        ∃ ch, some ch ∈ data.OfdmDownstreamData
          ∧ m = ⟨lockedOfdmDownstreamDesc, if ch.LockedOfdm = "Locked" then 1 else 0,
              [ch.Id, ch.ChannelIdOfdm, ch.FftOfdm, ch.ChannelType]⟩)
      ∧ (m.desc = lockedUpstreamDesc →
        ∃ ch, some ch ∈ data.Upstream
          ∧ m = ⟨lockedUpstreamDesc, if env.upstreamLocked ch = "Locked" then 1 else 0,
              [ch.Id, ch.ChannelIdUp, ch.SymbolRate, ch.ChannelType]⟩)
      ∧ (m.desc = lockedOfdmUpstreamDesc →
        ∃ ch, some ch ∈ data.OfdmUpstreamData
          ∧ m = ⟨lockedOfdmUpstreamDesc, if ch.LockedOfdm = "Locked" then 1 else 0,
              [ch.Id, ch.ChannelIdOfdm, ch.FftOfdm, ch.ChannelType]⟩))
    ∧ ((Collect env v st).panicked = false ↔ lr.Data ≠ none ∧ NoNilRecord data)
    ∧ ((Collect env v st).panicked = false →
      (∀ ch, some ch ∈ data.Downstream →
        ⟨lockedDownstreamDesc, if ch.Locked = "Locked" then 1 else 0,
          [ch.Id, ch.ChannelId, ch.Modulation, ch.ChannelType]⟩ ∈ (Collect env v st).metrics)
      ∧ (∀ ch, some ch ∈ data.OfdmDownstreamData →
        ⟨lockedOfdmDownstreamDesc, if ch.LockedOfdm = "Locked" then 1 else 0,
          [ch.Id, ch.ChannelIdOfdm, ch.FftOfdm, ch.ChannelType]⟩ ∈ (Collect env v st).metrics)
      ∧ (∀ ch, some ch ∈ data.Upstream →
        ⟨lockedUpstreamDesc, if env.upstreamLocked ch = "Locked" then 1 else 0,
          [ch.Id, ch.ChannelIdUp, ch.SymbolRate, ch.ChannelType]⟩ ∈ (Collect env v st).metrics)
      ∧ (∀ ch, some ch ∈ data.OfdmUpstreamData →
        ⟨lockedOfdmUpstreamDesc, if ch.LockedOfdm = "Locked" then 1 else 0,
          [ch.Id, ch.ChannelIdOfdm, ch.FftOfdm, ch.ChannelType]⟩ ∈ (Collect env v st).metrics))
    ∧ (∀ (Locked : DocsisUpstreamChannel → String) (ch : DocsisUpstreamChannel),
      some ⟨lockedUpstreamDesc, if ch.LockStatus = "Locked" then 1 else 0,
          [ch.Id, ch.ChannelIdUp, ch.SymbolRate, ch.ChannelType]⟩ ∈ upstreamMetrics Locked ch
        ↔ (Locked ch = "Locked" ↔ ch.LockStatus = "Locked"))
    ∧ scenarioUpstream.LockStatus = "Locked"
    ∧ (∀ Locked : DocsisUpstreamChannel → String,
      ((Collect (upstreamEnv Locked) scenarioStation scenarioStart).metrics.filter
          fun m => decide (m.desc = lockedUpstreamDesc))
        = [⟨lockedUpstreamDesc, if Locked scenarioUpstream = "Locked" then 1 else 0,
            ["1", "2", "5120", "1"]⟩])
    ∧ ((Collect (upstreamEnv fun ch => ch.LockStatus) scenarioStation
          scenarioStart).metrics.filter fun m => decide (m.desc = lockedUpstreamDesc))
        = [⟨lockedUpstreamDesc, 1, ["1", "2", "5120", "1"]⟩]
    ∧ ((Collect (upstreamEnv fun _ => "") scenarioStation
          scenarioStart).metrics.filter fun m => decide (m.desc = lockedUpstreamDesc))
        = [⟨lockedUpstreamDesc, 0, ["1", "2", "5120", "1"]⟩]
    ∧ bool2float64 ("Locked" == "Locked") = 1
    ∧ bool2float64 ("" == "Locked") = 0
    ∧ bool2float64 ("locked" == "Locked") = 0
    ∧ bool2float64 ("Locked " == "Locked") = 0 := by
  have hstatus : statusMetrics env.upstreamLocked (some resp) none
      = channelMetrics env.upstreamLocked data := by
    simp only [statusMetrics, hd]
  refine ⟨?_, ?_, ?_, upstreamMetrics_claimed_iff, rfl, upstream_locked_metrics, ?_, ?_,
    by decide, by decide, by decide, by decide⟩
  · intro m hm
    rcases Collect_metrics_mem env v st st1 st2 lr _ _ h1 h2 m hm with h | h | h
    · exact lockedFollowsStatus_of_session _ data m (loginMetrics_desc lr m h).1
    · rw [hstatus] at h
      exact lockedFollowsStatus_of_channel _ data m h
    · exact lockedFollowsStatus_of_session _ data m (logoutMetrics_desc _ m h).1
  · rw [Collect_panicked env v st st1 st2 lr _ _ h1 h2, hstatus, panics_eq_false_iff]
    simp only [List.mem_append, none_mem_loginMetrics, none_mem_channelMetrics,
      none_not_mem_logoutMetrics, or_false, not_or, not_not, ne_eq]
  · intro hp
    have hall := Collect_no_panic env v st st1 st2 lr _ _ h1 h2 hp
    rw [hstatus] at hall
    have key : ∀ x : Metric, some x ∈ channelMetrics env.upstreamLocked data →
        x ∈ (Collect env v st).metrics := by
      intro x hx
      apply mem_of_some_mem_map
      rw [hall]
      simp only [List.mem_append]
      exact Or.inl (Or.inr hx)
    refine ⟨?_, ?_, ?_, ?_⟩ <;> intro ch hch <;> apply key <;>
      simp only [channelMetrics, List.mem_append]
    · refine Or.inl (Or.inl (Or.inl (mem_channelMetrics_of_mem _ _ ch _ hch ?_)))
      rw [downstreamMetrics_eq, bool2float64_eq_ite]
      simp
    · refine Or.inl (Or.inl (Or.inr (mem_channelMetrics_of_mem _ _ ch _ hch ?_)))
      rw [ofdmDownstreamMetrics_eq, bool2float64_eq_ite]
      simp
    · refine Or.inl (Or.inr (mem_channelMetrics_of_mem _ _ ch _ hch ?_))
      rw [upstreamMetrics_eq, bool2float64_eq_ite]
      simp
    · refine Or.inr (mem_channelMetrics_of_mem _ _ ch _ hch ?_)
      rw [ofdmUpstreamMetrics_eq, bool2float64_eq_ite]
      simp
  · rw [upstream_locked_metrics]
    rfl
  · rw [upstream_locked_metrics]
    rfl

/-- Witness of C8: the scenario with one legacy upstream record whose `LockStatus` is
`Locked`, on a device whose selector yields the empty string. The cycle does not panic and
sends the locked indicator 0 for the record. -/
theorem C8_upstream_locked_selector_witness :
    (⟨lockedUpstreamDesc, if (fun _ => "") scenarioUpstream = "Locked" then 1 else 0,
        [scenarioUpstream.Id, scenarioUpstream.ChannelIdUp, scenarioUpstream.SymbolRate,
          scenarioUpstream.ChannelType]⟩ : Metric)
      ∈ (Collect (upstreamEnv fun _ => "") scenarioStation scenarioStart).metrics :=
  ((C8_upstream_locked_selector (upstreamEnv fun _ => "") scenarioStation scenarioStart _ _
      _ _ ⟨[], [], [], [some scenarioUpstream]⟩ (upstream_login _) (upstream_status _)
      rfl).2.2.1
    (by rw [Collect_panicked _ _ _ _ _ _ _ _ (upstream_login _) (upstream_status _)]; rfl)).2.2.1
    scenarioUpstream (by simp)
/-! ### The scenario of a diagnostics response without data -/

set_option maxRecDepth 100000 in
theorem statusRefused_login :
    Login (scriptedEnv statusRefusedScript) scenarioStation scenarioStart
      = ((Login (scriptedEnv statusRefusedScript) scenarioStation scenarioStart).1,
          .ok ⟨"ok", "", some scenarioLoginData⟩) :=
  Prod.ext rfl (by rfl)

set_option maxRecDepth 100000 in
theorem statusRefused_status :
    GetModemStatus (scriptedEnv statusRefusedScript) scenarioStation
        (Login (scriptedEnv statusRefusedScript) scenarioStation scenarioStart).1
      = ((GetModemStatus (scriptedEnv statusRefusedScript) scenarioStation
            (Login (scriptedEnv statusRefusedScript) scenarioStation scenarioStart).1).1,
          some ⟨"fail", "", none⟩, none) :=
  Prod.ext rfl (by rfl)

/-! ### Failure of the diagnostics fetch -/

theorem GetModemStatus_of_ok {σ : Type} (env : Env σ) (v : FibertelStation)
    (st st1 : State σ) (body : String)
    (h : doRequest env { st with calls := st.calls ++ [ApiCall.GetModemStatus] } "GET"
      (modemStatusURL v (toString (env.makeTimestamp st.world))) "" = (st1, .ok body)) :
    GetModemStatus env v st
      = (st1, some (env.UnmarshalModemStatus body).1, (env.UnmarshalModemStatus body).2) := by
  unfold GetModemStatus
  simp only [h]

/-- A login response without `data` makes `Collect` panic at line 140, before the
diagnostics fetch: only `Login` has been entered. -/
theorem Collect_login_without_data {σ : Type} (env : Env σ) (v : FibertelStation)
    (st st1 : State σ) (lr : LoginResponse)
    (h1 : Login env v st = (st1, .ok lr)) (hd : lr.Data = none) :
    (Collect env v st).panicked = true
      ∧ (Collect env v st).state.calls = st.calls ++ [ApiCall.Login]
      ∧ (Collect env v st).metrics
          = [⟨loginMessageDesc, 1, [lr.Message]⟩, ⟨loginSuccessDesc, 1, []⟩] := by
  have hcalls := Login_calls env v st
  rw [h1] at hcalls
  have hl : loginMetrics lr = [some ⟨loginMessageDesc, 1, [lr.Message]⟩,
      some ⟨loginSuccessDesc, 1, []⟩, none] := by
    unfold loginMetrics
    rw [hd]
    rfl
  have hp : panics (loginMetrics lr) = true := by
    rw [hl]
    rfl
  unfold Collect
  rw [h1]
  simp only [hp, if_true]
  refine ⟨trivial, hcalls, ?_⟩
  rw [hl]
  rfl

/-- C9: after a login without error, with the session data `Collect` reads before it
fetches, when `GetModemStatus` returns an error or a response without `data`, `Collect`
sends the five login observations and those of the logout and nothing else (no channel
observation), does not panic, and enters `Login`, `GetModemStatus` and `Logout` once each,
in this order. When instead the response has `data` and an `error` field other than `ok`,
its channels are projected: `GetModemStatus` returns what `json.Unmarshal` leaves, with
the error of `json.Unmarshal` alone, and never looks at the `error` field. -/
theorem C9_fetch_failure {σ : Type} (env : Env σ) (v : FibertelStation)
    (st st1 st2 : State σ) (lr : LoginResponse) (d : LoginResponseData)
    (r : Option ModemStatusResponse) (err : Option String)
    (h1 : Login env v st = (st1, .ok lr)) (hd : lr.Data = some d)
    (h2 : GetModemStatus env v st1 = (st2, r, err)) :
    ((err ≠ none ∨ ∃ resp, r = some resp ∧ resp.Data = none) →
      (Collect env v st).metrics =
          [⟨loginMessageDesc, 1, [lr.Message]⟩, ⟨loginSuccessDesc, 1, []⟩,
           ⟨userDesc, 1, [d.User]⟩, ⟨uidDesc, 1, [d.Uid]⟩,
           ⟨defaultPasswordDesc, bool2float64 (d.DefaultPassword == "Yes"), []⟩]
          ++ sentBeforePanic (logoutMetrics (Logout env v (printError st2 err)).2)
      ∧ (∀ m ∈ (Collect env v st).metrics, m.desc ∈ sessionDescs)
      ∧ (Collect env v st).panicked = false
      ∧ (Collect env v st).state.calls
          = st.calls ++ [ApiCall.Login, ApiCall.GetModemStatus, ApiCall.Logout])
    ∧ (∀ resp data, r = some resp → err = none → resp.Error ≠ "ok" → resp.Data = some data →
        panics (channelMetrics env.upstreamLocked data) = false →
        (Collect env v st).metrics =
          sentBeforePanic (loginMetrics lr ++ channelMetrics env.upstreamLocked data
            ++ logoutMetrics (Logout env v (printError st2 err)).2))
    ∧ (∀ (st3 : State σ) (body : String),
        doRequest env { st1 with calls := st1.calls ++ [ApiCall.GetModemStatus] } "GET"
          (modemStatusURL v (toString (env.makeTimestamp st1.world))) "" = (st3, .ok body) →
        GetModemStatus env v st1
          = (st3, some (env.UnmarshalModemStatus body).1,
              (env.UnmarshalModemStatus body).2)) := by
  have hl := loginMetrics_eq lr d hd
  have hp : panics (loginMetrics lr) = false := by
    rw [hl]
    rfl
  refine ⟨?_, ?_, fun st3 body h => GetModemStatus_of_ok env v st1 st3 body h⟩
  · intro hfail
    have hs : statusMetrics env.upstreamLocked r err = [] := by
      cases err with
      | some e => cases r <;> rfl
      | none =>
        rcases hfail with h | ⟨resp, hr, hdata⟩
        · exact absurd rfl h
        · subst hr
          simp only [statusMetrics, hdata]
    have hC := Collect_of_login_ok env v st st1 st2 lr r err h1 hp h2 (by rw [hs]; rfl)
    have hm : (Collect env v st).metrics =
        [⟨loginMessageDesc, 1, [lr.Message]⟩, ⟨loginSuccessDesc, 1, []⟩,
         ⟨userDesc, 1, [d.User]⟩, ⟨uidDesc, 1, [d.Uid]⟩,
         ⟨defaultPasswordDesc, bool2float64 (d.DefaultPassword == "Yes"), []⟩]
        ++ sentBeforePanic (logoutMetrics (Logout env v (printError st2 err)).2) := by
      rw [hC]
      simp only [hs, List.append_nil]
      rw [sentBeforePanic_append _ _ hp, hl]
      rfl
    refine ⟨hm, ?_, ?_, ?_⟩
    · intro m hmem
      rcases Collect_metrics_mem env v st st1 st2 lr r err h1 h2 m hmem with h | h | h
      · exact (loginMetrics_desc lr m h).1
      · rw [hs] at h
        exact absurd h (by simp)
      · exact (logoutMetrics_desc _ m h).1
    · rw [hC]
      simp only [hs, List.append_nil, panics_append, hp, Bool.false_or]
      cases (Logout env v (printError st2 err)).2 <;> rfl
    · rw [hC]
      simp only []
      have c1 := Login_calls env v st
      rw [h1] at c1
      have c2 := GetModemStatus_calls env v st1
      rw [h2] at c2
      rw [Logout_calls, printError_calls]
      simp only [] at c1 c2
      rw [c2, c1]
      simp
  · intro resp data hr herr _ hdata hpc
    subst hr herr
    have hs : statusMetrics env.upstreamLocked (some resp) none
        = channelMetrics env.upstreamLocked data := by
      simp only [statusMetrics, hdata]
    have hC := Collect_of_login_ok env v st st1 st2 lr _ _ h1 hp h2 (by rw [hs]; exact hpc)
    rw [hC, hs]

/-- Witness of C9: the end-to-end scenario with a diagnostics response `error: fail`
without data. -/
theorem C9_fetch_failure_witness :
    (Collect (scriptedEnv statusRefusedScript) scenarioStation scenarioStart).panicked = false
    ∧ (Collect (scriptedEnv statusRefusedScript) scenarioStation scenarioStart).state.calls
        = [] ++ [ApiCall.Login, ApiCall.GetModemStatus, ApiCall.Logout] :=
  ((C9_fetch_failure (scriptedEnv statusRefusedScript) scenarioStation scenarioStart _ _ _
      scenarioLoginData _ _ statusRefused_login rfl statusRefused_status).1
    (Or.inr ⟨_, rfl, rfl⟩)).2.2

/-! ### Sign of the observations -/

theorem channelMetrics_nonneg (Locked : DocsisUpstreamChannel → String)
    (data : ModemStatusData) (m : Metric)
    (h : some m ∈ channelMetrics Locked data) : 0 ≤ m.value := by
  rcases channelMetrics_mem Locked data m h with
    ⟨r, -, hm⟩ | ⟨r, -, hm⟩ | ⟨r, -, hm⟩ | ⟨r, -, hm⟩
  · exact (downstreamMetrics_cases r m hm).2.1
  · exact (ofdmDownstreamMetrics_cases r m hm).2.1
  · exact (upstreamMetrics_cases Locked r m hm).2.1
  · exact (ofdmUpstreamMetrics_cases r m hm).2.1

/-- No observation `Collect` sends is negative. -/
theorem Collect_metrics_nonneg {σ : Type} (env : Env σ) (v : FibertelStation) (st : State σ)
    (m : Metric) (hm : m ∈ (Collect env v st).metrics) : 0 ≤ m.value := by
  rcases hL : Login env v st with ⟨st1, res⟩
  cases res with
  | error e =>
    rw [Collect_of_login_error env v st st1 e hL] at hm
    simp only [List.mem_cons, List.mem_singleton, List.not_mem_nil, or_false] at hm
    rcases hm with h | h <;> subst h <;> exact le_refl 0
  | ok lr =>
    rcases hG : GetModemStatus env v st1 with ⟨st2, r, err⟩
    rcases Collect_metrics_mem env v st st1 st2 lr r err hL hG m hm with h | h | h
    · exact (loginMetrics_desc lr m h).2
    · obtain ⟨resp, data, -, -, -, hc⟩ := statusMetrics_mem _ r err m h
      exact channelMetrics_nonneg _ data m hc
    · exact (logoutMetrics_desc _ m h).2

theorem parse2float_minus_2_1 : parse2float "-2.1 dBmV" = nearestFloat64 (21 / 10) := by
  rw [parse2float_of_scan "-2.1 dBmV" ⟨true, true, 21, 1⟩ (by decide) rfl
    (by have := float64Overflow_large; simp only []; omega)]
  have h : ((21 : ℕ) : ℚ) / 10 ^ 1 = 21 / 10 := by norm_num
  simp only [h]

set_option maxRecDepth 100000 in
theorem nearestFloat64_13 : nearestFloat64 13 = 13 := by
  rw [nearestFloat64_eval 13 13 1 1025 7318349394477056 (by norm_num) (by decide)
    (by decide) (by decide!) (Or.inl (by decide!)) (by decide!)]
  norm_num

theorem parse2float_1e3 : parse2float "1e3" = 13 := by
  rw [parse2float_of_scan "1e3" ⟨false, true, 13, 0⟩ (by decide) rfl
    (by have := float64Overflow_large; simp only []; omega)]
  have h : ((13 : ℕ) : ℚ) / 10 ^ 0 = 13 := by norm_num
  simp only [h]
  exact nearestFloat64_13

/-- C10: `parse2float` is never negative: the minus sign goes with the unit text, so
`-2.1 dBmV` gives the float64 nearest to 2.1 (4728779608739021 / 2^51, what `2.1` parses
to), and the exponent letter goes too, so `1e3` gives 13; hence every power and SNR
observation `Collect` sends is at least 0. -/
theorem C10_parse2float_nonneg :
    (∀ s, 0 ≤ parse2float s)
    ∧ parse2float "-2.1 dBmV" = nearestFloat64 2.1
    ∧ parse2float "-2.1 dBmV" = parse2float "2.1"
    ∧ nearestFloat64 2.1 = 4728779608739021 / 2 ^ 51
    ∧ parse2float "1e3" = 13
    ∧ (∀ (σ : Type) (env : Env σ) (v : FibertelStation) (st : State σ),
        ∀ m ∈ (Collect env v st).metrics, m.desc ∈ powerAndSnrDescs → 0 ≤ m.value) := by
  have h : (2.1 : ℚ) = 21 / 10 := by norm_num
  refine ⟨parse2float_nonneg, ?_, ?_, ?_, parse2float_1e3, ?_⟩
  · rw [parse2float_minus_2_1, h]
  · rw [parse2float_minus_2_1, parse2float_2_1]
  · rw [h]
    exact nearestFloat64_2_1
  · intro σ env v st m hm _
    exact Collect_metrics_nonneg env v st m hm

/-- Witness of C10: the power observation of the end-to-end scenario. -/
theorem C10_parse2float_nonneg_witness : (0 : ℚ) ≤ nearestFloat64 (21 / 10) :=
  C10_parse2float_nonneg.2.2.2.2.2 Nat (scriptedEnv endToEndScript) scenarioStation
    scenarioStart ⟨powerDownstreamDesc, nearestFloat64 (21 / 10), ["1", "5", "256QAM", "1"]⟩
    (by rw [endToEnd_metrics]; simp) (by decide)

/-! ### Describe against Collect -/

/-- Every descriptor of an observation `Collect` sends is one of `collectDescs`. -/
theorem Collect_desc_mem {σ : Type} (env : Env σ) (v : FibertelStation) (st : State σ)
    (m : Metric) (hm : m ∈ (Collect env v st).metrics) : m.desc ∈ collectDescs := by
  have hs : ∀ d, d ∈ sessionDescs → d ∈ collectDescs := by
    intro d hd
    simp only [collectDescs, List.mem_append]
    exact Or.inl (Or.inl (Or.inl (Or.inl hd)))
  rcases hL : Login env v st with ⟨st1, res⟩
  cases res with
  | error e =>
    rw [Collect_of_login_error env v st st1 e hL] at hm
    simp only [List.mem_cons, List.mem_singleton, List.not_mem_nil, or_false] at hm
    rcases hm with h | h <;> subst h
    · exact hs _ (by decide : loginSuccessDesc ∈ sessionDescs)
    · exact hs _ (by decide : logoutSuccessDesc ∈ sessionDescs)
  | ok lr =>
    rcases hG : GetModemStatus env v st1 with ⟨st2, r, err⟩
    rcases Collect_metrics_mem env v st st1 st2 lr r err hL hG m hm with h | h | h
    · exact hs _ (loginMetrics_desc lr m h).1
    · obtain ⟨resp, data, -, -, -, hc⟩ := statusMetrics_mem _ r err m h
      simp only [collectDescs, List.mem_append]
      rcases channelMetrics_mem _ data m hc with
        ⟨x, -, hx⟩ | ⟨x, -, hx⟩ | ⟨x, -, hx⟩ | ⟨x, -, hx⟩
      · exact Or.inl (Or.inl (Or.inl (Or.inr (downstreamMetrics_cases x m hx).1)))
      · exact Or.inl (Or.inl (Or.inr (ofdmDownstreamMetrics_cases x m hx).1))
      · exact Or.inl (Or.inr (upstreamMetrics_cases _ x m hx).1)
      · exact Or.inr (ofdmUpstreamMetrics_cases x m hx).1
    · exact hs _ (logoutMetrics_desc _ m h).1

set_option maxRecDepth 100000 in
/-- The declared descriptors are pairwise different, so two sends of one value are two
sends of one descriptor. -/
theorem declaredDescs_nodup : declaredDescs.Nodup := by
  decide

set_option maxRecDepth 100000 in
/-- C11 (code at `Describe`): `Describe` never sends `lockedDownstreamDesc` nor
`lockedUpstreamDesc`, and sends `snrDownstreamDesc` twice (lines 102-103). `Collect`
attaches both missing descriptors: the locked indicator of the end-to-end scenario carries
`lockedDownstreamDesc`, and the loop body of a legacy upstream channel sends one with
`lockedUpstreamDesc`, whatever the selector of line 170 yields, as does the cycle of the
scenario with one legacy upstream channel. These two are the only descriptors of `Collect`
that `Describe` misses, and `snrDownstreamDesc` is the only one it repeats. -/
theorem C11_describe_misses_and_repeats :
    lockedDownstreamDesc ∉ Describe
    ∧ lockedUpstreamDesc ∉ Describe
    ∧ Describe.count snrDownstreamDesc = 2
    ∧ ¬ Describe.Nodup
    ∧ (∃ m ∈ (Collect (scriptedEnv endToEndScript) scenarioStation scenarioStart).metrics,
        m.desc = lockedDownstreamDesc ∧ m.desc ∉ Describe)
    ∧ (∀ Locked : DocsisUpstreamChannel → String,
        ∃ m, some m ∈ upstreamMetrics Locked scenarioUpstream
          ∧ m.desc = lockedUpstreamDesc ∧ m.desc ∉ Describe)
    ∧ (∀ Locked : DocsisUpstreamChannel → String,
        ∃ m ∈ (Collect (upstreamEnv Locked) scenarioStation scenarioStart).metrics,
          m.desc = lockedUpstreamDesc ∧ m.desc ∉ Describe)
    ∧ collectDescs.filter (fun d => decide (d ∉ Describe))
        = [lockedDownstreamDesc, lockedUpstreamDesc]
    ∧ Describe.filter (fun d => decide (1 < Describe.count d))
        = [snrDownstreamDesc, snrDownstreamDesc] := by
  have h1 : lockedDownstreamDesc ∉ Describe := by decide
  have h2 : lockedUpstreamDesc ∉ Describe := by decide
  refine ⟨h1, h2, by decide, by decide, ?_, ?_, ?_, by decide, by decide⟩
  · refine ⟨⟨lockedDownstreamDesc, 1, ["1", "5", "256QAM", "1"]⟩, ?_, rfl, h1⟩
    rw [endToEnd_metrics]
    simp
  · intro Locked
    refine ⟨⟨lockedUpstreamDesc, bool2float64 (Locked scenarioUpstream == "Locked"),
      [scenarioUpstream.Id, scenarioUpstream.ChannelIdUp, scenarioUpstream.SymbolRate,
        scenarioUpstream.ChannelType]⟩, ?_, rfl, h2⟩
    rw [upstreamMetrics_eq]
    simp
  · intro Locked
    refine ⟨⟨lockedUpstreamDesc, if Locked scenarioUpstream = "Locked" then 1 else 0,
      ["1", "2", "5120", "1"]⟩, ?_, rfl, h2⟩
    rw [upstream_metrics]
    simp

end Fibertel
